import Mathlib

/-!
# Tacent View properties panel

A shallow embedding of `Src/Properties.cpp` (`Viewer::DoMultiSurface` and
`Viewer::ShowPropertiesWindow`: the file-type section with its load-parameter editors and
reload, and the frames section with the period controls and the playback row) and of the
tables of `Src/Profile.cpp`, followed by theorems about the frame-index arithmetic, the
clamps, the gamma-mode flags, the reload contract, the ranges of the stored values, the
informational texts, the playback row, a pass without interaction and the profile names.

Conventions of the embedding:

* A C++ `int` is a mathematical integer reduced into the 32-bit two's complement range after
  every arithmetic operation (`wrapInt`).  Division truncates toward zero and is undefined for
  a zero divisor (`divInt` returns `none`).
* An immediate-mode widget `if (ImGui::X(label, &v)) body` is embedded as a function of the
  user input of the pass: a `Bool` for a checkbox or button (`true` when it was clicked in this
  pass) and an `Option Int` for an `InputInt` (`some n` when the widget reported an edit and
  left `n` in the variable).
* Calls made on the image object are appended to a trace, and so are the lines shown with
  `ImGui::Text`.
* A C++ `float` field is a rational number: the order and the decimal constants of the source
  are kept, rounding and NaN are outside the embedding.
* Methods of the image object whose bodies are not among the source files (`Play`, `Stop`,
  `ResetLoadParams`, `Unload`, `Load`, `SetFrameDuration`) are parameters; a theorem that needs
  one of them to keep the load-parameter records says so in a hypothesis.
-/

namespace Viewer

/-! ## Machine integers -/

/-- Smallest value of a C++ `int`. -/
def INT_MIN : Int := -2147483648

/-- Largest value of a C++ `int`. -/
def INT_MAX : Int := 2147483647

/-- Reduction of a mathematical integer into the 32-bit two's complement range. -/
def wrapInt (x : Int) : Int := (x + 2147483648) % 4294967296 - 2147483648

/-- C++ `a + b` on `int`. -/
def addInt (a b : Int) : Int := wrapInt (a + b)

/-- C++ `a - b` on `int`. -/
def subInt (a b : Int) : Int := wrapInt (a - b)

/-- C++ `a * b` on `int`. -/
def mulInt (a b : Int) : Int := wrapInt (a * b)

/-- C++ `a / b` on `int`: truncation toward zero, no result for a zero divisor. -/
def divInt (a b : Int) : Option Int :=
  if b = 0 then none else some (wrapInt (Int.tdiv a b))

/-! ## Helpers of the Tacent maths library -/

/-- Modelled from the spec: `tMath::tiClamp(val, lo, hi)` belongs to the Tacent foundation
library and is not among the source files.  The spec (section 4.2, step 3, and section 8)
describes it as the saturating clamp of `val` into the inclusive range `[lo, hi]`: a value
below `lo` becomes `lo`, a value above `hi` becomes `hi`, any other value is kept.  The C++
helper assigns the result to `val`; here the new value of `val` is returned. -/
def tiClamp {α : Type} [LinearOrder α] (val lo hi : α) : α :=
  if val < lo then lo else if val > hi then hi else val

/-- Modelled from the spec: `tMath::tClampMin(val, lo)` is not among the source files; it is
the one-sided saturating clamp that keeps `val` at or above `lo` (spec section 8, frame
navigation bounds: a decrement below zero stays at zero). -/
def tClampMin {α : Type} [LinearOrder α] (val lo : α) : α :=
  if val < lo then lo else val

/-- Modelled from the spec: `tMath::tClampMax(val, hi)` is not among the source files; it is
the one-sided saturating clamp that keeps `val` at or below `hi` (spec section 8, frame
navigation bounds: an increment beyond the last frame stays at the last frame). -/
def tClampMax {α : Type} [LinearOrder α] (val hi : α) : α :=
  if val > hi then hi else val

/-- Modelled from the spec: the constant `tFaceIndex_NumFaces` is declared in the Tacent image
library, not in the source files; the spec (section 4.1) gives the number of cube faces as the
compile-time constant 6. -/
def tFaceIndex_NumFaces : Int := 6

/-! ## The image object and the panel state -/

/-- Calls the panel makes on the current image. -/
inductive Call where
  | EnableAltPicture (enabled : Bool)
  | Bind
  | Play
  | Stop
  | Unload
  | Load
  | ResetLoadParams
  | SetFrameDuration (seconds : Rat) (applyToAll : Bool)
  deriving DecidableEq, Repr

/-- The file types with a case of their own in the `switch` of line 184; every other file type
is `Other`. -/
inductive tFileType where
  | DDS | PVR | KTX | KTX2 | ASTC | PKM | HDR | EXR | TGA | WEBP | Other
  deriving DecidableEq, Repr

/-- What the panel reads of `CurrImage->Info`.  The pixel-format predicates (`tIsETCFormat`,
...) are declared in the Tacent image library, not in the source files; their results on the
image's source pixel format and colour profile are fields here. -/
structure ImgInfo where
  /-- The result of `tIsETCFormat(Info.SrcPixelFormat)`. -/
  IsETCFormat : Bool
  /-- The result of `tIsEACFormat(Info.SrcPixelFormat)`. -/
  IsEACFormat : Bool
  /-- The result of `tIsHDRFormat(Info.SrcPixelFormat)`. -/
  IsHDRFormat : Bool
  /-- The result of `tIsASTCFormat(Info.SrcPixelFormat)`. -/
  IsASTCFormat : Bool
  /-- The result of `tIsLuminanceFormat(Info.SrcPixelFormat)`. -/
  IsLuminanceFormat : Bool
  /-- The result of `tIsProfileLinearInRGB(Info.SrcColourProfile)`. -/
  IsProfileLinearInRGB : Bool
  /-- True when `Info.SrcPixelFormat` is `R8G8B8M8` or `R8G8B8D8` (line 384, PVR). -/
  IsRGBMOrRGBD : Bool
  /-- True when `Info.SrcPixelFormat` is `R8G8B8A8` or `G3B5A1R5G2` (line 858, TGA). -/
  IsRGBA8OrG3B5A1R5G2 : Bool
  /-- True when `Info.Opacity == OpacityEnum::True` (line 901, WEBP). -/
  OpacityTrue : Bool
  deriving DecidableEq, Repr

/-- The record `CurrImage->LoadParams_DDS` as far as the panel uses it. -/
structure LoadParamsDDS where
  Flags : Nat
  Gamma : Rat
  Exposure : Rat
  deriving DecidableEq, Repr

/-- The record `CurrImage->LoadParams_PVR` as far as the panel uses it. -/
structure LoadParamsPVR where
  Flags : Nat
  Gamma : Rat
  Exposure : Rat
  MaxRange : Rat
  deriving DecidableEq, Repr

/-- The record `CurrImage->LoadParams_KTX` as far as the panel uses it. -/
structure LoadParamsKTX where
  Flags : Nat
  Gamma : Rat
  Exposure : Rat
  deriving DecidableEq, Repr

/-- The record `CurrImage->LoadParams_ASTC` as far as the panel uses it; `Profile` is the
integer value of the `tColourProfile` enumeration. -/
structure LoadParamsASTC where
  Profile : Int
  Flags : Nat
  Gamma : Rat
  Exposure : Rat
  deriving DecidableEq, Repr

/-- The record `CurrImage->LoadParams_PKM` as far as the panel uses it. -/
structure LoadParamsPKM where
  Flags : Nat
  Gamma : Rat
  deriving DecidableEq, Repr

/-- The record `CurrImage->LoadParams_HDR` as far as the panel uses it. -/
structure LoadParamsHDR where
  Gamma : Rat
  Exposure : Int
  deriving DecidableEq, Repr

/-- The record `CurrImage->LoadParams_EXR` as far as the panel uses it. -/
structure LoadParamsEXR where
  Gamma : Rat
  Exposure : Rat
  Defog : Rat
  KneeLow : Rat
  KneeHigh : Rat
  deriving DecidableEq, Repr

/-- The record `CurrImage->LoadParams_TGA` as far as the panel uses it. -/
structure LoadParamsTGA where
  Flags : Nat
  deriving DecidableEq, Repr

/-- The part of `Viewer::Image` the panel reads and writes.  The getters of the C++ class
(`GetNumFrames()`, `IsAltPictureEnabled()`, ...) are the fields of the same name. -/
structure Image where
  /-- True when `GetMultiFrameType() == Image::MultiFrameType::TextureArray`. -/
  IsTextureArray : Bool
  NumMipLevels : Int
  NumArrayLayers : Int
  AltMipmapsPictureAvail : Bool
  AltCubemapPictureAvail : Bool
  AltPictureEnabled : Bool
  NumFrames : Int
  FrameNum : Int
  FramePlaying : Bool
  FramePlayRev : Bool
  FramePlayLooping : Bool
  IsLoaded : Bool
  Filetype : tFileType
  Info : ImgInfo
  LoadParams_DDS : LoadParamsDDS
  LoadParams_PVR : LoadParamsPVR
  LoadParams_KTX : LoadParamsKTX
  LoadParams_ASTC : LoadParamsASTC
  LoadParams_PKM : LoadParamsPKM
  LoadParams_HDR : LoadParamsHDR
  LoadParams_EXR : LoadParamsEXR
  LoadParams_TGA : LoadParamsTGA
  OverrideBackgroundColour : Bool
  FrameDurationPreviewEnabled : Bool
  FrameDurationPreview : Rat
  /-- The value of `GetCurrentPic()->Duration` (line 969). -/
  CurrentPicDuration : Rat
  deriving DecidableEq, Repr

/-- Modelled from the spec: `Image::EnableAltPicture` is not among the source files; by the
spec (section 8) the alt-enabled flag read by `IsAltPictureEnabled()` holds the requested
value afterwards. -/
def Image.EnableAltPicture (img : Image) (enabled : Bool) : Image :=
  { img with AltPictureEnabled := enabled }

/-- The state a pass of the panel works on: the current image, the crop flag, the three
global display toggles of `TacentView.cpp`, the scrubber flag of the profile
(`profile.ShowFrameScrubber`), the calls made so far and the lines shown with `ImGui::Text`
so far. -/
structure PanelState where
  CurrImage : Image
  CropMode : Bool
  gShowAllMipsUnified : Bool
  gShowAllArrayLayers : Bool
  gShowLayerMipMatrix : Bool
  ShowFrameScrubber : Bool
  calls : List Call
  texts : List String
  deriving DecidableEq, Repr

/-- `CurrImage->EnableAltPicture(enabled)` with the call recorded. -/
def PanelState.EnableAltPicture (s : PanelState) (enabled : Bool) : PanelState :=
  { s with CurrImage := s.CurrImage.EnableAltPicture enabled,
           calls := s.calls ++ [Call.EnableAltPicture enabled] }

/-- `CurrImage->Bind()`: recorded, no effect on the modelled fields. -/
def PanelState.Bind (s : PanelState) : PanelState :=
  { s with calls := s.calls ++ [Call.Bind] }

/-- `CurrImage->FrameNum = n`. -/
def PanelState.setFrameNum (s : PanelState) (n : Int) : PanelState :=
  { s with CurrImage := { s.CurrImage with FrameNum := n } }

/-! ## `Viewer::DoMultiSurface` -/

/-- User input of one pass through `DoMultiSurface`. -/
structure MultiSurfaceInput where
  /-- "Display All Mipmaps" checkbox clicked (line 46 or line 67). -/
  displayAllMipmaps : Bool
  /-- "Display All Layers" checkbox clicked (line 59). -/
  displayAllLayers : Bool
  /-- "Layer/Mip Matrix" checkbox clicked (line 61). -/
  layerMipMatrix : Bool
  /-- "Display As Cubemap" checkbox clicked (line 80). -/
  displayAsCubemap : Bool
  /-- "Cube Side" `InputInt` edited to this value (line 102). -/
  cubeSide : Option Int
  /-- "Cube Mip" `InputInt` edited to this value (line 119). -/
  cubeMip : Option Int
  /-- "Mipmap"/"Texture" `InputInt` edited to this value (line 133). -/
  textureNum : Option Int
  deriving DecidableEq, Repr

/-- A pass without any interaction. -/
def MultiSurfaceInput.none : MultiSurfaceInput :=
  { displayAllMipmaps := false, displayAllLayers := false, layerMipMatrix := false,
    displayAsCubemap := false, cubeSide := Option.none, cubeMip := Option.none,
    textureNum := Option.none }

/-- Lines 41-74: the "Display All Mipmaps" section.  Returns the new state and `anyDraw`. -/
def mipmapsSection (inp : MultiSurfaceInput) (s : PanelState) : PanelState × Bool :=
  let isTextureArray := s.CurrImage.IsTextureArray
  let altMipmapsPicAvail := s.CurrImage.AltMipmapsPictureAvail && !s.CropMode
  let altMipmapsPicEnabl := altMipmapsPicAvail && s.CurrImage.AltPictureEnabled
  if isTextureArray && decide (s.CurrImage.NumMipLevels > 1) then
    let s1 :=
      if inp.displayAllMipmaps then
        let t := { s with gShowAllMipsUnified := !s.gShowAllMipsUnified }
        if !t.gShowAllMipsUnified && t.CurrImage.AltPictureEnabled then
          (t.EnableAltPicture false).Bind
        else t
      else s
    let s2 :=
      if decide (s1.CurrImage.NumArrayLayers > 1) then
        let t := if inp.displayAllLayers
          then { s1 with gShowAllArrayLayers := !s1.gShowAllArrayLayers } else s1
        if inp.layerMipMatrix
          then { t with gShowLayerMipMatrix := !t.gShowLayerMipMatrix } else t
      else s1
    (s2, true)
  else if altMipmapsPicAvail then
    let s1 :=
      if inp.displayAllMipmaps then (s.EnableAltPicture (!altMipmapsPicEnabl)).Bind else s
    (s1, true)
  else (s, false)

/-- Lines 76-87: the "Display As Cubemap" section. -/
def cubemapSection (inp : MultiSurfaceInput) (s : PanelState) (anyDraw : Bool) :
    PanelState × Bool :=
  let altCubemapPicAvail := s.CurrImage.AltCubemapPictureAvail && !s.CropMode
  let altCubemapPicEnabl := altCubemapPicAvail && s.CurrImage.AltPictureEnabled
  if altCubemapPicAvail then
    let s1 :=
      if inp.displayAsCubemap then (s.EnableAltPicture (!altCubemapPicEnabl)).Bind else s
    (s1, true)
  else (s, anyDraw)

/-- Line 95: `numCubeMips = numTextures / numCubeSurfs`. -/
def numCubeMips (numTextures : Int) : Option Int :=
  divInt numTextures tFaceIndex_NumFaces

/-- Line 96: `oneBasedSurfNum = FrameNum/numCubeMips + 1`. -/
def oneBasedSurfNum (FrameNum numCubeMips : Int) : Option Int :=
  (divInt FrameNum numCubeMips).map (fun q => addInt q 1)

/-- Line 97: `oneBasedMipNum = FrameNum - ((oneBasedSurfNum-1)*numCubeMips) + 1`. -/
def oneBasedMipNum (FrameNum surfNum numCubeMips : Int) : Int :=
  addInt (subInt FrameNum (mulInt (subInt surfNum 1) numCubeMips)) 1

/-- Lines 96-97 together: the one-based cube coordinates `(side, mip)` of a frame number. -/
def cubeCoords (FrameNum numCubeMips : Int) : Option (Int × Int) :=
  (oneBasedSurfNum FrameNum numCubeMips).map
    (fun surfNum => (surfNum, oneBasedMipNum FrameNum surfNum numCubeMips))

/-- Lines 105 and 122: `(oneBasedSurfNum-1)*numCubeMips + (oneBasedMipNum-1)`. -/
def cubeFrameNum (surfNum mipNum numCubeMips : Int) : Int :=
  addInt (mulInt (subInt surfNum 1) numCubeMips) (subInt mipNum 1)

/-- Lines 94-125: the cubemap branch of the frame selection.  The result is `none` when
`FrameNum/numCubeMips` divides by zero. -/
def cubeBranch (inp : MultiSurfaceInput) (s : PanelState) (numTextures : Int) :
    Option PanelState := do
  let numCubeSurfs := tFaceIndex_NumFaces
  let cubeMips ← numCubeMips numTextures
  let (surf0, mip0) ← cubeCoords s.CurrImage.FrameNum cubeMips
  -- Lines 102-106: the "Cube Side" edit.
  let (surf1, s1) :=
    match inp.cubeSide with
    | some entered =>
      let c := tiClamp entered 1 numCubeSurfs
      (c, s.setFrameNum (cubeFrameNum c mip0 cubeMips))
    | Option.none => (surf0, s)
  -- Lines 114-125: the "Cube Mip" edit, offered when there is more than one mip.
  if decide (cubeMips > 1) then
    match inp.cubeMip with
    | some entered =>
      let c := tiClamp entered 1 cubeMips
      pure (s1.setFrameNum (cubeFrameNum surf1 c cubeMips))
    | Option.none => pure s1
  else pure s1

/-- Lines 129-138: the "Mipmap"/"Texture" number edit. -/
def textureBranch (inp : MultiSurfaceInput) (s : PanelState) (numTextures : Int) :
    PanelState :=
  match inp.textureNum with
  | some oneBasedTextureNum =>
    let s1 := s.setFrameNum (subInt oneBasedTextureNum 1)
    s1.setFrameNum (tiClamp s1.CurrImage.FrameNum 0 (subInt numTextures 1))
  | Option.none => s

/-- Lines 89-141: the frame selection section.  `altCubemapPicAvail` is the local of line 76;
nothing between line 76 and line 92 changes the values it is computed from. -/
def frameSection (inp : MultiSurfaceInput) (s : PanelState) (anyDraw : Bool) :
    Option (PanelState × Bool) :=
  let altCubemapPicAvail := s.CurrImage.AltCubemapPictureAvail && !s.CropMode
  let numTextures := s.CurrImage.NumFrames
  if decide (numTextures ≥ 2) && !s.CurrImage.AltPictureEnabled then
    if altCubemapPicAvail then
      (cubeBranch inp s numTextures).map (fun s1 => (s1, true))
    else
      some (textureBranch inp s numTextures, true)
  else some (s, anyDraw)

/-- The function `Viewer::DoMultiSurface` (lines 36-144).  The result is `none` when the pass
divides by zero, otherwise the new state and the returned `anyDraw`. -/
def DoMultiSurface (inp : MultiSurfaceInput) (s : PanelState) : Option (PanelState × Bool) :=
  let r1 := mipmapsSection inp s
  let r2 := cubemapSection inp r1.1 r1.2
  frameSection inp r2.1 r2.2

/-! ## `Viewer::ShowPropertiesWindow`: frame number and playback row -/

/-- Methods of `Viewer::Image` whose bodies are not among the source files and whose effect on
the image the panel does not determine; they are parameters of the embedding. -/
structure ImageMethods where
  Play : Image → Image
  Stop : Image → Image
  ResetLoadParams : Image → Image
  Unload : Image → Image
  Load : Image → Image
  SetFrameDuration : Rat → Bool → Image → Image

/-- `CurrImage->Play()` with the call recorded. -/
def PanelState.Play (m : ImageMethods) (s : PanelState) : PanelState :=
  { s with CurrImage := m.Play s.CurrImage, calls := s.calls ++ [Call.Play] }

/-- `CurrImage->Stop()` with the call recorded. -/
def PanelState.Stop (m : ImageMethods) (s : PanelState) : PanelState :=
  { s with CurrImage := m.Stop s.CurrImage, calls := s.calls ++ [Call.Stop] }

/-- Lines 929-937: the "Frame" number edit.  `entered` is `some n` when the `InputInt`
reported an edit and left `n` in `oneBasedFrameNum`. -/
def frameNumEdit (entered : Option Int) (s : PanelState) : PanelState :=
  match entered with
  | some oneBasedFrameNum =>
    let s1 := s.setFrameNum (subInt oneBasedFrameNum 1)
    s1.setFrameNum (tiClamp s1.CurrImage.FrameNum 0 (subInt s1.CurrImage.NumFrames 1))
  | Option.none => s

/-- `CurrImage->ResetLoadParams()` with the call recorded. -/
def PanelState.ResetLoadParams (m : ImageMethods) (s : PanelState) : PanelState :=
  { s with CurrImage := m.ResetLoadParams s.CurrImage,
           calls := s.calls ++ [Call.ResetLoadParams] }

/-- `CurrImage->Unload()` with the call recorded. -/
def PanelState.Unload (m : ImageMethods) (s : PanelState) : PanelState :=
  { s with CurrImage := m.Unload s.CurrImage, calls := s.calls ++ [Call.Unload] }

/-- `CurrImage->Load()` with the call recorded. -/
def PanelState.Load (m : ImageMethods) (s : PanelState) : PanelState :=
  { s with CurrImage := m.Load s.CurrImage, calls := s.calls ++ [Call.Load] }

/-- `CurrImage->SetFrameDuration(seconds, applyToAll)` with the call recorded. -/
def PanelState.SetFrameDuration (m : ImageMethods) (seconds : Rat) (applyToAll : Bool)
    (s : PanelState) : PanelState :=
  { s with CurrImage := m.SetFrameDuration seconds applyToAll s.CurrImage,
           calls := s.calls ++ [Call.SetFrameDuration seconds applyToAll] }

/-- `ImGui::Text(line)`: the line is shown. -/
def PanelState.Text (s : PanelState) (line : String) : PanelState :=
  { s with texts := s.texts ++ [line] }

/-- Lines 288-289 (DDS; likewise 419-420 PVR, 553-554 KTX/KTX2, 672-673 ASTC): the body of the
Reset button, `ResetLoadParams()` followed by `FrameNum = 0`. -/
def resetPressed (m : ImageMethods) (s : PanelState) : PanelState :=
  (s.ResetLoadParams m).setFrameNum 0

/-- Buttons of the playback row pressed in one pass. -/
structure PlaybackInput where
  loop : Bool
  skipBegin : Bool
  prev : Bool
  playRev : Bool
  playFwd : Bool
  next : Bool
  skipEnd : Bool
  deriving DecidableEq, Repr

/-- A pass in which no button of the playback row is pressed. -/
def PlaybackInput.none : PlaybackInput :=
  { loop := false, skipBegin := false, prev := false, playRev := false, playFwd := false,
    next := false, skipEnd := false }

/-- Lines 1000-1003: the loop button toggles `FramePlayLooping`. -/
def loopButton (pressed : Bool) (s : PanelState) : PanelState :=
  if pressed
  then { s with CurrImage :=
          { s.CurrImage with FramePlayLooping := !s.CurrImage.FramePlayLooping } }
  else s

/-- Line 1005: `prevEnabled = !FramePlaying && (FrameNum > 0)`. -/
def prevEnabled (s : PanelState) : Bool :=
  !s.CurrImage.FramePlaying && decide (s.CurrImage.FrameNum > 0)

/-- Lines 1006-1013: the skip-to-begin button. -/
def skipBeginButton (pressed enabled : Bool) (s : PanelState) : PanelState :=
  if pressed && enabled then s.setFrameNum 0 else s

/-- Lines 1015-1022: the previous-frame button,
`FrameNum = tClampMin(FrameNum-1, 0)`. -/
def prevButton (pressed enabled : Bool) (s : PanelState) : PanelState :=
  if pressed && enabled
  then s.setFrameNum (tClampMin (subInt s.CurrImage.FrameNum 1) 0) else s

/-- Line 1024: `playRevEnabled = !(FramePlaying && !FramePlayRev)`. -/
def playRevEnabled (s : PanelState) : Bool :=
  !(s.CurrImage.FramePlaying && !s.CurrImage.FramePlayRev)

/-- Lines 1025-1037: the play-reverse / stop button. -/
def playRevButton (m : ImageMethods) (pressed : Bool) (s : PanelState) : PanelState :=
  if pressed && playRevEnabled s
  then
    let t := { s with CurrImage := { s.CurrImage with FramePlayRev := true } }
    if t.CurrImage.FramePlaying then t.Stop m else t.Play m
  else s

/-- Line 1039: `playFwdEnabled = !(FramePlaying && FramePlayRev)`. -/
def playFwdEnabled (s : PanelState) : Bool :=
  !(s.CurrImage.FramePlaying && s.CurrImage.FramePlayRev)

/-- Lines 1040-1052: the play-forward / stop button. -/
def playFwdButton (m : ImageMethods) (pressed : Bool) (s : PanelState) : PanelState :=
  if pressed && playFwdEnabled s
  then
    let t := { s with CurrImage := { s.CurrImage with FramePlayRev := false } }
    if t.CurrImage.FramePlaying then t.Stop m else t.Play m
  else s

/-- Line 1054: `nextEnabled = !FramePlaying && (FrameNum < (numFrames-1))`. -/
def nextEnabled (numFrames : Int) (s : PanelState) : Bool :=
  !s.CurrImage.FramePlaying && decide (s.CurrImage.FrameNum < subInt numFrames 1)

/-- Lines 1055-1061: the next-frame button,
`FrameNum = tClampMax(FrameNum+1, numFrames-1)`. -/
def nextButton (pressed enabled : Bool) (numFrames : Int) (s : PanelState) : PanelState :=
  if pressed && enabled
  then s.setFrameNum (tClampMax (addInt s.CurrImage.FrameNum 1) (subInt numFrames 1))
  else s

/-- Lines 1063-1069: the skip-to-end button. -/
def skipEndButton (pressed enabled : Bool) (numFrames : Int) (s : PanelState) : PanelState :=
  if pressed && enabled then s.setFrameNum (subInt numFrames 1) else s

/-- Lines 1000-1070: the playback row.  `numFrames` is the local of line 919.  The flag
`prevEnabled` is computed once, before the skip-to-begin button, and `nextEnabled` once,
before the next-frame button, as in the source. -/
def playbackRow (m : ImageMethods) (inp : PlaybackInput) (numFrames : Int) (s : PanelState) :
    PanelState :=
  let s1 := loopButton inp.loop s
  let pe := prevEnabled s1
  let s2 := skipBeginButton inp.skipBegin pe s1
  let s3 := prevButton inp.prev pe s2
  let s4 := playRevButton m inp.playRev s3
  let s5 := playFwdButton m inp.playFwd s4
  let ne := nextEnabled numFrames s5
  let s6 := nextButton inp.next ne numFrames s5
  skipEndButton inp.skipEnd ne numFrames s6

/-! ## `Viewer::ShowPropertiesWindow`: the gamma correction combo -/

/-- The three gamma load-flag constants of one image format (`tImageDDS::LoadFlag_...`,
`tImagePVR::LoadFlag_...`, `tImageKTX::...`, `tImageASTC::...`, `tImagePKM::...`).  Their
values are declared in the Tacent image library, not in the source files, and are parameters
of the embedding. -/
structure GammaFlagBits where
  LoadFlag_GammaCompression : Nat
  LoadFlag_SRGBCompression : Nat
  LoadFlag_AutoGamma : Nat
  deriving DecidableEq, Repr

/-- The three constants are single bits of a 32-bit word, at three different positions. -/
def GammaFlagBits.DistinctSingleBits (b : GammaFlagBits) : Prop :=
  ∃ i j k : Nat, i < 32 ∧ j < 32 ∧ k < 32 ∧ i ≠ j ∧ i ≠ k ∧ j ≠ k ∧
    b.LoadFlag_GammaCompression = 2 ^ i ∧ b.LoadFlag_SRGBCompression = 2 ^ j ∧
    b.LoadFlag_AutoGamma = 2 ^ k

/-- C++ `Flags & flag` used as a condition: the flag is set in the 32-bit word `Flags`. -/
def flagSet (Flags flag : Nat) : Bool := (Flags &&& flag) != 0

/-- C++ `~x` on a 32-bit word. -/
def not32 (x : Nat) : Nat := 4294967295 ^^^ (x % 4294967296)

/-- Lines 205-211 (DDS; likewise 326-332 PVR, 465-471 KTX/KTX2, 611-617 ASTC, 693-699 PKM):
the gamma mode read from the flags. -/
def readGammaMode (b : GammaFlagBits) (Flags : Nat) : Int :=
  let gammaMode0 : Int := 0
  let gammaMode1 := if flagSet Flags b.LoadFlag_GammaCompression then 1 else gammaMode0
  let gammaMode2 := if flagSet Flags b.LoadFlag_SRGBCompression then 2 else gammaMode1
  if flagSet Flags b.LoadFlag_AutoGamma then 3 else gammaMode2

/-- Lines 216-219 (DDS; likewise 337-340 PVR, 476-479 KTX/KTX2, 622-625 ASTC, 704-707 PKM):
the body run when the "Gamma Corr" combo reports the selection `gammaMode`. -/
def gammaComboSelect (b : GammaFlagBits) (Flags : Nat) (gammaMode : Int) : Nat :=
  let f0 := Flags &&& not32 (b.LoadFlag_GammaCompression ||| b.LoadFlag_SRGBCompression |||
    b.LoadFlag_AutoGamma)
  let f1 := if gammaMode = 1 then f0 ||| b.LoadFlag_GammaCompression else f0
  let f2 := if gammaMode = 2 then f1 ||| b.LoadFlag_SRGBCompression else f1
  if gammaMode = 3 then f2 ||| b.LoadFlag_AutoGamma else f2

/-- Lines 772-777: the HDR "Exposure" field.  `entered` is `some n` when the `InputInt`
reported an edit and left `n` in `LoadParams_HDR.Exposure`; the clamp of line 777 runs in
every pass.  Returns the stored exposure and whether the edit marked a reload. -/
def hdrExposureField (entered : Option Int) (Exposure : Int) : Int × Bool :=
  let (e, reloadChanges) :=
    match entered with
    | some n => (n, true)
    | Option.none => (Exposure, false)
  (tiClamp e (-10) 10, reloadChanges)

/-- The frame number is a valid zero-based index into the frames of the current image. -/
def FrameNumInRange (s : PanelState) : Prop :=
  0 ≤ s.CurrImage.FrameNum ∧ s.CurrImage.FrameNum ≤ s.CurrImage.NumFrames - 1

instance (s : PanelState) : Decidable (FrameNumInRange s) := by
  unfold FrameNumInRange; infer_instance

/-- The conditions of lines 90 and 92 under which `DoMultiSurface` runs the cubemap branch,
evaluated on the state that reaches line 89. -/
def entersCubeBranch (s : PanelState) : Bool :=
  (decide (s.CurrImage.NumFrames ≥ 2) && !s.CurrImage.AltPictureEnabled) &&
    (s.CurrImage.AltCubemapPictureAvail && !s.CropMode)

/-- Pixel-format information used in the examples: every predicate is false. -/
def exampleInfo : ImgInfo :=
  { IsETCFormat := false, IsEACFormat := false, IsHDRFormat := false, IsASTCFormat := false,
    IsLuminanceFormat := false, IsProfileLinearInRGB := false, IsRGBMOrRGBD := false,
    IsRGBA8OrG3B5A1R5G2 := false, OpacityTrue := false }

/-- A cubemap image used in the examples: a loaded DDS file, no alternate picture enabled, not
playing, no flag set, every numeric load parameter inside its declared range. -/
def exampleCubemap (numFrames frameNum : Int) : PanelState :=
  { CurrImage :=
      { IsTextureArray := false, NumMipLevels := 1, NumArrayLayers := 1,
        AltMipmapsPictureAvail := false, AltCubemapPictureAvail := true,
        AltPictureEnabled := false, NumFrames := numFrames, FrameNum := frameNum,
        FramePlaying := false, FramePlayRev := false, FramePlayLooping := false,
        IsLoaded := true, Filetype := tFileType.DDS, Info := exampleInfo,
        LoadParams_DDS := { Flags := 0, Gamma := 2, Exposure := 1 },
        LoadParams_PVR := { Flags := 0, Gamma := 2, Exposure := 1, MaxRange := 8 },
        LoadParams_KTX := { Flags := 0, Gamma := 2, Exposure := 1 },
        LoadParams_ASTC := { Profile := 0, Flags := 0, Gamma := 2, Exposure := 1 },
        LoadParams_PKM := { Flags := 0, Gamma := 2 },
        LoadParams_HDR := { Gamma := 2, Exposure := 0 },
        LoadParams_EXR := { Gamma := 2, Exposure := 1, Defog := 0, KneeLow := 0,
                            KneeHigh := 4 },
        LoadParams_TGA := { Flags := 0 },
        OverrideBackgroundColour := false, FrameDurationPreviewEnabled := false,
        FrameDurationPreview := 1, CurrentPicDuration := 1 },
    CropMode := false, gShowAllMipsUnified := false, gShowAllArrayLayers := false,
    gShowLayerMipMatrix := false, ShowFrameScrubber := false, calls := [], texts := [] }

/-- A plain multi-frame image used in the examples. -/
def exampleFrames (numFrames frameNum : Int) : PanelState :=
  { exampleCubemap numFrames frameNum with
    CurrImage := { (exampleCubemap numFrames frameNum).CurrImage with
      AltCubemapPictureAvail := false } }

/-- Image methods used in the examples: none of them changes a modelled field. -/
def exampleMethods : ImageMethods :=
  { Play := fun img => img, Stop := fun img => img, ResetLoadParams := fun img => img,
    Unload := fun img => img, Load := fun img => img,
    SetFrameDuration := fun _ _ img => img }

/-! ## `Viewer::ShowPropertiesWindow`: the file-type section -/

/-- The load-flag constants of one image format (`tImageDDS::LoadFlag_...` and likewise for
PVR, KTX, ASTC and PKM).  Their values are declared in the Tacent image library, not in the
source files, and are parameters of the embedding; a format uses the constants its case of
the `switch` names. -/
structure LoadFlagBits extends GammaFlagBits where
  LoadFlag_SwizzleBGR2RGB : Nat
  LoadFlag_ToneMapExposure : Nat
  LoadFlag_SpreadLuminance : Nat
  deriving DecidableEq, Repr

/-- The flag constants of all formats with a flags word in the panel. -/
structure LoadFlagTable where
  DDS : LoadFlagBits
  PVR : LoadFlagBits
  KTX : LoadFlagBits
  ASTC : LoadFlagBits
  PKM : LoadFlagBits
  /-- The constant `tImageTGA::LoadFlag_AlphaOpacity`. -/
  TGA_AlphaOpacity : Nat
  deriving DecidableEq, Repr

/-- User input of one pass through the file-type section (the `switch` of lines 184-917).  A
widget that the pass does not show ignores its input. -/
structure FormatInput where
  /-- Input of `DoMultiSurface`. -/
  multi : MultiSurfaceInput
  /-- "SwizzleBGRToRGB" checkbox clicked. -/
  swizzle : Bool
  /-- "Colour Profile" combo reported this selection (ASTC). -/
  colourProfile : Option Int
  /-- "Gamma Corr" combo reported this selection. -/
  gammaCorr : Option Int
  /-- "Gamma" `InputFloat` edited to this value. -/
  gamma : Option Rat
  /-- "Exposure" `InputFloat` edited to this value. -/
  exposure : Option Rat
  /-- "##ExposureEnabled" checkbox clicked. -/
  exposureEnabled : Bool
  /-- "Exposure" `InputInt` edited to this value (HDR). -/
  hdrExposure : Option Int
  /-- "MaxRange" `InputFloat` edited to this value (PVR). -/
  maxRange : Option Rat
  /-- "Defog" `InputFloat` edited to this value (EXR). -/
  defog : Option Rat
  /-- "Knee Low" `InputFloat` edited to this value (EXR). -/
  kneeLow : Option Rat
  /-- "Knee High" `InputFloat` edited to this value (EXR). -/
  kneeHigh : Option Rat
  /-- "Spread Luminance" checkbox clicked. -/
  spreadLuminance : Bool
  /-- "Alpha Is Opacity" checkbox clicked (TGA). -/
  alphaOpacity : Bool
  /-- "Override Background" checkbox clicked (WEBP). -/
  overrideBackground : Bool
  /-- "Scrubber" checkbox of the file-type section clicked. -/
  scrubber : Bool
  /-- "Reset" button pressed. -/
  reset : Bool
  deriving DecidableEq, Repr

/-- A pass through the file-type section without any interaction. -/
def FormatInput.none : FormatInput :=
  { multi := MultiSurfaceInput.none, swizzle := false, colourProfile := Option.none,
    gammaCorr := Option.none, gamma := Option.none, exposure := Option.none,
    exposureEnabled := false, hdrExposure := Option.none, maxRange := Option.none,
    defog := Option.none, kneeLow := Option.none, kneeHigh := Option.none,
    spreadLuminance := false, alphaOpacity := false, overrideBackground := false,
    scrubber := false, reset := false }

/-- The statement `if (ImGui::CheckboxFlags(label, &Flags, flag)) reloadChanges = true;`.
`CheckboxFlags` shows the box checked when all bits of `flag` are set in `Flags`; a click
clears the bits when they were all set and sets them otherwise, and the call returns true.
Returns the new flags word and the new value of `reloadChanges`. -/
def CheckboxFlags (clicked : Bool) (Flags flag : Nat) (reloadChanges : Bool) : Nat × Bool :=
  if clicked then
    (if (Flags &&& flag) = flag then Flags &&& not32 flag else Flags ||| flag, true)
  else (Flags, reloadChanges)

/-- The statements `if (ImGui::InputFloat(label, &v, ...)) reloadChanges = true;` and
`tMath::tiClamp(v, lo, hi);` of one real-valued field.  `entered` is `some e` when the
`InputFloat` reported an edit and left `e` in `v`.  Returns the stored value and the new
value of `reloadChanges`. -/
def floatField (entered : Option Rat) (v lo hi : Rat) (reloadChanges : Bool) : Rat × Bool :=
  match entered with
  | some e => (tiClamp e lo hi, true)
  | Option.none => (tiClamp v lo hi, reloadChanges)

/-- Lines 204-221 (DDS; likewise 325-342 PVR, 464-481 KTX/KTX2, 610-627 ASTC, 692-709 PKM):
the "Gamma Corr" combo.  Returns the flags word, the local `gammaMode` and the new value of
`reloadChanges`. -/
def gammaCorrCombo (b : GammaFlagBits) (selected : Option Int) (Flags : Nat)
    (reloadChanges : Bool) : Nat × Int × Bool :=
  match selected with
  | some gammaMode => (gammaComboSelect b Flags gammaMode, gammaMode, true)
  | Option.none => (Flags, readGammaMode b Flags, reloadChanges)

/-- Lines 236-244 (DDS; likewise 357-365 PVR, 496-504 KTX/KTX2, 642-650 ASTC, 724-732 PKM):
the "Gamma" field, shown when the gamma mode is Gamma, with range `[0.5, 4.0]`. -/
def gammaField (gammaMode : Int) (entered : Option Rat) (Gamma : Rat) (reloadChanges : Bool) :
    Rat × Bool :=
  if gammaMode = 1 then floatField entered Gamma 0.5 4.0 reloadChanges
  else (Gamma, reloadChanges)

/-- Lines 249-258 (DDS; likewise 370-379 PVR, 514-523 KTX/KTX2, 656-665 ASTC): the
"Exposure" field with range `[0.0, 4.0]` and its "##ExposureEnabled" checkbox.  The
`InputFloat` is read-only while the tone-map flag is clear; a read-only field reports no
edit, which the embedding does not rely on.  Returns the flags word, the stored exposure and
the new value of `reloadChanges`. -/
def exposureBlock (LoadFlag_ToneMapExposure : Nat) (entered : Option Rat) (clicked : Bool)
    (Flags : Nat) (Exposure : Rat) (reloadChanges : Bool) : Nat × Rat × Bool :=
  let f := floatField entered Exposure 0.0 4.0 reloadChanges
  let c := CheckboxFlags clicked Flags LoadFlag_ToneMapExposure f.2
  (c.1, f.1, c.2)

/-- What a case of the `switch` leaves behind. -/
structure SectionResult where
  state : PanelState
  /-- The value of the local `reloadChanges` when the case tests it (false in a case without
  such a local). -/
  reloadChanges : Bool
  /-- True when the case ends in `return`, false when it ends in `break`. -/
  returned : Bool
  /-- The value of `fileTypeSectionDisplayed` after the case. -/
  fileTypeSectionDisplayed : Bool
  deriving DecidableEq, Repr

/-- Lines 294-303 (DDS; likewise 425-434 PVR, 559-568 KTX/KTX2): the reload of the formats
that can show an alternate picture. -/
def reloadWithAlt (m : ImageMethods) (reloadChanges altEnabled : Bool) (s : PanelState) :
    PanelState :=
  if reloadChanges then
    let t := (s.Unload m).Load m
    if altEnabled then (t.EnableAltPicture true).Bind else t
  else s

/-- Lines 677-681 (ASTC; likewise 750-754 PKM, 787-791 HDR, 845-849 EXR, 889-893 TGA): the
reload of the other formats. -/
def reloadPlain (m : ImageMethods) (reloadChanges : Bool) (s : PanelState) : PanelState :=
  if reloadChanges then (s.Unload m).Load m else s

/-- Lines 271-311 (DDS; likewise 402-442 PVR, 536-576 KTX/KTX2): the "Scrubber" checkbox, the
"Reset" button, the reload and the text shown when no control was drawn.  `anyUIDisplayed`
and `reloadChanges` are the values of the locals on line 271. -/
def multiSurfaceTail (m : ImageMethods) (noPropertiesText : String) (inp : FormatInput)
    (numTextures : Int) (altEnabled anyUIDisplayed reloadChanges : Bool) (s : PanelState) :
    SectionResult :=
  let scrubberDisplayed := decide (numTextures ≥ 2) && !altEnabled
  let s1 := if scrubberDisplayed && inp.scrubber
    then { s with ShowFrameScrubber := !s.ShowFrameScrubber } else s
  let anyUI1 := if scrubberDisplayed then true else anyUIDisplayed
  let pressed := anyUI1 && inp.reset
  let s2 := if pressed then resetPressed m s1 else s1
  let reload1 := if pressed then true else reloadChanges
  let s3 := reloadWithAlt m reload1 altEnabled s2
  let s4 := if !anyUI1 then s3.Text noPropertiesText else s3
  { state := s4, reloadChanges := reload1, returned := true, fileTypeSectionDisplayed := false }

/-- What the editors of a case compute: the new load-parameter record, the local `gammaMode`
after the "Gamma Corr" combo (0 in a case without the combo), and the local `reloadChanges`
before the "Reset" button. -/
structure Edits (P : Type) where
  params : P
  gammaMode : Int
  reloadChanges : Bool

/-- Lines 247 and 368: the condition under which the DDS and PVR cases offer the exposure. -/
def showExposure (info : ImgInfo) : Bool :=
  info.IsHDRFormat || info.IsASTCFormat

/-- Lines 508-512: the condition under which the KTX case offers the exposure, never for ETC
and EAC images. -/
def showExposureKTX (info : ImgInfo) : Bool :=
  (!info.IsETCFormat && !info.IsEACFormat) &&
    (info.IsHDRFormat || info.IsProfileLinearInRGB)

/-- Lines 194-269: the editors of the DDS case on the record `LoadParams_DDS`. -/
def ddsEdits (b : LoadFlagBits) (inp : FormatInput) (info : ImgInfo) (p : LoadParamsDDS) :
    Edits LoadParamsDDS :=
  let reload0 := false
  -- Lines 194-199: swizzle checkbox of the ETC formats.
  let sw := if info.IsETCFormat
    then CheckboxFlags inp.swizzle p.Flags b.LoadFlag_SwizzleBGR2RGB reload0
    else (p.Flags, reload0)
  -- Lines 204-244: gamma correction.
  let gc := gammaCorrCombo b.toGammaFlagBits inp.gammaCorr sw.1 sw.2
  let gf := gammaField gc.2.1 inp.gamma p.Gamma gc.2.2
  -- Lines 247-261: exposure of the HDR and ASTC pixel formats.
  let ex := if showExposure info
    then exposureBlock b.LoadFlag_ToneMapExposure inp.exposure inp.exposureEnabled gc.1
      p.Exposure gf.2
    else (gc.1, p.Exposure, gf.2)
  -- Lines 263-269: spread luminance.
  let lu := if info.IsLuminanceFormat
    then CheckboxFlags inp.spreadLuminance ex.1 b.LoadFlag_SpreadLuminance ex.2.2
    else (ex.1, ex.2.2)
  { params := { Flags := lu.1, Gamma := gf.1, Exposure := ex.2.1 },
    gammaMode := gc.2.1, reloadChanges := lu.2 }

/-- Lines 325-400: the editors of the PVR case on the record `LoadParams_PVR`. -/
def pvrEdits (b : LoadFlagBits) (inp : FormatInput) (info : ImgInfo) (p : LoadParamsPVR) :
    Edits LoadParamsPVR :=
  let reload0 := false
  -- Lines 325-365: gamma correction.
  let gc := gammaCorrCombo b.toGammaFlagBits inp.gammaCorr p.Flags reload0
  let gf := gammaField gc.2.1 inp.gamma p.Gamma gc.2.2
  -- Lines 368-382: exposure of the HDR and ASTC pixel formats.
  let ex := if showExposure info
    then exposureBlock b.LoadFlag_ToneMapExposure inp.exposure inp.exposureEnabled gc.1
      p.Exposure gf.2
    else (gc.1, p.Exposure, gf.2)
  -- Lines 384-392: maximum range of the RGBM and RGBD pixel formats.
  let mr := if info.IsRGBMOrRGBD
    then floatField inp.maxRange p.MaxRange 0.01 128.0 ex.2.2
    else (p.MaxRange, ex.2.2)
  -- Lines 394-400: spread luminance.
  let lu := if info.IsLuminanceFormat
    then CheckboxFlags inp.spreadLuminance ex.1 b.LoadFlag_SpreadLuminance mr.2
    else (ex.1, mr.2)
  { params := { Flags := lu.1, Gamma := gf.1, Exposure := ex.2.1, MaxRange := mr.1 },
    gammaMode := gc.2.1, reloadChanges := lu.2 }

/-- Lines 454-534: the editors of the KTX and KTX2 case on the record `LoadParams_KTX`. -/
def ktxEdits (b : LoadFlagBits) (inp : FormatInput) (info : ImgInfo) (p : LoadParamsKTX) :
    Edits LoadParamsKTX :=
  let reload0 := false
  -- Lines 454-459: swizzle checkbox of the ETC formats.
  let sw := if info.IsETCFormat
    then CheckboxFlags inp.swizzle p.Flags b.LoadFlag_SwizzleBGR2RGB reload0
    else (p.Flags, reload0)
  -- Lines 464-504: gamma correction.
  let gc := gammaCorrCombo b.toGammaFlagBits inp.gammaCorr sw.1 sw.2
  let gf := gammaField gc.2.1 inp.gamma p.Gamma gc.2.2
  -- Lines 507-526: exposure, not offered for ETC and EAC images.
  let ex := if showExposureKTX info
    then exposureBlock b.LoadFlag_ToneMapExposure inp.exposure inp.exposureEnabled gc.1
      p.Exposure gf.2
    else (gc.1, p.Exposure, gf.2)
  -- Lines 528-534: spread luminance.
  let lu := if info.IsLuminanceFormat
    then CheckboxFlags inp.spreadLuminance ex.1 b.LoadFlag_SpreadLuminance ex.2.2
    else (ex.1, ex.2.2)
  { params := { Flags := lu.1, Gamma := gf.1, Exposure := ex.2.1 },
    gammaMode := gc.2.1, reloadChanges := lu.2 }

/-- Lines 583-666: the editors of the ASTC case on the record `LoadParams_ASTC`. -/
def astcEdits (b : LoadFlagBits) (inp : FormatInput) (p : LoadParamsASTC) :
    Edits LoadParamsASTC :=
  let reload0 := false
  -- Lines 583-589: colour profile combo, `Profile = tColourProfile(colourProfile)`.
  let cp := match inp.colourProfile with
    | some colourProfile => (colourProfile, true)
    | Option.none => (p.Profile, reload0)
  -- Lines 610-650: gamma correction.
  let gc := gammaCorrCombo b.toGammaFlagBits inp.gammaCorr p.Flags cp.2
  let gf := gammaField gc.2.1 inp.gamma p.Gamma gc.2.2
  -- Lines 652-666: exposure, always offered (`if (1)`).
  let ex := exposureBlock b.LoadFlag_ToneMapExposure inp.exposure inp.exposureEnabled gc.1
    p.Exposure gf.2
  { params := { Profile := cp.1, Flags := ex.1, Gamma := gf.1, Exposure := ex.2.1 },
    gammaMode := gc.2.1, reloadChanges := ex.2.2 }

/-- Lines 692-740: the editors of the PKM case on the record `LoadParams_PKM`. -/
def pkmEdits (b : LoadFlagBits) (inp : FormatInput) (info : ImgInfo) (p : LoadParamsPKM) :
    Edits LoadParamsPKM :=
  let reload0 := false
  -- Lines 692-732: gamma correction.
  let gc := gammaCorrCombo b.toGammaFlagBits inp.gammaCorr p.Flags reload0
  let gf := gammaField gc.2.1 inp.gamma p.Gamma gc.2.2
  -- Lines 734-740: spread luminance.
  let lu := if info.IsLuminanceFormat
    then CheckboxFlags inp.spreadLuminance gc.1 b.LoadFlag_SpreadLuminance gf.2
    else (gc.1, gf.2)
  { params := { Flags := lu.1, Gamma := gf.1 }, gammaMode := gc.2.1, reloadChanges := lu.2 }

/-- Lines 762-777: the editors of the HDR case on the record `LoadParams_HDR`. -/
def hdrEdits (inp : FormatInput) (p : LoadParamsHDR) : Edits LoadParamsHDR :=
  let reload0 := false
  -- Lines 765-770: gamma with range `[0.6, 3.0]`.
  let gf := floatField inp.gamma p.Gamma 0.6 3.0 reload0
  -- Lines 772-777: integer exposure with range `[-10, 10]`.
  let ef := hdrExposureField inp.hdrExposure p.Exposure
  { params := { Gamma := gf.1, Exposure := ef.1 }, gammaMode := 0,
    reloadChanges := if ef.2 then true else gf.2 }

/-- Lines 802-835: the editors of the EXR case on the record `LoadParams_EXR`. -/
def exrEdits (inp : FormatInput) (p : LoadParamsEXR) : Edits LoadParamsEXR :=
  let reload0 := false
  -- Lines 802-807: gamma with range `[0.6, 3.0]`.
  let gf := floatField inp.gamma p.Gamma 0.6 3.0 reload0
  -- Lines 809-814: exposure with range `[-10.0, 10.0]`.
  let ef := floatField inp.exposure p.Exposure (-10.0) 10.0 gf.2
  -- Lines 816-821: defog with range `[0.0, 0.1]`.
  let df := floatField inp.defog p.Defog 0.0 0.1 ef.2
  -- Lines 823-828: knee low with range `[-3.0, 3.0]`.
  let kl := floatField inp.kneeLow p.KneeLow (-3.0) 3.0 df.2
  -- Lines 830-835: knee high with range `[3.5, 7.5]`.
  let kh := floatField inp.kneeHigh p.KneeHigh 3.5 7.5 kl.2
  { params := { Gamma := gf.1, Exposure := ef.1, Defog := df.1, KneeLow := kl.1,
                KneeHigh := kh.1 },
    gammaMode := 0, reloadChanges := kh.2 }

/-- Lines 862-864: the editor of the TGA case on the record `LoadParams_TGA`. -/
def tgaEdits (LoadFlag_AlphaOpacity : Nat) (inp : FormatInput) (p : LoadParamsTGA) :
    Edits LoadParamsTGA :=
  let ao := CheckboxFlags inp.alphaOpacity p.Flags LoadFlag_AlphaOpacity false
  { params := { Flags := ao.1 }, gammaMode := 0, reloadChanges := ao.2 }

/-- Lines 186-312: the DDS case.  The result is `none` when `DoMultiSurface` divides by
zero. -/
def ddsBranch (m : ImageMethods) (b : LoadFlagBits) (inp : FormatInput) (s : PanelState) :
    Option SectionResult := do
  let anyUI0 := false
  let numTextures := s.CurrImage.NumFrames
  -- Line 192.
  let (s1, drew) ← DoMultiSurface inp.multi s
  let anyUI1 := anyUI0 || drew
  let info := s1.CurrImage.Info
  -- Line 198.
  let _anyUI2 := if info.IsETCFormat then true else anyUI1
  -- Line 202.
  let altEnabled := s1.CurrImage.AltPictureEnabled
  -- Line 245: `anyUIDisplayed = true`.
  let anyUI3 := true
  -- Line 260.
  let anyUI4 := if showExposure info then true else anyUI3
  -- Lines 194-269.
  let e := ddsEdits b inp info s1.CurrImage.LoadParams_DDS
  let s2 := { s1 with CurrImage := { s1.CurrImage with LoadParams_DDS := e.params } }
  -- Lines 271-311.
  pure (multiSurfaceTail m "No DDS Properties Available" inp numTextures altEnabled anyUI4
    e.reloadChanges s2)

/-- Lines 314-443: the PVR case.  The result is `none` when `DoMultiSurface` divides by
zero. -/
def pvrBranch (m : ImageMethods) (b : LoadFlagBits) (inp : FormatInput) (s : PanelState) :
    Option SectionResult := do
  let anyUI0 := false
  let numTextures := s.CurrImage.NumFrames
  -- Line 320.
  let (s1, drew) ← DoMultiSurface inp.multi s
  let _anyUI1 := anyUI0 || drew
  let info := s1.CurrImage.Info
  -- Line 323.
  let altEnabled := s1.CurrImage.AltPictureEnabled
  -- Line 366: `anyUIDisplayed = true`.
  let anyUI3 := true
  -- Line 381.
  let anyUI4 := if showExposure info then true else anyUI3
  -- Lines 325-400.
  let e := pvrEdits b inp info s1.CurrImage.LoadParams_PVR
  let s2 := { s1 with CurrImage := { s1.CurrImage with LoadParams_PVR := e.params } }
  -- Lines 402-442.
  pure (multiSurfaceTail m "No PVR Properties Available" inp numTextures altEnabled anyUI4
    e.reloadChanges s2)

/-- Lines 445-577: the KTX and KTX2 case.  The result is `none` when `DoMultiSurface` divides
by zero. -/
def ktxBranch (m : ImageMethods) (b : LoadFlagBits) (inp : FormatInput) (s : PanelState) :
    Option SectionResult := do
  let anyUI0 := false
  let numTextures := s.CurrImage.NumFrames
  -- Line 452.
  let (s1, drew) ← DoMultiSurface inp.multi s
  let anyUI1 := anyUI0 || drew
  let info := s1.CurrImage.Info
  -- Line 458.
  let _anyUI2 := if info.IsETCFormat then true else anyUI1
  -- Line 462.
  let altEnabled := s1.CurrImage.AltPictureEnabled
  -- Line 505: `anyUIDisplayed = true`.
  let anyUI3 := true
  -- Line 525.
  let anyUI4 := if showExposureKTX info then true else anyUI3
  -- Lines 454-534.
  let e := ktxEdits b inp info s1.CurrImage.LoadParams_KTX
  let s2 := { s1 with CurrImage := { s1.CurrImage with LoadParams_KTX := e.params } }
  -- Lines 536-576.
  pure (multiSurfaceTail m "No KTX/KTX2 Properties Available" inp numTextures altEnabled
    anyUI4 e.reloadChanges s2)

/-- Lines 579-685: the ASTC case. -/
def astcBranch (m : ImageMethods) (b : LoadFlagBits) (inp : FormatInput) (s : PanelState) :
    SectionResult :=
  -- Lines 583-666.
  let e := astcEdits b inp s.CurrImage.LoadParams_ASTC
  let s1 := { s with CurrImage := { s.CurrImage with LoadParams_ASTC := e.params } }
  -- Lines 668-675: reset, which also rewinds to frame 0.
  let s2 := if inp.reset then resetPressed m s1 else s1
  let reload1 := if inp.reset then true else e.reloadChanges
  -- Lines 677-684.
  { state := reloadPlain m reload1 s2, reloadChanges := reload1, returned := true,
    fileTypeSectionDisplayed := false }

/-- Lines 687-758: the PKM case. -/
def pkmBranch (m : ImageMethods) (b : LoadFlagBits) (inp : FormatInput) (s : PanelState) :
    SectionResult :=
  -- Lines 692-740.
  let e := pkmEdits b inp s.CurrImage.Info s.CurrImage.LoadParams_PKM
  let s1 := { s with CurrImage := { s.CurrImage with LoadParams_PKM := e.params } }
  -- Lines 742-748: reset.
  let s2 := if inp.reset then s1.ResetLoadParams m else s1
  let reload1 := if inp.reset then true else e.reloadChanges
  -- Lines 750-757.
  { state := reloadPlain m reload1 s2, reloadChanges := reload1, returned := true,
    fileTypeSectionDisplayed := false }

/-- Lines 760-795: the HDR case. -/
def hdrBranch (m : ImageMethods) (inp : FormatInput) (s : PanelState) : SectionResult :=
  let s0 := s.Text "Radiance HDR"
  -- Lines 765-777.
  let e := hdrEdits inp s0.CurrImage.LoadParams_HDR
  let s1 := { s0 with CurrImage := { s0.CurrImage with LoadParams_HDR := e.params } }
  -- Lines 779-785: reset.
  let s2 := if inp.reset then s1.ResetLoadParams m else s1
  let reload1 := if inp.reset then true else e.reloadChanges
  -- Lines 787-794.
  { state := reloadPlain m reload1 s2, reloadChanges := reload1, returned := false,
    fileTypeSectionDisplayed := true }

/-- Lines 797-853: the EXR case. -/
def exrBranch (m : ImageMethods) (inp : FormatInput) (s : PanelState) : SectionResult :=
  let s0 := s.Text "OpenEXR"
  -- Lines 802-835.
  let e := exrEdits inp s0.CurrImage.LoadParams_EXR
  let s1 := { s0 with CurrImage := { s0.CurrImage with LoadParams_EXR := e.params } }
  -- Lines 837-843: reset.
  let s2 := if inp.reset then s1.ResetLoadParams m else s1
  let reload1 := if inp.reset then true else e.reloadChanges
  -- Lines 845-852.
  { state := reloadPlain m reload1 s2, reloadChanges := reload1, returned := false,
    fileTypeSectionDisplayed := true }

/-- Lines 855-897: the TGA case. -/
def tgaBranch (m : ImageMethods) (LoadFlag_AlphaOpacity : Nat) (inp : FormatInput)
    (s : PanelState) : SectionResult :=
  if s.CurrImage.Info.IsRGBA8OrG3B5A1R5G2 then
    let s0 := s.Text "Truevision TGA"
    -- Lines 862-864: alpha-is-opacity checkbox.
    let e := tgaEdits LoadFlag_AlphaOpacity inp s0.CurrImage.LoadParams_TGA
    let s1 := { s0 with CurrImage := { s0.CurrImage with LoadParams_TGA := e.params } }
    -- Lines 881-887: reset.
    let s2 := if inp.reset then s1.ResetLoadParams m else s1
    let reload1 := if inp.reset then true else e.reloadChanges
    -- Lines 889-894.
    { state := reloadPlain m reload1 s2, reloadChanges := reload1, returned := false,
      fileTypeSectionDisplayed := true }
  else
    { state := s, reloadChanges := false, returned := false,
      fileTypeSectionDisplayed := false }

/-- Lines 899-917: the WEBP case. -/
def webpBranch (inp : FormatInput) (s : PanelState) : SectionResult :=
  if !s.CurrImage.Info.OpacityTrue then
    let s1 := if inp.overrideBackground
      then { s with CurrImage := { s.CurrImage with
              OverrideBackgroundColour := !s.CurrImage.OverrideBackgroundColour } }
      else s
    { state := s1, reloadChanges := false, returned := false,
      fileTypeSectionDisplayed := true }
  else
    { state := s, reloadChanges := false, returned := false,
      fileTypeSectionDisplayed := false }

/-- Lines 183-917: the `switch` on the file type of the current image. -/
def fileTypeSection (m : ImageMethods) (t : LoadFlagTable) (inp : FormatInput)
    (s : PanelState) : Option SectionResult :=
  match s.CurrImage.Filetype with
  | tFileType.DDS => ddsBranch m t.DDS inp s
  | tFileType.PVR => pvrBranch m t.PVR inp s
  | tFileType.KTX => ktxBranch m t.KTX inp s
  | tFileType.KTX2 => ktxBranch m t.KTX inp s
  | tFileType.ASTC => some (astcBranch m t.ASTC inp s)
  | tFileType.PKM => some (pkmBranch m t.PKM inp s)
  | tFileType.HDR => some (hdrBranch m inp s)
  | tFileType.EXR => some (exrBranch m inp s)
  | tFileType.TGA => some (tgaBranch m t.TGA_AlphaOpacity inp s)
  | tFileType.WEBP => some (webpBranch inp s)
  | tFileType.Other =>
    some { state := s, reloadChanges := false, returned := false,
           fileTypeSectionDisplayed := false }

/-! ## `Viewer::ShowPropertiesWindow`: the frames section and the whole pass -/

/-- User input of one pass through the frames section (lines 919-1071). -/
structure FramesInput where
  /-- "Frame" `InputInt` edited to this value. -/
  frame : Option Int
  /-- "Period" `InputFloat` edited (preview mode) or committed with Enter (per-frame mode)
  with this value. -/
  period : Option Rat
  /-- "Set All" button pressed. -/
  setAll : Bool
  /-- "1.0s" button pressed. -/
  button1s : Bool
  /-- "0.5s" button pressed. -/
  button05s : Bool
  /-- "0.1s" button pressed. -/
  button01s : Bool
  /-- "30Hz" button pressed. -/
  button30Hz : Bool
  /-- "60Hz" button pressed. -/
  button60Hz : Bool
  /-- "Preview Period" checkbox clicked. -/
  previewPeriod : Bool
  /-- "Scrubber" checkbox of the frames section clicked. -/
  scrubber : Bool
  /-- Buttons of the playback row. -/
  playback : PlaybackInput
  deriving DecidableEq, Repr

/-- A pass through the frames section without any interaction. -/
def FramesInput.none : FramesInput :=
  { frame := Option.none, period := Option.none, setAll := false, button1s := false,
    button05s := false, button01s := false, button30Hz := false, button60Hz := false,
    previewPeriod := false, scrubber := false, playback := PlaybackInput.none }

/-- `CurrImage->FrameDurationPreview = seconds`. -/
def PanelState.setFrameDurationPreview (s : PanelState) (seconds : Rat) : PanelState :=
  { s with CurrImage := { s.CurrImage with FrameDurationPreview := seconds } }

/-- Lines 943-963: the period controls while the preview period is enabled. -/
def periodPreview (m : ImageMethods) (inp : FramesInput) (s : PanelState) : PanelState :=
  -- Lines 945-948: the field and its clamp into `[0.0, 60.0]`.
  let s1 := match inp.period with
    | some e => s.setFrameDurationPreview e
    | Option.none => s
  let s2 := s1.setFrameDurationPreview (tiClamp s1.CurrImage.FrameDurationPreview 0.0 60.0)
  -- Lines 950-955: "Set All".
  let s3 := if inp.setAll
    then
      let t := s2.SetFrameDuration m s2.CurrImage.FrameDurationPreview true
      { t with CurrImage := { t.CurrImage with FrameDurationPreviewEnabled := false } }
    else s2
  -- Lines 958-962: the preset buttons.
  let s4 := if inp.button1s then s3.setFrameDurationPreview 1.0 else s3
  let s5 := if inp.button05s then s4.setFrameDurationPreview 0.5 else s4
  let s6 := if inp.button01s then s5.setFrameDurationPreview 0.1 else s5
  let s7 := if inp.button30Hz then s6.setFrameDurationPreview (1.0 / 30.0) else s6
  if inp.button60Hz then s7.setFrameDurationPreview (1.0 / 60.0) else s7

/-- Lines 967-988: the period controls of the current frame. -/
def periodPerFrame (m : ImageMethods) (inp : FramesInput) (s : PanelState) : PanelState :=
  -- Lines 969-978: the field; the typed period is clamped into `[0.0, 60.0]` before the call.
  let s1 := match inp.period with
    | some duration => s.SetFrameDuration m (tiClamp duration 0.0 60.0) false
    | Option.none => s
  -- Lines 982-986: the preset buttons.
  let s2 := if inp.button1s then s1.SetFrameDuration m 1.0 false else s1
  let s3 := if inp.button05s then s2.SetFrameDuration m 0.5 false else s2
  let s4 := if inp.button01s then s3.SetFrameDuration m 0.1 false else s3
  let s5 := if inp.button30Hz then s4.SetFrameDuration m (1.0 / 30.0) false else s4
  if inp.button60Hz then s5.SetFrameDuration m (1.0 / 60.0) false else s5

/-- Lines 943-989: the period controls. -/
def periodSection (m : ImageMethods) (inp : FramesInput) (s : PanelState) : PanelState :=
  if s.CurrImage.FrameDurationPreviewEnabled then periodPreview m inp s
  else periodPerFrame m inp s

/-- Lines 919-1071: the frames section.  `fileTypeSectionDisplayed` is the local set by the
`switch`. -/
def framesSection (m : ImageMethods) (inp : FramesInput) (fileTypeSectionDisplayed : Bool)
    (s : PanelState) : PanelState :=
  let numFrames := s.CurrImage.NumFrames
  -- Lines 921-922.
  let s0 := if decide (numFrames ≤ 1) && !fileTypeSectionDisplayed
    then s.Text "No Editable Image Properties Available" else s
  if decide (numFrames > 1) then
    -- Lines 929-937.
    let s1 := frameNumEdit inp.frame s0
    -- Lines 943-989.
    let s2 := periodSection m inp s1
    -- Lines 990-992.
    let s3 := if inp.previewPeriod
      then { s2 with CurrImage := { s2.CurrImage with
              FrameDurationPreviewEnabled := !s2.CurrImage.FrameDurationPreviewEnabled } }
      else s2
    let s4 := if inp.scrubber
      then { s3 with ShowFrameScrubber := !s3.ShowFrameScrubber } else s3
    -- Lines 1000-1070.
    playbackRow m inp.playback numFrames s4
  else s0

/-- User input of one pass through `ShowPropertiesWindow`. -/
structure PropertiesInput where
  /-- The value returned by `ImGui::Begin` (line 160): false when the window is collapsed or
  clipped. -/
  beginReturned : Bool
  format : FormatInput
  frames : FramesInput
  deriving DecidableEq, Repr

/-- A pass without any interaction through the open window. -/
def PropertiesInput.none : PropertiesInput :=
  { beginReturned := true, format := FormatInput.none, frames := FramesInput.none }

/-- What a pass of `ShowPropertiesWindow` leaves behind. -/
structure PassResult where
  state : PanelState
  /-- The value of the local `reloadChanges` of the case that ran when the case tested it
  (false when no such case ran). -/
  reloadChanges : Bool
  deriving DecidableEq, Repr

/-- The function `Viewer::ShowPropertiesWindow` (lines 147-1077).  `hasCurrImage` is false
when the pointer `CurrImage` is null; the image component of the state is then not read.
The result is `none` when the pass divides by zero. -/
def ShowPropertiesWindow (m : ImageMethods) (t : LoadFlagTable) (inp : PropertiesInput)
    (hasCurrImage : Bool) (s : PanelState) : Option PassResult :=
  -- Lines 160-164.
  if !inp.beginReturned then some { state := s, reloadChanges := false }
  -- Lines 166-171.
  else if !hasCurrImage then
    some { state := s.Text "No Images in Folder", reloadChanges := false }
  -- Lines 172-177.
  else if !s.CurrImage.IsLoaded then
    some { state := s.Text "Image Failed to Load", reloadChanges := false }
  else
    -- Lines 183-917.
    (fileTypeSection m t inp.format s).map (fun r =>
      if r.returned then { state := r.state, reloadChanges := r.reloadChanges }
      -- Lines 919-1076.
      else { state := framesSection m inp.frames r.fileTypeSectionDisplayed r.state,
             reloadChanges := r.reloadChanges })

/-- The eight load-parameter records of an image. -/
def Image.LoadParams (img : Image) :
    LoadParamsDDS × LoadParamsPVR × LoadParamsKTX × LoadParamsASTC × LoadParamsPKM ×
      LoadParamsHDR × LoadParamsEXR × LoadParamsTGA :=
  (img.LoadParams_DDS, img.LoadParams_PVR, img.LoadParams_KTX, img.LoadParams_ASTC,
    img.LoadParams_PKM, img.LoadParams_HDR, img.LoadParams_EXR, img.LoadParams_TGA)

/-! ## Conditions used in the theorems -/

/-- The methods `Unload` and `Load` read the load-parameter records and leave them as they
are (spec section 4.2, step 5: the image is reloaded "using the mutated parameter record"). -/
def ImageMethods.ReloadKeepsParams (m : ImageMethods) : Prop :=
  ∀ img : Image, (m.Unload img).LoadParams = img.LoadParams ∧
    (m.Load img).LoadParams = img.LoadParams

/-- The methods `Play`, `Stop` and `SetFrameDuration` leave the load-parameter records as
they are. -/
def ImageMethods.PlaybackKeepsParams (m : ImageMethods) : Prop :=
  ∀ img : Image, (m.Play img).LoadParams = img.LoadParams ∧
    (m.Stop img).LoadParams = img.LoadParams ∧
    ∀ (seconds : Rat) (applyToAll : Bool),
      (m.SetFrameDuration seconds applyToAll img).LoadParams = img.LoadParams

/-- Every numeric field that the case of the image's file type clamps lies inside its declared
range. -/
def LoadParamsInRange (img : Image) : Prop :=
  match img.Filetype with
  | tFileType.DDS =>
    0.5 ≤ img.LoadParams_DDS.Gamma ∧ img.LoadParams_DDS.Gamma ≤ 4.0 ∧
    0.0 ≤ img.LoadParams_DDS.Exposure ∧ img.LoadParams_DDS.Exposure ≤ 4.0
  | tFileType.PVR =>
    0.5 ≤ img.LoadParams_PVR.Gamma ∧ img.LoadParams_PVR.Gamma ≤ 4.0 ∧
    0.0 ≤ img.LoadParams_PVR.Exposure ∧ img.LoadParams_PVR.Exposure ≤ 4.0 ∧
    0.01 ≤ img.LoadParams_PVR.MaxRange ∧ img.LoadParams_PVR.MaxRange ≤ 128.0
  | tFileType.KTX =>
    0.5 ≤ img.LoadParams_KTX.Gamma ∧ img.LoadParams_KTX.Gamma ≤ 4.0 ∧
    0.0 ≤ img.LoadParams_KTX.Exposure ∧ img.LoadParams_KTX.Exposure ≤ 4.0
  | tFileType.KTX2 =>
    0.5 ≤ img.LoadParams_KTX.Gamma ∧ img.LoadParams_KTX.Gamma ≤ 4.0 ∧
    0.0 ≤ img.LoadParams_KTX.Exposure ∧ img.LoadParams_KTX.Exposure ≤ 4.0
  | tFileType.ASTC =>
    0.5 ≤ img.LoadParams_ASTC.Gamma ∧ img.LoadParams_ASTC.Gamma ≤ 4.0 ∧
    0.0 ≤ img.LoadParams_ASTC.Exposure ∧ img.LoadParams_ASTC.Exposure ≤ 4.0
  | tFileType.PKM =>
    0.5 ≤ img.LoadParams_PKM.Gamma ∧ img.LoadParams_PKM.Gamma ≤ 4.0
  | tFileType.HDR =>
    0.6 ≤ img.LoadParams_HDR.Gamma ∧ img.LoadParams_HDR.Gamma ≤ 3.0 ∧
    -10 ≤ img.LoadParams_HDR.Exposure ∧ img.LoadParams_HDR.Exposure ≤ 10
  | tFileType.EXR =>
    0.6 ≤ img.LoadParams_EXR.Gamma ∧ img.LoadParams_EXR.Gamma ≤ 3.0 ∧
    -10.0 ≤ img.LoadParams_EXR.Exposure ∧ img.LoadParams_EXR.Exposure ≤ 10.0 ∧
    0.0 ≤ img.LoadParams_EXR.Defog ∧ img.LoadParams_EXR.Defog ≤ 0.1 ∧
    -3.0 ≤ img.LoadParams_EXR.KneeLow ∧ img.LoadParams_EXR.KneeLow ≤ 3.0 ∧
    3.5 ≤ img.LoadParams_EXR.KneeHigh ∧ img.LoadParams_EXR.KneeHigh ≤ 7.5
  | tFileType.TGA => True
  | tFileType.WEBP => True
  | tFileType.Other => True

/-- Every duration passed to `SetFrameDuration` in a list of calls lies in `[0.0, 60.0]`. -/
def DurationsInRange (calls : List Call) : Prop :=
  ∀ (seconds : Rat) (applyToAll : Bool),
    Call.SetFrameDuration seconds applyToAll ∈ calls → 0.0 ≤ seconds ∧ seconds ≤ 60.0

/-- The calls `after` extend the calls `before` by calls among which every `SetFrameDuration`
has its duration in `[0.0, 60.0]`. -/
def AddsDurationsInRange (before after : List Call) : Prop :=
  ∃ post, after = before ++ post ∧ DurationsInRange post

/-- The calls `DoMultiSurface` can make: `EnableAltPicture` and `Bind`. -/
def Call.IsAltCall (c : Call) : Prop :=
  c = Call.Bind ∨ ∃ enabled, c = Call.EnableAltPicture enabled

/-- A state that differs from `s` at most in what `DoMultiSurface` writes: the alt-enabled
flag, the frame number, the three global toggles and the calls appended. -/
def PanelState.afterMulti (s : PanelState) (enabled : Bool) (frameNum : Int)
    (g1 g2 g3 : Bool) (pre : List Call) : PanelState :=
  { s with CurrImage := { s.CurrImage with AltPictureEnabled := enabled, FrameNum := frameNum },
           gShowAllMipsUnified := g1, gShowAllArrayLayers := g2, gShowLayerMipMatrix := g3,
           calls := s.calls ++ pre }

/-- Flag constants used in the examples: bits 0 to 5 in every format. -/
def exampleFlagBits : LoadFlagBits :=
  { LoadFlag_GammaCompression := 1, LoadFlag_SRGBCompression := 2, LoadFlag_AutoGamma := 4,
    LoadFlag_SwizzleBGR2RGB := 8, LoadFlag_ToneMapExposure := 16,
    LoadFlag_SpreadLuminance := 32 }

/-- Flag table used in the examples. -/
def exampleFlagTable : LoadFlagTable :=
  { DDS := exampleFlagBits, PVR := exampleFlagBits, KTX := exampleFlagBits,
    ASTC := exampleFlagBits, PKM := exampleFlagBits, TGA_AlphaOpacity := 1 }

/-- The example image with another file type. -/
def exampleOfType (ft : tFileType) (numFrames frameNum : Int) : PanelState :=
  { exampleFrames numFrames frameNum with
    CurrImage := { (exampleFrames numFrames frameNum).CurrImage with Filetype := ft } }

/-- An HDR image with one frame used in the examples, with the given stored exposure and
alt-enabled flag. -/
def exampleHDR (exposure : Int) (altEnabled : Bool) : PanelState :=
  { exampleOfType tFileType.HDR 1 0 with
    CurrImage := { (exampleOfType tFileType.HDR 1 0).CurrImage with
      LoadParams_HDR := { Gamma := 2, Exposure := exposure },
      AltPictureEnabled := altEnabled } }

/-- A pass through the file-type section in which only the "Scrubber" checkbox is clicked. -/
def FormatInput.scrubberOnly : FormatInput :=
  { FormatInput.none with scrubber := true }

/-- The example image with another file type and the alternate picture enabled. -/
def exampleAltEnabled (ft : tFileType) (numFrames frameNum : Int) : PanelState :=
  { exampleOfType ft numFrames frameNum with
    CurrImage := { (exampleOfType ft numFrames frameNum).CurrImage with
      AltPictureEnabled := true } }

/-! ## `Profile.cpp`: the profile names -/

/-- The table `Viewer::ProfileNames` (`Profile.cpp`, lines 22-28). -/
def ProfileNames : List String :=
  ["Main", "Basic", "Kiosk", "Alt"]

/-- The table `Viewer::ProfileNamesLong` (`Profile.cpp`, lines 32-38). -/
def ProfileNamesLong : List String :=
  ["Main Profile", "Basic Profile", "Kiosk Profile", "Alt Profile"]

/-! ## Further inputs, conditions and examples used in the theorems -/

/-- A pass through the file-type section in which only the "Gamma Corr" combo reports a
selection, the mode `gammaMode`. -/
def FormatInput.gammaCorrOnly (gammaMode : Int) : FormatInput :=
  { FormatInput.none with gammaCorr := some gammaMode }

/-- A pass through `DoMultiSurface` in which at most the "Cube Side" and "Cube Mip" fields
are edited. -/
def MultiSurfaceInput.cubeEdit (side mip : Option Int) : MultiSurfaceInput :=
  { MultiSurfaceInput.none with cubeSide := side, cubeMip := mip }

/-- A KTX image with one frame in an ETC pixel format that is also HDR, used in the
examples. -/
def exampleEtcKtx : PanelState :=
  { exampleOfType tFileType.KTX 1 0 with
    CurrImage := { (exampleOfType tFileType.KTX 1 0).CurrImage with
      Info := { exampleInfo with IsETCFormat := true, IsHDRFormat := true } } }

/-- The constant `LoadFlag_ToneMapExposure` lies in the 32-bit flags word and shares no bit
with the other load-flag constants the panel writes (in the Tacent library the load flags
of a format are different single bits). -/
def LoadFlagBits.ToneMapSeparate (b : LoadFlagBits) : Prop :=
  b.LoadFlag_ToneMapExposure < 2 ^ 32 ∧
  b.LoadFlag_ToneMapExposure &&& (b.LoadFlag_GammaCompression |||
    b.LoadFlag_SRGBCompression ||| b.LoadFlag_AutoGamma) = 0 ∧
  b.LoadFlag_ToneMapExposure &&& b.LoadFlag_SwizzleBGR2RGB = 0 ∧
  b.LoadFlag_ToneMapExposure &&& b.LoadFlag_SpreadLuminance = 0

/-- One of the editors of a DDS, PVR or KTX/KTX2 case reported an edit in the pass: a flag
checkbox that is shown was clicked, the "Gamma Corr" combo reported a selection, or a gamma,
exposure or max-range field that is shown was edited.  `gammaMode` is the mode after the
combo. -/
def editFired (swizzleShown exposureShown maxRangeShown luminanceShown : Bool)
    (gammaMode : Int) (inp : FormatInput) : Bool :=
  (swizzleShown && inp.swizzle) || inp.gammaCorr.isSome ||
    (decide (gammaMode = 1) && inp.gamma.isSome) ||
    (exposureShown && (inp.exposure.isSome || inp.exposureEnabled)) ||
    (maxRangeShown && inp.maxRange.isSome) ||
    (luminanceShown && inp.spreadLuminance)

/-- The period clamp of line 948 finds the preview period inside `[0.0, 60.0]` when it runs:
the image has more than one frame and the preview period is enabled. -/
def PeriodClampInRange (img : Image) : Prop :=
  1 < img.NumFrames → img.FrameDurationPreviewEnabled = true →
    0.0 ≤ img.FrameDurationPreview ∧ img.FrameDurationPreview ≤ 60.0

/-- The gamma clamp of a case with the "Gamma Corr" combo finds the gamma inside
`[0.5, 4.0]` when it runs: the mode read from the flags is Gamma. -/
def GammaClampInRange (b : LoadFlagBits) (Flags : Nat) (Gamma : Rat) : Prop :=
  readGammaMode b.toGammaFlagBits Flags = 1 → 0.5 ≤ Gamma ∧ Gamma ≤ 4.0

/-- Every numeric field whose clamp a pass without interaction executes on the image lies
inside its declared range: the clamps of the editors that the case of the file type shows,
and the period clamp when the case goes on to the frames section. -/
def ExecutedClampsInRange (t : LoadFlagTable) (img : Image) : Prop :=
  match img.Filetype with
  | tFileType.DDS =>
    GammaClampInRange t.DDS img.LoadParams_DDS.Flags img.LoadParams_DDS.Gamma ∧
    (showExposure img.Info = true →
      0.0 ≤ img.LoadParams_DDS.Exposure ∧ img.LoadParams_DDS.Exposure ≤ 4.0)
  | tFileType.PVR =>
    GammaClampInRange t.PVR img.LoadParams_PVR.Flags img.LoadParams_PVR.Gamma ∧
    (showExposure img.Info = true →
      0.0 ≤ img.LoadParams_PVR.Exposure ∧ img.LoadParams_PVR.Exposure ≤ 4.0) ∧
    (img.Info.IsRGBMOrRGBD = true →
      0.01 ≤ img.LoadParams_PVR.MaxRange ∧ img.LoadParams_PVR.MaxRange ≤ 128.0)
  | tFileType.KTX =>
    GammaClampInRange t.KTX img.LoadParams_KTX.Flags img.LoadParams_KTX.Gamma ∧
    (showExposureKTX img.Info = true →
      0.0 ≤ img.LoadParams_KTX.Exposure ∧ img.LoadParams_KTX.Exposure ≤ 4.0)
  | tFileType.KTX2 =>
    GammaClampInRange t.KTX img.LoadParams_KTX.Flags img.LoadParams_KTX.Gamma ∧
    (showExposureKTX img.Info = true →
      0.0 ≤ img.LoadParams_KTX.Exposure ∧ img.LoadParams_KTX.Exposure ≤ 4.0)
  | tFileType.ASTC =>
    GammaClampInRange t.ASTC img.LoadParams_ASTC.Flags img.LoadParams_ASTC.Gamma ∧
    0.0 ≤ img.LoadParams_ASTC.Exposure ∧ img.LoadParams_ASTC.Exposure ≤ 4.0
  | tFileType.PKM =>
    GammaClampInRange t.PKM img.LoadParams_PKM.Flags img.LoadParams_PKM.Gamma
  | tFileType.HDR =>
    (0.6 ≤ img.LoadParams_HDR.Gamma ∧ img.LoadParams_HDR.Gamma ≤ 3.0 ∧
      -10 ≤ img.LoadParams_HDR.Exposure ∧ img.LoadParams_HDR.Exposure ≤ 10) ∧
    PeriodClampInRange img
  | tFileType.EXR =>
    (0.6 ≤ img.LoadParams_EXR.Gamma ∧ img.LoadParams_EXR.Gamma ≤ 3.0 ∧
      -10.0 ≤ img.LoadParams_EXR.Exposure ∧ img.LoadParams_EXR.Exposure ≤ 10.0 ∧
      0.0 ≤ img.LoadParams_EXR.Defog ∧ img.LoadParams_EXR.Defog ≤ 0.1 ∧
      -3.0 ≤ img.LoadParams_EXR.KneeLow ∧ img.LoadParams_EXR.KneeLow ≤ 3.0 ∧
      3.5 ≤ img.LoadParams_EXR.KneeHigh ∧ img.LoadParams_EXR.KneeHigh ≤ 7.5) ∧
    PeriodClampInRange img
  | tFileType.TGA => PeriodClampInRange img
  | tFileType.WEBP => PeriodClampInRange img
  | tFileType.Other => PeriodClampInRange img

/-- The alternate picture (mipmap strip or cubemap layout) is enabled only on images of the
formats whose case runs `DoMultiSurface` (DDS, PVR, KTX, KTX2): `EnableAltPicture` is called
on lines 51, 69, 82, 300, 431 and 565 only, all of them in `DoMultiSurface` or in the reload
of these cases, and the two pictures exist for mipmapped and cubemap textures. -/
def AltPictureOnMultiSurface (img : Image) : Prop :=
  img.AltPictureEnabled = true →
    img.Filetype = tFileType.DDS ∨ img.Filetype = tFileType.PVR ∨
      img.Filetype = tFileType.KTX ∨ img.Filetype = tFileType.KTX2

/-- The alternate-picture flag before the reload of a case.  The DDS, PVR and KTX/KTX2 cases
read it into `altEnabled` after `DoMultiSurface` (lines 202, 323 and 462) and no later
statement of the case changes it before the reload; the other cases neither read nor write
it, so it is the flag of the image on entry. -/
def altEnabledBeforeReload (inp : FormatInput) (s : PanelState) : Option Bool :=
  match s.CurrImage.Filetype with
  | tFileType.DDS | tFileType.PVR | tFileType.KTX | tFileType.KTX2 =>
    (DoMultiSurface inp.multi s).map (fun q => q.1.CurrImage.AltPictureEnabled)
  | _ => some s.CurrImage.AltPictureEnabled

/-! ## Arithmetic lemmas -/

theorem wrapInt_eq {x : Int} (h1 : -2147483648 ≤ x) (h2 : x ≤ 2147483647) : wrapInt x = x := by
  unfold wrapInt; omega

theorem addInt_eq {a b : Int} (h1 : -2147483648 ≤ a + b) (h2 : a + b ≤ 2147483647) :
    addInt a b = a + b := wrapInt_eq h1 h2

theorem subInt_eq {a b : Int} (h1 : -2147483648 ≤ a - b) (h2 : a - b ≤ 2147483647) :
    subInt a b = a - b := wrapInt_eq h1 h2

theorem mulInt_eq {a b : Int} (h1 : -2147483648 ≤ a * b) (h2 : a * b ≤ 2147483647) :
    mulInt a b = a * b := wrapInt_eq h1 h2

theorem divInt_eq {a b : Int} (ha : 0 ≤ a) (ha2 : a ≤ 2147483647) (hb : 0 < b) :
    divInt a b = some (a / b) := by
  have hq0 : 0 ≤ a / b := Int.ediv_nonneg ha (le_of_lt hb)
  have hq1 : a / b ≤ a := Int.ediv_le_self b ha
  unfold divInt
  rw [if_neg (ne_of_gt hb), Int.tdiv_eq_ediv ha (le_of_lt hb), wrapInt_eq (by omega) (by omega)]

/-- Quotient and remainder of a flat index by the number of mips per face. -/
theorem quot_bounds {f m : Int} (hm : 1 ≤ m) (h0 : 0 ≤ f) (h1 : f < 6 * m) :
    0 ≤ f / m ∧ f / m ≤ 5 ∧ 0 ≤ (f / m) * m ∧ (f / m) * m ≤ f ∧ f < (f / m) * m + m := by
  have hpos : 0 < m := by omega
  have e := Int.ediv_add_emod f m
  have r0 := Int.emod_nonneg f (ne_of_gt hpos)
  have r1 := Int.emod_lt_of_pos f hpos
  have q0 : 0 ≤ f / m := Int.ediv_nonneg h0 (le_of_lt hpos)
  have q5 : f / m < 6 := Int.ediv_lt_of_lt_mul hpos h1
  have c : m * (f / m) = (f / m) * m := Int.mul_comm _ _
  have n0 : 0 ≤ (f / m) * m := Int.mul_nonneg q0 (le_of_lt hpos)
  refine ⟨q0, by omega, n0, by omega, by omega⟩

/-- The product `(face-1) * m` for a face in `[1, 6]`. -/
theorem face_mul_bounds {face m : Int} (hm : 1 ≤ m) (hf1 : 1 ≤ face) (hf6 : face ≤ 6) :
    0 ≤ (face - 1) * m ∧ (face - 1) * m ≤ 5 * m := by
  constructor
  · exact Int.mul_nonneg (by omega) (by omega)
  · exact Int.mul_le_mul_of_nonneg_right (by omega) (by omega)

/-- The write of lines 105 and 122 does not overflow for clamped coordinates. -/
theorem cubeFrameNum_eq {face mip m : Int} (hm : 1 ≤ m) (hM : 6 * m ≤ 2147483647)
    (hf1 : 1 ≤ face) (hf6 : face ≤ 6) (hp1 : 1 ≤ mip) (hpm : mip ≤ m) :
    cubeFrameNum face mip m = (face - 1) * m + (mip - 1) := by
  obtain ⟨b0, b1⟩ := face_mul_bounds hm hf1 hf6
  have a1 : subInt face 1 = face - 1 := subInt_eq (by omega) (by omega)
  have a2 : subInt mip 1 = mip - 1 := subInt_eq (by omega) (by omega)
  have a3 : mulInt (face - 1) m = (face - 1) * m := mulInt_eq (by omega) (by omega)
  unfold cubeFrameNum
  rw [a1, a2, a3, addInt_eq (by omega) (by omega)]

/-- The cube coordinates of lines 96-97 as quotient and remainder. -/
theorem cubeCoords_eq {f m : Int} (hm : 1 ≤ m) (hmi : m ≤ 2147483647) (h0 : 0 ≤ f)
    (h1 : f < 6 * m) (hf : f ≤ 2147483647) :
    cubeCoords f m = some (f / m + 1, f - (f / m) * m + 1) := by
  obtain ⟨q0, q5, n0, l, u⟩ := quot_bounds hm h0 h1
  have e1 : oneBasedSurfNum f m = some (f / m + 1) := by
    unfold oneBasedSurfNum
    rw [divInt_eq h0 hf (by omega)]
    simp only [Option.map_some']
    rw [addInt_eq (by omega) (by omega)]
  have e2 : oneBasedMipNum f (f / m + 1) m = f - (f / m) * m + 1 := by
    have a1 : subInt (f / m + 1) 1 = f / m := by
      rw [subInt_eq (by omega) (by omega)]; omega
    have a2 : mulInt (f / m) m = f / m * m := mulInt_eq (by omega) (by omega)
    have a3 : subInt f (f / m * m) = f - f / m * m := subInt_eq (by omega) (by omega)
    unfold oneBasedMipNum
    rw [a1, a2, a3, addInt_eq (by omega) (by omega)]
  unfold cubeCoords
  rw [e1]
  simp only [Option.map_some']
  rw [e2]

/-- Recomputing the flat index from the coordinates of lines 96-97. -/
theorem cubeFrameNum_coords {f m : Int} (hm : 1 ≤ m) (hmi : m ≤ 2147483647) (h0 : 0 ≤ f)
    (h1 : f < 6 * m) (hf : f ≤ 2147483647) :
    cubeFrameNum (f / m + 1) (f - (f / m) * m + 1) m = f := by
  obtain ⟨q0, q5, n0, l, u⟩ := quot_bounds hm h0 h1
  have a1 : subInt (f / m + 1) 1 = f / m := by
    rw [subInt_eq (by omega) (by omega)]; omega
  have a2 : mulInt (f / m) m = f / m * m := mulInt_eq (by omega) (by omega)
  have a3 : subInt (f - f / m * m + 1) 1 = f - f / m * m := by
    rw [subInt_eq (by omega) (by omega)]; omega
  unfold cubeFrameNum
  rw [a1, a2, a3, addInt_eq (by omega) (by omega)]
  omega

/-- The flat index of clamped coordinates lies in `[0, 6*m)` and has these coordinates. -/
theorem cubeCoords_cubeFrameNum {face mip m : Int} (hm : 1 ≤ m) (hM : 6 * m ≤ 2147483647)
    (hf1 : 1 ≤ face) (hf6 : face ≤ 6) (hp1 : 1 ≤ mip) (hpm : mip ≤ m) :
    0 ≤ cubeFrameNum face mip m ∧ cubeFrameNum face mip m < 6 * m ∧
      cubeCoords (cubeFrameNum face mip m) m = some (face, mip) := by
  obtain ⟨b0, b1⟩ := face_mul_bounds hm hf1 hf6
  have e := cubeFrameNum_eq hm hM hf1 hf6 hp1 hpm
  have hpos : 0 < m := by omega
  have hq : ((face - 1) * m + (mip - 1)) / m = face - 1 := by
    rw [Int.add_comm, Int.add_mul_ediv_right _ _ (ne_of_gt hpos),
      Int.ediv_eq_zero_of_lt (by omega) (by omega)]
    omega
  rw [e]
  refine ⟨by omega, by omega, ?_⟩
  rw [cubeCoords_eq hm (by omega) (by omega) (by omega) (by omega), hq]
  have x1 : face - 1 + 1 = face := by omega
  have x2 : (face - 1) * m + (mip - 1) - (face - 1) * m + 1 = mip := by omega
  rw [x1, x2]

/-! ## Theorems on the cube coordinates -/

/-- C1. For every `mipsPerFace ≥ 1` and every flat index with `0 ≤ flat < 6 * mipsPerFace`
(both values of a C++ `int`), the cube coordinates `DoMultiSurface` derives on lines 96-97
are `face = flat / mipsPerFace + 1` and `mip = flat - (face-1) * mipsPerFace + 1`, and the
flat index recomputed from them as on lines 105 and 122, `(face-1) * mipsPerFace + (mip-1)`,
is the original `flat`. -/
theorem C1_cube_roundtrip (mipsPerFace flat : Int) (hm : 1 ≤ mipsPerFace)
    (hmi : mipsPerFace ≤ INT_MAX) (h0 : 0 ≤ flat) (h1 : flat < 6 * mipsPerFace)
    (hf : flat ≤ INT_MAX) :
    ∃ face mip, cubeCoords flat mipsPerFace = some (face, mip) ∧
      face = flat / mipsPerFace + 1 ∧ mip = flat - (face - 1) * mipsPerFace + 1 ∧
      cubeFrameNum face mip mipsPerFace = flat := by
  unfold INT_MAX at hmi hf
  refine ⟨flat / mipsPerFace + 1, flat - (flat / mipsPerFace) * mipsPerFace + 1,
    cubeCoords_eq hm hmi h0 h1 hf, rfl, ?_, cubeFrameNum_coords hm hmi h0 h1 hf⟩
  have x : flat / mipsPerFace + 1 - 1 = flat / mipsPerFace := by omega
  rw [x]

/-- Witness of C1 at `mipsPerFace = 2`, `flat = 11`. -/
theorem C1_cube_roundtrip_witness :
    ∃ face mip, cubeCoords 11 2 = some (face, mip) ∧
      face = 11 / 2 + 1 ∧ mip = 11 - (face - 1) * 2 + 1 ∧ cubeFrameNum face mip 2 = 11 :=
  C1_cube_roundtrip 2 11 (by decide) (by decide) (by decide) (by decide) (by decide)

/-- C2. For a cubemap container with 12 frames the number of mips per face computed on line
95 is `12 / 6 = 2`, and the cube coordinates of lines 96-97 are: frame 0 is (side 1, mip 1),
frame 1 is (side 1, mip 2), frame 2 is (side 2, mip 1) and frame 11 is (side 6, mip 2). -/
theorem C2_cube_coords_twelve_frames :
    numCubeMips 12 = some 2 ∧
      cubeCoords 0 2 = some (1, 1) ∧ cubeCoords 1 2 = some (1, 2) ∧
      cubeCoords 2 2 = some (2, 1) ∧ cubeCoords 11 2 = some (6, 2) := by
  decide

/-- C5. For every `mipsPerFace ≥ 1` whose frame count `6 * mipsPerFace` is a C++ `int`:
(1) for every face in `[1, 6]` and mip in `[1, mipsPerFace]` the flat index written on lines
105 and 122 is `(face-1) * mipsPerFace + (mip-1)`, lies in `[0, 6 * mipsPerFace)`, and the
cube coordinates derived from it on lines 96-97 are the same `(face, mip)`;
(2) every flat index in `[0, 6 * mipsPerFace)` has coordinates in `[1, 6] x [1, mipsPerFace]`
that map back to it, so the mapping is a bijection;
(3) the flat index orders the coordinates face-major, mip-minor. -/
theorem C5_cube_bijection (mipsPerFace : Int) (hm : 1 ≤ mipsPerFace)
    (hM : 6 * mipsPerFace ≤ INT_MAX) :
    (∀ face mip : Int, 1 ≤ face → face ≤ 6 → 1 ≤ mip → mip ≤ mipsPerFace →
      cubeFrameNum face mip mipsPerFace = (face - 1) * mipsPerFace + (mip - 1) ∧
      0 ≤ cubeFrameNum face mip mipsPerFace ∧
      cubeFrameNum face mip mipsPerFace < 6 * mipsPerFace ∧
      cubeCoords (cubeFrameNum face mip mipsPerFace) mipsPerFace = some (face, mip)) ∧
    (∀ flat : Int, 0 ≤ flat → flat < 6 * mipsPerFace →
      ∃ face mip, 1 ≤ face ∧ face ≤ 6 ∧ 1 ≤ mip ∧ mip ≤ mipsPerFace ∧
        cubeCoords flat mipsPerFace = some (face, mip) ∧
        cubeFrameNum face mip mipsPerFace = flat) ∧
    (∀ face mip face2 mip2 : Int, 1 ≤ face → face ≤ 6 → 1 ≤ mip → mip ≤ mipsPerFace →
      1 ≤ face2 → face2 ≤ 6 → 1 ≤ mip2 → mip2 ≤ mipsPerFace →
      (cubeFrameNum face mip mipsPerFace < cubeFrameNum face2 mip2 mipsPerFace ↔
        face < face2 ∨ (face = face2 ∧ mip < mip2))) := by
  unfold INT_MAX at hM
  refine ⟨?_, ?_, ?_⟩
  · intro face mip hf1 hf6 hp1 hpm
    obtain ⟨r0, r1, r2⟩ := cubeCoords_cubeFrameNum hm hM hf1 hf6 hp1 hpm
    exact ⟨cubeFrameNum_eq hm hM hf1 hf6 hp1 hpm, r0, r1, r2⟩
  · intro flat h0 h1
    obtain ⟨q0, q5, n0, l, u⟩ := quot_bounds hm h0 h1
    exact ⟨flat / mipsPerFace + 1, flat - (flat / mipsPerFace) * mipsPerFace + 1,
      by omega, by omega, by omega, by omega,
      cubeCoords_eq hm (by omega) h0 h1 (by omega),
      cubeFrameNum_coords hm (by omega) h0 h1 (by omega)⟩
  · intro face mip face2 mip2 hf1 hf6 hp1 hpm hg1 hg6 hq1 hqm
    rw [cubeFrameNum_eq hm hM hf1 hf6 hp1 hpm, cubeFrameNum_eq hm hM hg1 hg6 hq1 hqm]
    interval_cases face <;> interval_cases face2 <;> omega

/-- Witness of C5 at `mipsPerFace = 2`: side 6, mip 2 is frame 11 and back. -/
theorem C5_cube_bijection_witness :
    cubeFrameNum 6 2 2 = (6 - 1) * 2 + (2 - 1) ∧ 0 ≤ cubeFrameNum 6 2 2 ∧
      cubeFrameNum 6 2 2 < 6 * 2 ∧ cubeCoords (cubeFrameNum 6 2 2) 2 = some (6, 2) :=
  (C5_cube_bijection 2 (by decide) (by decide)).1 6 2 (by decide) (by decide) (by decide)
    (by decide)


/-! ## Lemmas on the clamps and on `DoMultiSurface` -/

theorem tiClamp_mem {α : Type} [LinearOrder α] (v lo hi : α) (h : lo ≤ hi) :
    lo ≤ tiClamp v lo hi ∧ tiClamp v lo hi ≤ hi := by
  unfold tiClamp
  split_ifs with h1 h2
  · exact ⟨le_refl _, h⟩
  · exact ⟨h, le_refl _⟩
  · exact ⟨not_lt.mp h1, not_lt.mp h2⟩

theorem tiClamp_of_mem {α : Type} [LinearOrder α] {v lo hi : α} (h1 : lo ≤ v) (h2 : v ≤ hi) :
    tiClamp v lo hi = v := by
  unfold tiClamp
  rw [if_neg (not_lt.mpr h1), if_neg (not_lt.mpr h2)]

theorem numCubeMips_eq {m : Int} (hm : 1 ≤ m) (hM : 6 * m ≤ 2147483647) :
    divInt (6 * m) tFaceIndex_NumFaces = some m := by
  unfold tFaceIndex_NumFaces
  rw [divInt_eq (by omega) hM (by omega), Int.mul_ediv_cancel_left _ (by omega)]

theorem cubeBranch_inRange (inp : MultiSurfaceInput) (s : PanelState) (m : Int) (hm : 1 ≤ m)
    (hM : 6 * m ≤ 2147483647) (h0 : 0 ≤ s.CurrImage.FrameNum)
    (h1 : s.CurrImage.FrameNum < 6 * m) :
    ∃ s1, cubeBranch inp s (6 * m) = some s1 ∧ 0 ≤ s1.CurrImage.FrameNum ∧
      s1.CurrImage.FrameNum < 6 * m ∧ s1.CurrImage.NumFrames = s.CurrImage.NumFrames := by
  obtain ⟨q0, q5, n0, l, u⟩ := quot_bounds hm h0 h1
  have hc := cubeCoords_eq hm (by omega) h0 h1 (by omega)
  have hside : ∀ n : Int, 1 ≤ tiClamp n 1 tFaceIndex_NumFaces ∧ tiClamp n 1 tFaceIndex_NumFaces ≤ 6 :=
    fun n => tiClamp_mem n 1 6 (by decide)
  have hmip : ∀ n : Int, 1 ≤ tiClamp n 1 m ∧ tiClamp n 1 m ≤ m := fun n => tiClamp_mem n 1 m hm
  unfold cubeBranch numCubeMips
  simp only [numCubeMips_eq hm hM, hc, Option.bind_eq_bind, Option.some_bind, Option.pure_def]
  have R : ∀ face mip : Int, 1 ≤ face → face ≤ 6 → 1 ≤ mip → mip ≤ m →
      0 ≤ cubeFrameNum face mip m ∧ cubeFrameNum face mip m < 6 * m := by
    intro face mip a b c d
    have r := cubeCoords_cubeFrameNum hm hM a b c d
    exact ⟨r.1, r.2.1⟩
  have hr : 1 ≤ s.CurrImage.FrameNum - s.CurrImage.FrameNum / m * m + 1 ∧
      s.CurrImage.FrameNum - s.CurrImage.FrameNum / m * m + 1 ≤ m := by omega
  have hq : 1 ≤ s.CurrImage.FrameNum / m + 1 ∧ s.CurrImage.FrameNum / m + 1 ≤ 6 := by omega
  cases inp.cubeSide with
  | none =>
    cases inp.cubeMip with
    | none =>
      by_cases hm1 : m > 1 <;>
        simp only [hm1, decide_True, decide_False, if_true, if_false, Bool.false_eq_true] <;>
        exact ⟨_, rfl, h0, h1, rfl⟩
    | some b =>
      have r := R (s.CurrImage.FrameNum / m + 1) (tiClamp b 1 m) hq.1 hq.2 (hmip b).1 (hmip b).2
      by_cases hm1 : m > 1 <;>
        simp only [hm1, decide_True, decide_False, if_true, if_false, Bool.false_eq_true]
      · exact ⟨_, rfl, r.1, r.2, rfl⟩
      · exact ⟨_, rfl, h0, h1, rfl⟩
  | some a =>
    have ra := R (tiClamp a 1 tFaceIndex_NumFaces)
      (s.CurrImage.FrameNum - s.CurrImage.FrameNum / m * m + 1) (hside a).1 (hside a).2 hr.1 hr.2
    cases inp.cubeMip with
    | none =>
      by_cases hm1 : m > 1 <;>
        simp only [hm1, decide_True, decide_False, if_true, if_false, Bool.false_eq_true] <;>
        exact ⟨_, rfl, ra.1, ra.2, rfl⟩
    | some b =>
      have r := R (tiClamp a 1 tFaceIndex_NumFaces) (tiClamp b 1 m) (hside a).1 (hside a).2
        (hmip b).1 (hmip b).2
      by_cases hm1 : m > 1 <;>
        simp only [hm1, decide_True, decide_False, if_true, if_false, Bool.false_eq_true]
      · exact ⟨_, rfl, r.1, r.2, rfl⟩
      · exact ⟨_, rfl, ra.1, ra.2, rfl⟩

/-- The two checkbox sections leave the frame fields and the crop flag alone. -/
theorem mipmapsSection_fields (inp : MultiSurfaceInput) (s : PanelState) :
    (mipmapsSection inp s).1.CurrImage.FrameNum = s.CurrImage.FrameNum ∧
    (mipmapsSection inp s).1.CurrImage.NumFrames = s.CurrImage.NumFrames ∧
    (mipmapsSection inp s).1.CurrImage.AltCubemapPictureAvail =
      s.CurrImage.AltCubemapPictureAvail ∧
    (mipmapsSection inp s).1.CropMode = s.CropMode := by
  unfold mipmapsSection
  simp only []
  split_ifs <;>
    simp [PanelState.EnableAltPicture, PanelState.Bind, Image.EnableAltPicture]

theorem cubemapSection_fields (inp : MultiSurfaceInput) (s : PanelState) (anyDraw : Bool) :
    (cubemapSection inp s anyDraw).1.CurrImage.FrameNum = s.CurrImage.FrameNum ∧
    (cubemapSection inp s anyDraw).1.CurrImage.NumFrames = s.CurrImage.NumFrames ∧
    (cubemapSection inp s anyDraw).1.CurrImage.AltCubemapPictureAvail =
      s.CurrImage.AltCubemapPictureAvail ∧
    (cubemapSection inp s anyDraw).1.CropMode = s.CropMode := by
  unfold cubemapSection
  simp only []
  split_ifs <;>
    simp [PanelState.EnableAltPicture, PanelState.Bind, Image.EnableAltPicture]

theorem textureBranch_inRange (inp : MultiSurfaceInput) (s : PanelState) (numTextures : Int)
    (h1 : 1 ≤ numTextures) (hi : numTextures ≤ 2147483647)
    (h0 : 0 ≤ s.CurrImage.FrameNum) (hr : s.CurrImage.FrameNum ≤ numTextures - 1) :
    0 ≤ (textureBranch inp s numTextures).CurrImage.FrameNum ∧
      (textureBranch inp s numTextures).CurrImage.FrameNum ≤ numTextures - 1 ∧
      (textureBranch inp s numTextures).CurrImage.NumFrames = s.CurrImage.NumFrames := by
  have e : subInt numTextures 1 = numTextures - 1 := subInt_eq (by omega) (by omega)
  unfold textureBranch
  cases inp.textureNum with
  | none => exact ⟨h0, hr, rfl⟩
  | some n =>
    have c := tiClamp_mem (subInt n 1) 0 (numTextures - 1) (by omega)
    simp only [PanelState.setFrameNum, e]
    exact ⟨c.1, c.2, trivial⟩

theorem frameSection_inRange (inp : MultiSurfaceInput) (s : PanelState) (anyDraw : Bool)
    (hi : s.CurrImage.NumFrames ≤ 2147483647) (hr : FrameNumInRange s)
    (hc : s.CurrImage.AltCubemapPictureAvail = true → s.CurrImage.NumFrames % 6 = 0) :
    ∃ r, frameSection inp s anyDraw = some r ∧ FrameNumInRange r.1 ∧
      r.1.CurrImage.NumFrames = s.CurrImage.NumFrames := by
  unfold FrameNumInRange at hr
  unfold frameSection
  simp only []
  split_ifs with g1 g2
  · -- the cubemap branch
    simp only [Bool.and_eq_true, decide_eq_true_eq] at g1 g2
    have h6 := hc g2.1
    have hN : s.CurrImage.NumFrames = 6 * (s.CurrImage.NumFrames / 6) := by omega
    have hm : 1 ≤ s.CurrImage.NumFrames / 6 := by omega
    obtain ⟨s1, e1, a, b, c⟩ := cubeBranch_inRange inp s (s.CurrImage.NumFrames / 6) hm
      (by omega) hr.1 (by omega)
    rw [← hN] at e1
    rw [e1]
    refine ⟨(s1, true), rfl, ?_, c⟩
    unfold FrameNumInRange
    simp only [c]
    omega
  · -- the texture branch
    simp only [Bool.and_eq_true, decide_eq_true_eq] at g1
    have t := textureBranch_inRange inp s s.CurrImage.NumFrames (by omega) hi hr.1 hr.2
    refine ⟨_, rfl, ?_, t.2.2⟩
    unfold FrameNumInRange
    simp only [t.2.2]
    exact ⟨t.1, t.2.1⟩
  · exact ⟨_, rfl, hr, rfl⟩

theorem DoMultiSurface_inRange (inp : MultiSurfaceInput) (s : PanelState)
    (hi : s.CurrImage.NumFrames ≤ 2147483647) (hr : FrameNumInRange s)
    (hc : s.CurrImage.AltCubemapPictureAvail = true → s.CurrImage.NumFrames % 6 = 0) :
    ∃ r, DoMultiSurface inp s = some r ∧ FrameNumInRange r.1 ∧
      r.1.CurrImage.NumFrames = s.CurrImage.NumFrames := by
  obtain ⟨a1, a2, a3, _⟩ := mipmapsSection_fields inp s
  obtain ⟨b1, b2, b3, _⟩ :=
    cubemapSection_fields inp (mipmapsSection inp s).1 (mipmapsSection inp s).2
  unfold DoMultiSurface
  simp only []
  obtain ⟨r, e, f, g⟩ := frameSection_inRange inp
    (cubemapSection inp (mipmapsSection inp s).1 (mipmapsSection inp s).2).1
    (cubemapSection inp (mipmapsSection inp s).1 (mipmapsSection inp s).2).2
    (by rw [b2, a2]; exact hi)
    (by unfold FrameNumInRange at hr ⊢; rw [b1, a1, b2, a2]; exact hr)
    (by rw [b3, a3, b2, a2]; exact hc)
  exact ⟨r, e, f, by rw [g, b2, a2]⟩


/-! ## Lemmas on the frame edit and the playback row -/

theorem frameNumEdit_inRange (entered : Option Int) (s : PanelState)
    (h1 : 1 ≤ s.CurrImage.NumFrames) (hi : s.CurrImage.NumFrames ≤ 2147483647)
    (hr : FrameNumInRange s) :
    FrameNumInRange (frameNumEdit entered s) ∧
      (frameNumEdit entered s).CurrImage.NumFrames = s.CurrImage.NumFrames := by
  have e : subInt s.CurrImage.NumFrames 1 = s.CurrImage.NumFrames - 1 :=
    subInt_eq (by omega) (by omega)
  unfold frameNumEdit
  cases entered with
  | none => exact ⟨hr, rfl⟩
  | some n =>
    have c := tiClamp_mem (subInt n 1) 0 (s.CurrImage.NumFrames - 1) (by omega)
    unfold FrameNumInRange
    simp only [PanelState.setFrameNum, e]
    exact ⟨⟨c.1, c.2⟩, trivial⟩

theorem loopButton_inRange (p : Bool) (N : Int) (s : PanelState)
    (h : FrameNumInRange s ∧ s.CurrImage.NumFrames = N) :
    FrameNumInRange (loopButton p s) ∧ (loopButton p s).CurrImage.NumFrames = N := by
  unfold loopButton
  split_ifs
  · exact h
  · exact h

theorem skipBeginButton_inRange (p e : Bool) (N : Int) (s : PanelState) (h1 : 1 ≤ N)
    (h : FrameNumInRange s ∧ s.CurrImage.NumFrames = N) :
    FrameNumInRange (skipBeginButton p e s) ∧
      (skipBeginButton p e s).CurrImage.NumFrames = N := by
  unfold skipBeginButton
  split_ifs
  · obtain ⟨_, hn⟩ := h
    unfold FrameNumInRange
    simp only [PanelState.setFrameNum, hn]
    refine ⟨?_, trivial⟩
    omega
  · exact h

theorem prevButton_inRange (p e : Bool) (N : Int) (s : PanelState) (h1 : 1 ≤ N)
    (hi : N ≤ 2147483647) (h : FrameNumInRange s ∧ s.CurrImage.NumFrames = N) :
    FrameNumInRange (prevButton p e s) ∧ (prevButton p e s).CurrImage.NumFrames = N := by
  unfold prevButton
  split_ifs
  · obtain ⟨hr, hn⟩ := h
    unfold FrameNumInRange at hr ⊢
    rw [hn] at hr
    have e1 : subInt s.CurrImage.FrameNum 1 = s.CurrImage.FrameNum - 1 :=
      subInt_eq (by omega) (by omega)
    simp only [PanelState.setFrameNum, hn, e1, tClampMin]
    refine ⟨?_, trivial⟩
    split_ifs <;> omega
  · exact h

theorem nextButton_inRange (p e : Bool) (N : Int) (s : PanelState) (h1 : 1 ≤ N)
    (hi : N ≤ 2147483647) (h : FrameNumInRange s ∧ s.CurrImage.NumFrames = N) :
    FrameNumInRange (nextButton p e N s) ∧ (nextButton p e N s).CurrImage.NumFrames = N := by
  unfold nextButton
  split_ifs
  · obtain ⟨hr, hn⟩ := h
    unfold FrameNumInRange at hr ⊢
    rw [hn] at hr
    have e1 : addInt s.CurrImage.FrameNum 1 = s.CurrImage.FrameNum + 1 :=
      addInt_eq (by omega) (by omega)
    have e2 : subInt N 1 = N - 1 := subInt_eq (by omega) (by omega)
    simp only [PanelState.setFrameNum, hn, e1, e2, tClampMax]
    refine ⟨?_, trivial⟩
    split_ifs <;> omega
  · exact h

theorem skipEndButton_inRange (p e : Bool) (N : Int) (s : PanelState) (h1 : 1 ≤ N)
    (hi : N ≤ 2147483647) (h : FrameNumInRange s ∧ s.CurrImage.NumFrames = N) :
    FrameNumInRange (skipEndButton p e N s) ∧
      (skipEndButton p e N s).CurrImage.NumFrames = N := by
  unfold skipEndButton
  split_ifs
  · obtain ⟨_, hn⟩ := h
    have e2 : subInt N 1 = N - 1 := subInt_eq (by omega) (by omega)
    unfold FrameNumInRange
    simp only [PanelState.setFrameNum, hn, e2]
    refine ⟨?_, trivial⟩
    omega
  · exact h

theorem playbackRow_inRange (m : ImageMethods) (inp : PlaybackInput) (s : PanelState)
    (h1 : 1 ≤ s.CurrImage.NumFrames) (hi : s.CurrImage.NumFrames ≤ 2147483647)
    (hr : FrameNumInRange s) (hrev : inp.playRev = false) (hfwd : inp.playFwd = false) :
    FrameNumInRange (playbackRow m inp s.CurrImage.NumFrames s) := by
  unfold playbackRow
  simp only [hrev, hfwd, playRevButton, playFwdButton, Bool.false_and, Bool.false_eq_true,
    if_false]
  exact (skipEndButton_inRange _ _ _ _ h1 hi
    (nextButton_inRange _ _ _ _ h1 hi
      (prevButton_inRange _ _ _ _ h1 hi
        (skipBeginButton_inRange _ _ _ _ h1
          (loopButton_inRange _ _ _ ⟨hr, rfl⟩))))).1

/-! ## Theorems on the frame number -/

/-- C3.  For every image with `2 ≤ numFrames` (a C++ `int`) and every `FrameNum` in
`[0, numFrames-1]`: every write to `FrameNum` made by the panel leaves it in
`[0, numFrames-1]`, for every integer the user enters.  The image is a container of the data
model: when its cubemap picture is available the frame count is 6 times the mips per face
(the cube edits of lines 105 and 122 clamp side and mip, and rely on this shape).  The writes
are those of `DoMultiSurface` (Cube Side, Cube Mip and Mipmap/Texture number edits, in any
combination with the checkboxes), the Frame number edit, the playback row (Prev, Next,
Skip-to-begin, Skip-to-end, in any combination with the loop button) and Reset, which
writes 0. -/
theorem C3_frameNum_writes_in_range (m : ImageMethods) (s : PanelState)
    (h2 : 2 ≤ s.CurrImage.NumFrames) (hi : s.CurrImage.NumFrames ≤ INT_MAX)
    (hr : FrameNumInRange s)
    (hc : s.CurrImage.AltCubemapPictureAvail = true → s.CurrImage.NumFrames % 6 = 0) :
    (∀ inp : MultiSurfaceInput, ∃ r, DoMultiSurface inp s = some r ∧ FrameNumInRange r.1 ∧
      r.1.CurrImage.NumFrames = s.CurrImage.NumFrames) ∧
    (∀ entered : Option Int, FrameNumInRange (frameNumEdit entered s) ∧
      (frameNumEdit entered s).CurrImage.NumFrames = s.CurrImage.NumFrames) ∧
    (∀ inp : PlaybackInput, inp.playRev = false → inp.playFwd = false →
      FrameNumInRange (playbackRow m inp s.CurrImage.NumFrames s)) ∧
    ((resetPressed m s).CurrImage.FrameNum = 0 ∧ FrameNumInRange (s.setFrameNum 0)) := by
  unfold INT_MAX at hi
  refine ⟨fun inp => DoMultiSurface_inRange inp s hi hr hc,
    fun entered => frameNumEdit_inRange entered s (by omega) hi hr,
    fun inp hrev hfwd => playbackRow_inRange m inp s (by omega) hi hr hrev hfwd,
    rfl, ?_⟩
  unfold FrameNumInRange
  simp only [PanelState.setFrameNum]
  omega

/-- Witness of C3: a cubemap with 12 frames at frame 11, "Cube Mip" edited to 7. -/
theorem C3_frameNum_writes_in_range_witness :
    ∃ r, DoMultiSurface { MultiSurfaceInput.none with cubeMip := some 7 } (exampleCubemap 12 11)
        = some r ∧ FrameNumInRange r.1 ∧
      r.1.CurrImage.NumFrames = (exampleCubemap 12 11).CurrImage.NumFrames :=
  (C3_frameNum_writes_in_range exampleMethods (exampleCubemap 12 11) (by decide) (by decide)
    (by decide) (by decide)).1 { MultiSurfaceInput.none with cubeMip := some 7 }


/-- With at least one mip per face the cubemap branch never divides by zero. -/
theorem cubeBranch_isSome (inp : MultiSurfaceInput) (s : PanelState) (N : Int)
    (h6 : 6 ≤ N) (hi : N ≤ 2147483647) : (cubeBranch inp s N).isSome = true := by
  have hm : 1 ≤ N / 6 := by omega
  have hd : divInt N tFaceIndex_NumFaces = some (N / 6) := by
    unfold tFaceIndex_NumFaces
    exact divInt_eq (by omega) hi (by omega)
  have hc : ∃ c, cubeCoords s.CurrImage.FrameNum (N / 6) = some c := by
    unfold cubeCoords oneBasedSurfNum divInt
    rw [if_neg (by omega)]
    exact ⟨_, rfl⟩
  obtain ⟨c, hc⟩ := hc
  unfold cubeBranch numCubeMips
  simp only [hd, hc, Option.bind_eq_bind, Option.some_bind, Option.pure_def]
  cases inp.cubeSide <;> cases inp.cubeMip <;> by_cases hm1 : N / 6 > 1 <;>
    simp only [hm1, decide_True, decide_False, if_true, if_false, Bool.false_eq_true,
      Option.isSome_some]

/-- Whenever the state reaching line 89 meets the conditions of the cubemap branch
(`numTextures ≥ 2`, alternate picture not enabled, cubemap picture available outside crop
mode), with `numTextures` a C++ `int`: the divisor `numCubeMips = numTextures / 6` is at
least 1 exactly when `numTextures ≥ 6`, and in that case `FrameNum / numCubeMips` is defined
and the frame section completes for every user input. -/
theorem cubeDivisor_positive_iff (s : PanelState) (hi : s.CurrImage.NumFrames ≤ INT_MAX)
    (hb : entersCubeBranch s = true) :
    ((∃ m, numCubeMips s.CurrImage.NumFrames = some m ∧ 1 ≤ m) ↔
      6 ≤ s.CurrImage.NumFrames) ∧
    (6 ≤ s.CurrImage.NumFrames →
      (∃ m q, numCubeMips s.CurrImage.NumFrames = some m ∧ 1 ≤ m ∧
        divInt s.CurrImage.FrameNum m = some q) ∧
      ∀ (inp : MultiSurfaceInput) (anyDraw : Bool),
        (frameSection inp s anyDraw).isSome = true) := by
  unfold INT_MAX at hi
  unfold entersCubeBranch at hb
  simp only [Bool.and_eq_true, decide_eq_true_eq] at hb
  obtain ⟨⟨h2, ha⟩, hc⟩ := hb
  have hd : numCubeMips s.CurrImage.NumFrames = some (s.CurrImage.NumFrames / 6) := by
    unfold numCubeMips tFaceIndex_NumFaces
    exact divInt_eq (by omega) hi (by omega)
  refine ⟨?_, ?_⟩
  · rw [hd]
    constructor
    · rintro ⟨m, e, h1⟩
      have : s.CurrImage.NumFrames / 6 = m := Option.some.inj e
      omega
    · intro h6
      exact ⟨_, rfl, by omega⟩
  · intro h6
    refine ⟨⟨s.CurrImage.NumFrames / 6,
      wrapInt (Int.tdiv s.CurrImage.FrameNum (s.CurrImage.NumFrames / 6)), hd, by omega, ?_⟩, ?_⟩
    · unfold divInt
      rw [if_neg (by omega)]
    · intro inp anyDraw
      have hg : (decide (s.CurrImage.NumFrames ≥ 2) && !s.CurrImage.AltPictureEnabled) = true := by
        simp only [Bool.and_eq_true, decide_eq_true_eq]
        exact ⟨h2, ha⟩
      have hg2 : (s.CurrImage.AltCubemapPictureAvail && !s.CropMode) = true := by
        simp only [Bool.and_eq_true]
        exact hc
      have hs := cubeBranch_isSome inp s s.CurrImage.NumFrames h6 hi
      unfold frameSection
      simp only [hg, hg2, if_true]
      cases hcb : cubeBranch inp s s.CurrImage.NumFrames with
      | none => rw [hcb] at hs; exact absurd hs (by decide)
      | some r => rfl

/-- C4.  Whenever the state reaching line 89 meets the conditions of the cubemap branch
(`numTextures ≥ 2`, alternate picture not enabled, cubemap picture available outside crop
mode), on a container of the data model (a cubemap has 6 times the mips per face frames;
`numTextures` is a C++ `int`): the divisor `numCubeMips = numTextures / 6` is at least 1,
with `6 * numCubeMips = numTextures`, so the division `FrameNum / numCubeMips` of line 96 is
defined, and the frame section completes for every user input: there is no division by
zero. -/
theorem C4_cube_divisor_positive (s : PanelState) (hi : s.CurrImage.NumFrames ≤ INT_MAX)
    (hb : entersCubeBranch s = true)
    (hc : s.CurrImage.AltCubemapPictureAvail = true → s.CurrImage.NumFrames % 6 = 0) :
    (∃ m q, numCubeMips s.CurrImage.NumFrames = some m ∧ 1 ≤ m ∧
      6 * m = s.CurrImage.NumFrames ∧ divInt s.CurrImage.FrameNum m = some q) ∧
    ∀ (inp : MultiSurfaceInput) (anyDraw : Bool),
      (frameSection inp s anyDraw).isSome = true := by
  have hb0 := hb
  unfold entersCubeBranch at hb0
  simp only [Bool.and_eq_true, decide_eq_true_eq] at hb0
  obtain ⟨⟨h2, _⟩, hav, _⟩ := hb0
  have h0 := hc hav
  have h6 : 6 ≤ s.CurrImage.NumFrames := by omega
  obtain ⟨⟨m, q, hm, h1, hq⟩, hsec⟩ := (cubeDivisor_positive_iff s hi hb).2 h6
  refine ⟨⟨m, q, hm, h1, ?_, hq⟩, hsec⟩
  have hd : numCubeMips s.CurrImage.NumFrames = some (s.CurrImage.NumFrames / 6) := by
    unfold INT_MAX at hi
    unfold numCubeMips tFaceIndex_NumFaces
    exact divInt_eq (by omega) hi (by omega)
  rw [hd] at hm
  have : s.CurrImage.NumFrames / 6 = m := Option.some.inj hm
  omega

/-- Witness of C4: a cubemap with 12 frames, 2 mips per face. -/
theorem C4_cube_divisor_positive_witness :
    ∃ m q, numCubeMips (exampleCubemap 12 0).CurrImage.NumFrames = some m ∧ 1 ≤ m ∧
      6 * m = (exampleCubemap 12 0).CurrImage.NumFrames ∧
      divInt (exampleCubemap 12 0).CurrImage.FrameNum m = some q :=
  (C4_cube_divisor_positive (exampleCubemap 12 0) (by decide) (by decide) (by decide)).1

/-- The one-based number edits away from the smallest `int`: for `INT_MIN < n ≤ INT_MAX` and
`1 ≤ numFrames ≤ INT_MAX` both edits store `n - 1` clamped into `[0, numFrames-1]`. -/
theorem numberEdit_clamps (s : PanelState) (n : Int) (inp : MultiSurfaceInput)
    (h1 : 1 ≤ s.CurrImage.NumFrames) (hi : s.CurrImage.NumFrames ≤ 2147483647)
    (hn1 : -2147483648 < n) (hn2 : n ≤ 2147483647) :
    (textureBranch { inp with textureNum := some n } s s.CurrImage.NumFrames).CurrImage.FrameNum
      = tiClamp (n - 1) 0 (s.CurrImage.NumFrames - 1) ∧
    (frameNumEdit (some n) s).CurrImage.FrameNum
      = tiClamp (n - 1) 0 (s.CurrImage.NumFrames - 1) := by
  have e : subInt s.CurrImage.NumFrames 1 = s.CurrImage.NumFrames - 1 :=
    subInt_eq (by omega) (by omega)
  have e2 : subInt n 1 = n - 1 := subInt_eq (by omega) (by omega)
  unfold textureBranch frameNumEdit
  simp only [PanelState.setFrameNum, e, e2, and_self]

/-- C6 evaluated at the failing input.  With 2 frames and the entered one-based number
`n = INT_MIN = -2147483648`, the claimed result is `n - 1` clamped into `[0, 1]`, which is 0.
In the code `n - 1` leaves the range of `int` before the clamp runs; with two's complement
wrap-around it is 2147483647, and the clamp then stores `numFrames - 1 = 1`, both through the
Texture number edit of `DoMultiSurface` and through the Frame number edit of
`ShowPropertiesWindow`. -/
theorem C6_number_edit_at_int_min :
    tiClamp (INT_MIN - 1) 0 (2 - 1) = 0 ∧
      subInt INT_MIN 1 = INT_MAX ∧
      DoMultiSurface { MultiSurfaceInput.none with textureNum := some INT_MIN }
        (exampleFrames 2 0) = some ((exampleFrames 2 0).setFrameNum 1, true) ∧
      frameNumEdit (some INT_MIN) (exampleFrames 2 0) = (exampleFrames 2 0).setFrameNum 1 := by
  decide

/-! ## Theorems on the clamp -/

/-- C7. For every range `lo ≤ hi` and every value `v` of a linearly ordered type, the clamp
`tiClamp(v, lo, hi)` is saturating: it leaves `v` unchanged when `lo ≤ v ≤ hi`, yields exactly
`hi` when `v > hi` and exactly `lo` when `v < lo`; it is a total function and its result is
always inside `[lo, hi]` (no wrap-around). -/
theorem C7_tiClamp_saturating {α : Type} [LinearOrder α] (lo hi v : α) (h : lo ≤ hi) :
    (lo ≤ v → v ≤ hi → tiClamp v lo hi = v) ∧
    (hi < v → tiClamp v lo hi = hi) ∧
    (v < lo → tiClamp v lo hi = lo) ∧
    lo ≤ tiClamp v lo hi ∧ tiClamp v lo hi ≤ hi := by
  refine ⟨fun h1 h2 => tiClamp_of_mem h1 h2, ?_, ?_, tiClamp_mem v lo hi h⟩
  · intro hv
    unfold tiClamp
    rw [if_neg (not_lt.mpr (le_of_lt (lt_of_le_of_lt h hv))), if_pos hv]
  · intro hv
    unfold tiClamp
    rw [if_pos hv]

/-- Witness of C7: the HDR exposure range `[-10, 10]` at the value 25. -/
theorem C7_tiClamp_saturating_witness : tiClamp (25 : Int) (-10) 10 = 10 :=
  (C7_tiClamp_saturating (-10 : Int) 10 25 (by decide)).2.1 (by decide)

/-- C8. Clamping is idempotent: for every range `lo ≤ hi` and every value `v`, clamping the
clamped value again gives the same result, and so does any number of further clamps; in
particular a pass over the HDR exposure field without an edit (the clamp of line 777 alone)
leaves an exposure that an earlier pass has stored unchanged. -/
theorem C8_tiClamp_idempotent {α : Type} [LinearOrder α] (lo hi v : α) (h : lo ≤ hi) :
    tiClamp (tiClamp v lo hi) lo hi = tiClamp v lo hi ∧
    (∀ n : Nat, (fun x => tiClamp x lo hi)^[n + 1] v = tiClamp v lo hi) ∧
    (∀ (entered : Option Int) (e : Int),
      (hdrExposureField Option.none (hdrExposureField entered e).1).1
        = (hdrExposureField entered e).1) := by
  have idem : ∀ x : α, tiClamp (tiClamp x lo hi) lo hi = tiClamp x lo hi := fun x =>
    tiClamp_of_mem (tiClamp_mem x lo hi h).1 (tiClamp_mem x lo hi h).2
  refine ⟨idem v, ?_, ?_⟩
  · intro n
    induction n with
    | zero => rfl
    | succ k ih =>
      rw [Function.iterate_succ_apply', ih]
      exact idem v
  · intro entered e
    have c : ∀ x : Int, tiClamp (tiClamp x (-10) 10) (-10) 10 = tiClamp x (-10) 10 := fun x =>
      tiClamp_of_mem (tiClamp_mem x (-10) 10 (by decide)).1
        (tiClamp_mem x (-10) 10 (by decide)).2
    cases entered with
    | none => exact c e
    | some n => exact c n

/-- Witness of C8: the HDR exposure range `[-10, 10]` at the value 25. -/
theorem C8_tiClamp_idempotent_witness :
    tiClamp (tiClamp (25 : Int) (-10) 10) (-10) 10 = tiClamp (25 : Int) (-10) 10 :=
  (C8_tiClamp_idempotent (-10 : Int) 10 25 (by decide)).1


/-! ## Lemmas on the flag bits -/

theorem flagSet_two_pow (F i : Nat) : flagSet F (2 ^ i) = F.testBit i := by
  unfold flagSet
  rw [Nat.and_two_pow]
  cases F.testBit i <;> simp

theorem not32_testBit (x p : Nat) : (not32 x).testBit p = (decide (p < 32) && !x.testBit p) := by
  have e : (4294967295 : Nat) = 2 ^ 32 - 1 := by norm_num
  have e2 : (4294967296 : Nat) = 2 ^ 32 := by norm_num
  unfold not32
  rw [e, e2, Nat.testBit_xor, Nat.testBit_two_pow_sub_one, Nat.testBit_mod_two_pow]
  cases decide (p < 32) <;> cases x.testBit p <;> rfl

/-- Bit `p` of the flags after a combo selection, for single-bit flag constants. -/
theorem gammaComboSelect_testBit (F : Nat) (gammaMode : Int) (i j k p : Nat) :
    (gammaComboSelect ⟨2 ^ i, 2 ^ j, 2 ^ k⟩ F gammaMode).testBit p =
      (((F.testBit p && (decide (p < 32) && !(decide (i = p) || decide (j = p) || decide (k = p))))
        || (decide (gammaMode = 1) && decide (i = p)))
        || (decide (gammaMode = 2) && decide (j = p))
        || (decide (gammaMode = 3) && decide (k = p))) := by
  unfold gammaComboSelect
  simp only []
  by_cases h1 : gammaMode = 1 <;> by_cases h2 : gammaMode = 2 <;> by_cases h3 : gammaMode = 3 <;>
    simp [h1, h2, h3, Nat.testBit_or, Nat.testBit_and, not32_testBit, Nat.testBit_two_pow]

/-- The three flags after a combo selection, for distinct single-bit flag constants. -/
theorem gammaComboSelect_flags (b : GammaFlagBits) (hb : b.DistinctSingleBits) (Flags : Nat)
    (gammaMode : Int) :
    flagSet (gammaComboSelect b Flags gammaMode) b.LoadFlag_GammaCompression
        = decide (gammaMode = 1) ∧
      flagSet (gammaComboSelect b Flags gammaMode) b.LoadFlag_SRGBCompression
        = decide (gammaMode = 2) ∧
      flagSet (gammaComboSelect b Flags gammaMode) b.LoadFlag_AutoGamma
        = decide (gammaMode = 3) := by
  obtain ⟨i, j, k, hi, hj, hk, hij, hik, hjk, hG, hS, hA⟩ := hb
  have eb : b = ⟨2 ^ i, 2 ^ j, 2 ^ k⟩ := by
    cases b
    simp only at hG hS hA
    rw [hG, hS, hA]
  rw [eb]
  simp only [flagSet_two_pow, gammaComboSelect_testBit]
  refine ⟨?_, ?_, ?_⟩
  · simp [hij, hik, hjk, Ne.symm hij, Ne.symm hik, Ne.symm hjk]
  · simp [hij, hik, hjk, Ne.symm hij, Ne.symm hik, Ne.symm hjk]
  · simp [hij, hik, hjk, Ne.symm hij, Ne.symm hik, Ne.symm hjk]


/-! ## Theorems on the gamma flags -/

/-- C9. In each of the DDS, PVR, KTX/KTX2, ASTC and PKM branches (the same statements run on
the branch's own `Flags` word and flag constants, here any three distinct single bits), for
every initial `Flags` value and every mode chosen in the "Gamma Corr" combo: after the
selection a gamma flag is set exactly when it is the flag of the chosen mode (None 0 sets
none, Gamma 1 only `GammaCompression`, sRGB 2 only `SRGBCompression`, Auto 3 only
`AutoGamma`), so no two of the three flags are set together; in particular choosing sRGB
when `GammaCompression` was set clears it and sets only `SRGBCompression`. -/
theorem C9_gamma_flags_exclusive (b : GammaFlagBits) (hb : b.DistinctSingleBits)
    (Flags : Nat) (gammaMode : Int) :
    (flagSet (gammaComboSelect b Flags gammaMode) b.LoadFlag_GammaCompression
        = decide (gammaMode = 1) ∧
      flagSet (gammaComboSelect b Flags gammaMode) b.LoadFlag_SRGBCompression
        = decide (gammaMode = 2) ∧
      flagSet (gammaComboSelect b Flags gammaMode) b.LoadFlag_AutoGamma
        = decide (gammaMode = 3)) ∧
    (¬ (flagSet (gammaComboSelect b Flags gammaMode) b.LoadFlag_GammaCompression = true ∧
        flagSet (gammaComboSelect b Flags gammaMode) b.LoadFlag_SRGBCompression = true) ∧
      ¬ (flagSet (gammaComboSelect b Flags gammaMode) b.LoadFlag_GammaCompression = true ∧
        flagSet (gammaComboSelect b Flags gammaMode) b.LoadFlag_AutoGamma = true) ∧
      ¬ (flagSet (gammaComboSelect b Flags gammaMode) b.LoadFlag_SRGBCompression = true ∧
        flagSet (gammaComboSelect b Flags gammaMode) b.LoadFlag_AutoGamma = true)) ∧
    (flagSet Flags b.LoadFlag_GammaCompression = true →
      flagSet (gammaComboSelect b Flags 2) b.LoadFlag_GammaCompression = false ∧
      flagSet (gammaComboSelect b Flags 2) b.LoadFlag_SRGBCompression = true ∧
      flagSet (gammaComboSelect b Flags 2) b.LoadFlag_AutoGamma = false) := by
  obtain ⟨g, r, a⟩ := gammaComboSelect_flags b hb Flags gammaMode
  obtain ⟨g2, r2, a2⟩ := gammaComboSelect_flags b hb Flags 2
  refine ⟨⟨g, r, a⟩, ⟨?_, ?_, ?_⟩, ?_⟩
  · rw [g, r, decide_eq_true_eq, decide_eq_true_eq]; omega
  · rw [g, a, decide_eq_true_eq, decide_eq_true_eq]; omega
  · rw [r, a, decide_eq_true_eq, decide_eq_true_eq]; omega
  · intro _
    rw [g2, r2, a2]
    decide

/-- Witness of C9: flag constants 1, 2 and 4, initial flags with all three gamma flags and
bit 3 set, mode sRGB chosen. -/
theorem C9_gamma_flags_exclusive_witness :
    flagSet (gammaComboSelect ⟨1, 2, 4⟩ 15 2) 1 = decide ((2 : Int) = 1) ∧
      flagSet (gammaComboSelect ⟨1, 2, 4⟩ 15 2) 2 = decide ((2 : Int) = 2) ∧
      flagSet (gammaComboSelect ⟨1, 2, 4⟩ 15 2) 4 = decide ((2 : Int) = 3) :=
  (C9_gamma_flags_exclusive ⟨1, 2, 4⟩
    ⟨0, 1, 2, by decide, by decide, by decide, by decide, by decide, by decide, rfl, rfl, rfl⟩
    15 2).1

/-! ## Theorems on the playback row -/

/-- C10. For every `numFrames > 1` (a C++ `int`) and every `FrameNum` in `[0, numFrames-1]`,
a pass in which the Prev button is pressed sets `FrameNum` to `FrameNum - 1` when the image
is not playing and `FrameNum > 0`, and otherwise changes nothing; in particular pressing Prev
at `FrameNum = 0` is a no-op, and `FrameNum` never becomes -1. -/
theorem C10_prev_button (m : ImageMethods) (s : PanelState)
    (h2 : 1 < s.CurrImage.NumFrames) (hi : s.CurrImage.NumFrames ≤ INT_MAX)
    (hr : FrameNumInRange s) :
    playbackRow m { PlaybackInput.none with prev := true } s.CurrImage.NumFrames s =
        (if s.CurrImage.FramePlaying = false ∧ 0 < s.CurrImage.FrameNum
          then s.setFrameNum (s.CurrImage.FrameNum - 1) else s) ∧
      (s.CurrImage.FrameNum = 0 →
        playbackRow m { PlaybackInput.none with prev := true } s.CurrImage.NumFrames s = s) ∧
      (playbackRow m { PlaybackInput.none with prev := true } s.CurrImage.NumFrames
        s).CurrImage.FrameNum ≠ -1 ∧
      0 ≤ (playbackRow m { PlaybackInput.none with prev := true } s.CurrImage.NumFrames
        s).CurrImage.FrameNum := by
  unfold INT_MAX at hi
  unfold FrameNumInRange at hr
  have e : playbackRow m { PlaybackInput.none with prev := true } s.CurrImage.NumFrames s =
      (if s.CurrImage.FramePlaying = false ∧ 0 < s.CurrImage.FrameNum
        then s.setFrameNum (s.CurrImage.FrameNum - 1) else s) := by
    unfold playbackRow
    simp only [PlaybackInput.none, loopButton, skipBeginButton, prevButton, playRevButton,
      playFwdButton, nextButton, skipEndButton, prevEnabled, Bool.false_and,
      Bool.false_eq_true, if_false, Bool.true_and]
    by_cases hp : s.CurrImage.FramePlaying = false
    · by_cases hf : 0 < s.CurrImage.FrameNum
      · have e1 : subInt s.CurrImage.FrameNum 1 = s.CurrImage.FrameNum - 1 :=
          subInt_eq (by omega) (by omega)
        have e2 : tClampMin (s.CurrImage.FrameNum - 1) 0 = s.CurrImage.FrameNum - 1 := by
          unfold tClampMin
          rw [if_neg (by omega)]
        simp only [hp, hf, e1, e2, Bool.not_false, Bool.true_and, gt_iff_lt, decide_True,
          if_true, and_self]
      · simp only [hp, hf, Bool.not_false, Bool.true_and, gt_iff_lt, decide_False,
          Bool.false_eq_true, if_false, and_false]
    · have hp2 : s.CurrImage.FramePlaying = true := by
        cases h : s.CurrImage.FramePlaying
        · exact absurd h hp
        · rfl
      simp only [hp2, Bool.not_true, Bool.false_and, Bool.false_eq_true, if_false]
      rw [if_neg (by simp)]
  rw [e]
  refine ⟨rfl, ?_, ?_, ?_⟩
  · intro h0
    rw [if_neg (by omega)]
  · split_ifs with c
    · simp only [PanelState.setFrameNum]; omega
    · omega
  · split_ifs with c
    · simp only [PanelState.setFrameNum]; omega
    · omega

/-- Witness of C10: 3 frames, at frame 2, not playing. -/
theorem C10_prev_button_witness :
    playbackRow exampleMethods { PlaybackInput.none with prev := true }
        (exampleFrames 3 2).CurrImage.NumFrames (exampleFrames 3 2) =
      (if (exampleFrames 3 2).CurrImage.FramePlaying = false ∧
          0 < (exampleFrames 3 2).CurrImage.FrameNum
        then (exampleFrames 3 2).setFrameNum ((exampleFrames 3 2).CurrImage.FrameNum - 1)
        else exampleFrames 3 2) :=
  (C10_prev_button exampleMethods (exampleFrames 3 2) (by decide) (by decide) (by decide)).1


/-- C11. For every `numFrames > 1` (a C++ `int`) and every `FrameNum` in `[0, numFrames-1]`,
a pass in which the Next button is pressed sets `FrameNum` to `FrameNum + 1` when the image
is not playing and `FrameNum < numFrames-1`, and otherwise changes nothing; in particular
pressing Next at `FrameNum = numFrames-1` stays at `numFrames-1`. -/
theorem C11_next_button (m : ImageMethods) (s : PanelState)
    (h2 : 1 < s.CurrImage.NumFrames) (hi : s.CurrImage.NumFrames ≤ INT_MAX)
    (hr : FrameNumInRange s) :
    playbackRow m { PlaybackInput.none with next := true } s.CurrImage.NumFrames s =
        (if s.CurrImage.FramePlaying = false ∧ s.CurrImage.FrameNum < s.CurrImage.NumFrames - 1
          then s.setFrameNum (s.CurrImage.FrameNum + 1) else s) ∧
      (s.CurrImage.FrameNum = s.CurrImage.NumFrames - 1 →
        playbackRow m { PlaybackInput.none with next := true } s.CurrImage.NumFrames s = s) ∧
      (playbackRow m { PlaybackInput.none with next := true } s.CurrImage.NumFrames
        s).CurrImage.FrameNum ≤ s.CurrImage.NumFrames - 1 := by
  unfold INT_MAX at hi
  unfold FrameNumInRange at hr
  have eN : subInt s.CurrImage.NumFrames 1 = s.CurrImage.NumFrames - 1 :=
    subInt_eq (by omega) (by omega)
  have e : playbackRow m { PlaybackInput.none with next := true } s.CurrImage.NumFrames s =
      (if s.CurrImage.FramePlaying = false ∧ s.CurrImage.FrameNum < s.CurrImage.NumFrames - 1
        then s.setFrameNum (s.CurrImage.FrameNum + 1) else s) := by
    unfold playbackRow
    simp only [PlaybackInput.none, loopButton, skipBeginButton, prevButton, playRevButton,
      playFwdButton, nextButton, skipEndButton, nextEnabled, Bool.false_and,
      Bool.false_eq_true, if_false, Bool.true_and, eN]
    by_cases hp : s.CurrImage.FramePlaying = false
    · by_cases hf : s.CurrImage.FrameNum < s.CurrImage.NumFrames - 1
      · have e1 : addInt s.CurrImage.FrameNum 1 = s.CurrImage.FrameNum + 1 :=
          addInt_eq (by omega) (by omega)
        have e2 : tClampMax (s.CurrImage.FrameNum + 1) (s.CurrImage.NumFrames - 1)
            = s.CurrImage.FrameNum + 1 := by
          unfold tClampMax
          rw [if_neg (by omega)]
        simp only [hp, hf, e1, e2, Bool.not_false, Bool.true_and, decide_True, if_true,
          and_self]
      · simp only [hp, hf, Bool.not_false, Bool.true_and, decide_False,
          Bool.false_eq_true, if_false, and_false]
    · have hp2 : s.CurrImage.FramePlaying = true := by
        cases h : s.CurrImage.FramePlaying
        · exact absurd h hp
        · rfl
      simp only [hp2, Bool.not_true, Bool.false_and, Bool.false_eq_true, if_false]
      rw [if_neg (by simp)]
  rw [e]
  refine ⟨rfl, ?_, ?_⟩
  · intro h0
    rw [if_neg (by omega)]
  · split_ifs with c
    · simp only [PanelState.setFrameNum]; omega
    · omega

/-- Witness of C11: 3 frames, at frame 1, not playing. -/
theorem C11_next_button_witness :
    playbackRow exampleMethods { PlaybackInput.none with next := true }
        (exampleFrames 3 1).CurrImage.NumFrames (exampleFrames 3 1) =
      (if (exampleFrames 3 1).CurrImage.FramePlaying = false ∧
          (exampleFrames 3 1).CurrImage.FrameNum < (exampleFrames 3 1).CurrImage.NumFrames - 1
        then (exampleFrames 3 1).setFrameNum ((exampleFrames 3 1).CurrImage.FrameNum + 1)
        else exampleFrames 3 1) :=
  (C11_next_button exampleMethods (exampleFrames 3 1) (by decide) (by decide) (by decide)).1


/-! ## Lemmas on the calls and the completion of `DoMultiSurface` -/

/-- Writing back the frame number that is already there changes nothing. -/
theorem setFrameNum_self (s : PanelState) : s.setFrameNum s.CurrImage.FrameNum = s := rfl

/-- The cubemap branch only ever writes the frame number. -/
theorem cubeBranch_eq (inp : MultiSurfaceInput) (s r : PanelState) (N : Int)
    (h : cubeBranch inp s N = some r) : ∃ n, r = s.setFrameNum n := by
  unfold cubeBranch at h
  cases hd : numCubeMips N with
  | none =>
    simp only [hd, Option.bind_eq_bind, Option.none_bind] at h
    exact absurd h (by simp)
  | some cm =>
    simp only [hd, Option.bind_eq_bind, Option.some_bind] at h
    cases hc : cubeCoords s.CurrImage.FrameNum cm with
    | none =>
      simp only [hc, Option.none_bind] at h
      exact absurd h (by simp)
    | some c =>
      simp only [hc, Option.some_bind, Option.pure_def] at h
      cases hs : inp.cubeSide <;> cases hp : inp.cubeMip <;> by_cases hm1 : cm > 1 <;>
        simp only [hs, hp, hm1, decide_True, decide_False, if_true, if_false,
          Bool.false_eq_true, Option.some.injEq] at h <;>
        exact ⟨_, h.symm⟩

/-- The cubemap branch without an edit changes nothing. -/
theorem cubeBranch_none (s r : PanelState) (N : Int)
    (h : cubeBranch MultiSurfaceInput.none s N = some r) : r = s := by
  unfold cubeBranch at h
  cases hd : numCubeMips N with
  | none =>
    simp only [hd, Option.bind_eq_bind, Option.none_bind] at h
    exact absurd h (by simp)
  | some cm =>
    simp only [hd, Option.bind_eq_bind, Option.some_bind] at h
    cases hc : cubeCoords s.CurrImage.FrameNum cm with
    | none =>
      simp only [hc, Option.none_bind] at h
      exact absurd h (by simp)
    | some c =>
      simp only [hc, Option.some_bind, Option.pure_def, MultiSurfaceInput.none] at h
      by_cases hm1 : cm > 1 <;>
        simp only [hm1, decide_True, decide_False, if_true, if_false,
          Bool.false_eq_true, Option.some.injEq] at h <;>
        exact h.symm

/-- The frame section only ever writes the frame number. -/
theorem frameSection_eq (inp : MultiSurfaceInput) (s : PanelState) (anyDraw : Bool)
    (r : PanelState × Bool) (h : frameSection inp s anyDraw = some r) :
    ∃ n, r.1 = s.setFrameNum n := by
  unfold frameSection at h
  simp only [] at h
  split_ifs at h with g1 g2
  · cases hc : cubeBranch inp s s.CurrImage.NumFrames with
    | none => rw [hc] at h; exact absurd h (by simp)
    | some r1 =>
      rw [hc] at h
      simp only [Option.map_some', Option.some.injEq] at h
      obtain ⟨n, hn⟩ := cubeBranch_eq inp s r1 _ hc
      exact ⟨n, by rw [← h]; exact hn⟩
  · simp only [Option.some.injEq] at h
    rw [← h]
    unfold textureBranch
    cases inp.textureNum with
    | none => exact ⟨s.CurrImage.FrameNum, rfl⟩
    | some n => exact ⟨_, rfl⟩
  · simp only [Option.some.injEq] at h
    rw [← h]
    exact ⟨s.CurrImage.FrameNum, rfl⟩

/-- The frame section without an edit changes nothing. -/
theorem frameSection_none (s : PanelState) (anyDraw : Bool) (r : PanelState × Bool)
    (h : frameSection MultiSurfaceInput.none s anyDraw = some r) : r.1 = s := by
  unfold frameSection at h
  simp only [] at h
  split_ifs at h with g1 g2
  · cases hc : cubeBranch MultiSurfaceInput.none s s.CurrImage.NumFrames with
    | none => rw [hc] at h; exact absurd h (by simp)
    | some r1 =>
      rw [hc] at h
      simp only [Option.map_some', Option.some.injEq] at h
      rw [← h]
      exact cubeBranch_none s r1 _ hc
  · simp only [Option.some.injEq] at h
    rw [← h]
    rfl
  · simp only [Option.some.injEq] at h
    rw [← h]

/-- `DoMultiSurface` without any interaction changes nothing. -/
theorem DoMultiSurface_none (s : PanelState) (r : PanelState × Bool)
    (h : DoMultiSurface MultiSurfaceInput.none s = some r) : r.1 = s := by
  have e1 : (mipmapsSection MultiSurfaceInput.none s).1 = s := by
    unfold mipmapsSection
    simp only [MultiSurfaceInput.none, Bool.false_eq_true, if_false]
    split_ifs <;> rfl
  have e2 : ∀ a, (cubemapSection MultiSurfaceInput.none s a).1 = s := by
    intro a
    unfold cubemapSection
    simp only [MultiSurfaceInput.none, Bool.false_eq_true, if_false]
    split_ifs <;> rfl
  unfold DoMultiSurface at h
  simp only [] at h
  rw [e1] at h
  have h2 := frameSection_none _ _ r h
  rw [h2, e2]

/-- `DoMultiSurface` completes when a cubemap picture comes with at least 6 frames. -/
theorem DoMultiSurface_isSome (inp : MultiSurfaceInput) (s : PanelState)
    (h6 : s.CurrImage.AltCubemapPictureAvail = true → 6 ≤ s.CurrImage.NumFrames)
    (hi : s.CurrImage.NumFrames ≤ 2147483647) : (DoMultiSurface inp s).isSome = true := by
  obtain ⟨_, a2, a3, _⟩ := mipmapsSection_fields inp s
  obtain ⟨_, b2, b3, _⟩ :=
    cubemapSection_fields inp (mipmapsSection inp s).1 (mipmapsSection inp s).2
  unfold DoMultiSurface
  simp only []
  generalize hq : cubemapSection inp (mipmapsSection inp s).1 (mipmapsSection inp s).2 = q
  rw [hq] at b2 b3
  unfold frameSection
  simp only []
  split_ifs with g1 g2
  · simp only [Bool.and_eq_true] at g2
    have hc : s.CurrImage.AltCubemapPictureAvail = true := by rw [← a3, ← b3]; exact g2.1
    have hs := cubeBranch_isSome inp q.1 q.1.CurrImage.NumFrames
      (by rw [b2, a2]; exact h6 hc) (by rw [b2, a2]; exact hi)
    cases hcb : cubeBranch inp q.1 q.1.CurrImage.NumFrames with
    | none => rw [hcb] at hs; exact absurd hs (by decide)
    | some r => rfl
  · rfl
  · rfl

/-! ## Theorem on the unified mipmap toggle -/

/-- C15. For a texture-array image with more than one mip level and a pass in which the
"Display All Mipmaps" toggle is clicked (and the "Display As Cubemap" checkbox is not): when
the click switches the toggle off while the alternate picture is enabled, `DoMultiSurface`
calls `EnableAltPicture(false)` followed by `Bind` and nothing else, and the alt-enabled flag
is false afterwards; when the click switches the toggle on, or switches it off while the
alternate picture is not enabled, no call is made and the flag keeps its value.  This holds
for lines 41-64 as such and for every completed pass of `DoMultiSurface`, which completes
whenever a cubemap picture comes with at least 6 frames. -/
theorem C15_unified_mips_toggle (inp : MultiSurfaceInput) (s : PanelState)
    (hta : s.CurrImage.IsTextureArray = true) (hmip : 1 < s.CurrImage.NumMipLevels)
    (hclick : inp.displayAllMipmaps = true) (hcube : inp.displayAsCubemap = false) :
    ((mipmapsSection inp s).1.gShowAllMipsUnified = !s.gShowAllMipsUnified ∧
      ((mipmapsSection inp s).1.calls, (mipmapsSection inp s).1.CurrImage.AltPictureEnabled) =
        if s.gShowAllMipsUnified = true ∧ s.CurrImage.AltPictureEnabled = true
        then (s.calls ++ [Call.EnableAltPicture false, Call.Bind], false)
        else (s.calls, s.CurrImage.AltPictureEnabled)) ∧
    (∀ r, DoMultiSurface inp s = some r →
      (r.1.calls, r.1.CurrImage.AltPictureEnabled) =
        if s.gShowAllMipsUnified = true ∧ s.CurrImage.AltPictureEnabled = true
        then (s.calls ++ [Call.EnableAltPicture false, Call.Bind], false)
        else (s.calls, s.CurrImage.AltPictureEnabled)) ∧
    ((s.CurrImage.AltCubemapPictureAvail = true → 6 ≤ s.CurrImage.NumFrames) →
      s.CurrImage.NumFrames ≤ INT_MAX → (DoMultiSurface inp s).isSome = true) := by
  have hm : (mipmapsSection inp s).1.gShowAllMipsUnified = !s.gShowAllMipsUnified ∧
      ((mipmapsSection inp s).1.calls, (mipmapsSection inp s).1.CurrImage.AltPictureEnabled) =
        if s.gShowAllMipsUnified = true ∧ s.CurrImage.AltPictureEnabled = true
        then (s.calls ++ [Call.EnableAltPicture false, Call.Bind], false)
        else (s.calls, s.CurrImage.AltPictureEnabled) := by
    unfold mipmapsSection
    simp only [hta, hmip, hclick, gt_iff_lt, decide_True, Bool.and_self, if_true]
    cases hg : s.gShowAllMipsUnified <;> cases ha : s.CurrImage.AltPictureEnabled <;>
      simp only [ha, Bool.not_false, Bool.not_true, Bool.and_false, Bool.and_true,
        Bool.false_eq_true, if_false, if_true, and_self, and_false, false_and] <;>
      split_ifs <;>
      simp [PanelState.EnableAltPicture, PanelState.Bind, Image.EnableAltPicture, ha]
  refine ⟨hm, ?_, ?_⟩
  · intro r hr
    unfold DoMultiSurface at hr
    simp only [] at hr
    have hc : (cubemapSection inp (mipmapsSection inp s).1 (mipmapsSection inp s).2).1
        = (mipmapsSection inp s).1 := by
      unfold cubemapSection
      simp only [hcube, Bool.false_eq_true, if_false]
      split_ifs <;> rfl
    obtain ⟨n, hn⟩ := frameSection_eq _ _ _ r hr
    rw [hn, hc]
    exact hm.2
  · intro h6 hi
    exact DoMultiSurface_isSome inp s h6 hi

/-- Witness of C15: a texture array with three mip levels, unified mip view on, alternate
picture enabled. -/
theorem C15_unified_mips_toggle_witness :
    (mipmapsSection { MultiSurfaceInput.none with displayAllMipmaps := true }
        { exampleFrames 4 0 with
          CurrImage := { (exampleFrames 4 0).CurrImage with
            IsTextureArray := true, NumMipLevels := 3, AltPictureEnabled := true },
          gShowAllMipsUnified := true }).1.gShowAllMipsUnified = !true :=
  (C15_unified_mips_toggle { MultiSurfaceInput.none with displayAllMipmaps := true }
    { exampleFrames 4 0 with
      CurrImage := { (exampleFrames 4 0).CurrImage with
        IsTextureArray := true, NumMipLevels := 3, AltPictureEnabled := true },
      gShowAllMipsUnified := true }
    (by decide) (by decide) (by decide) (by decide)).1.1


/-! ## Lemmas on the widgets of the file-type section -/

theorem floatField_fst (e : Option Rat) (v lo hi : Rat) (r : Bool) :
    (floatField e v lo hi r).1 = tiClamp (e.getD v) lo hi := by
  cases e <;> rfl

theorem floatField_mem (e : Option Rat) (v lo hi : Rat) (r : Bool) (h : lo ≤ hi) :
    lo ≤ (floatField e v lo hi r).1 ∧ (floatField e v lo hi r).1 ≤ hi := by
  rw [floatField_fst]
  exact tiClamp_mem _ lo hi h

theorem floatField_unchanged {e : Option Rat} {v lo hi : Rat} {r : Bool}
    (h : (floatField e v lo hi r).2 = false) (h1 : lo ≤ v) (h2 : v ≤ hi) :
    (floatField e v lo hi r).1 = v ∧ r = false := by
  cases e with
  | none => exact ⟨tiClamp_of_mem h1 h2, h⟩
  | some x => exact absurd h (by simp [floatField])

theorem CheckboxFlags_unchanged {c : Bool} {F f : Nat} {r : Bool}
    (h : (CheckboxFlags c F f r).2 = false) : (CheckboxFlags c F f r).1 = F ∧ r = false := by
  cases c with
  | false => exact ⟨rfl, h⟩
  | true => exact absurd h (by simp [CheckboxFlags])

theorem gammaCorrCombo_unchanged {b : GammaFlagBits} {sel : Option Int} {F : Nat} {r : Bool}
    (h : (gammaCorrCombo b sel F r).2.2 = false) :
    (gammaCorrCombo b sel F r).1 = F ∧ r = false := by
  cases sel with
  | none => exact ⟨rfl, h⟩
  | some k => exact absurd h (by simp [gammaCorrCombo])

theorem gammaCorrCombo_mode (b : GammaFlagBits) (k : Int) (F : Nat) (r : Bool) :
    (gammaCorrCombo b (some k) F r).2.1 = k := rfl

theorem gammaField_unchanged {gm : Int} {e : Option Rat} {G : Rat} {r : Bool}
    (h : (gammaField gm e G r).2 = false) (h1 : 0.5 ≤ G) (h2 : G ≤ 4.0) :
    (gammaField gm e G r).1 = G ∧ r = false := by
  unfold gammaField at h ⊢
  split_ifs at h ⊢ with g
  · exact floatField_unchanged h h1 h2
  · exact ⟨rfl, h⟩

theorem gammaField_mem (e : Option Rat) (G : Rat) (r : Bool) :
    0.5 ≤ (gammaField 1 e G r).1 ∧ (gammaField 1 e G r).1 ≤ 4.0 := by
  unfold gammaField
  rw [if_pos rfl]
  exact floatField_mem e G 0.5 4.0 r (by norm_num)

theorem exposureBlock_unchanged {t : Nat} {e : Option Rat} {c : Bool} {F : Nat} {E : Rat}
    {r : Bool} (h : (exposureBlock t e c F E r).2.2 = false) (h1 : 0.0 ≤ E) (h2 : E ≤ 4.0) :
    (exposureBlock t e c F E r).1 = F ∧ (exposureBlock t e c F E r).2.1 = E ∧ r = false := by
  unfold exposureBlock at h ⊢
  simp only [] at h ⊢
  obtain ⟨a, b⟩ := CheckboxFlags_unchanged h
  obtain ⟨c1, d⟩ := floatField_unchanged b h1 h2
  exact ⟨a, c1, d⟩

theorem exposureBlock_mem (t : Nat) (e : Option Rat) (c : Bool) (F : Nat) (E : Rat) (r : Bool) :
    0.0 ≤ (exposureBlock t e c F E r).2.1 ∧ (exposureBlock t e c F E r).2.1 ≤ 4.0 := by
  unfold exposureBlock
  exact floatField_mem e E 0.0 4.0 r (by norm_num)

theorem hdrExposureField_unchanged {e : Option Int} {E : Int}
    (h : (hdrExposureField e E).2 = false) (h1 : -10 ≤ E) (h2 : E ≤ 10) :
    (hdrExposureField e E).1 = E := by
  cases e with
  | none => exact tiClamp_of_mem h1 h2
  | some x => exact absurd h (by simp [hdrExposureField])

theorem hdrExposureField_fst (e : Option Int) (E : Int) :
    (hdrExposureField e E).1 = tiClamp (e.getD E) (-10) 10 := by
  cases e <;> rfl

theorem ite_CheckboxFlags_unchanged {shown c : Bool} {F f : Nat} {r : Bool}
    (h : (if shown = true then CheckboxFlags c F f r else (F, r)).2 = false) :
    (if shown = true then CheckboxFlags c F f r else (F, r)).1 = F ∧ r = false := by
  cases shown with
  | false => exact ⟨rfl, h⟩
  | true => exact CheckboxFlags_unchanged h

theorem ite_exposureBlock_unchanged {shown : Bool} {t : Nat} {e : Option Rat} {c : Bool}
    {F : Nat} {E : Rat} {r : Bool}
    (h : (if shown = true then exposureBlock t e c F E r else (F, E, r)).2.2 = false)
    (h1 : 0.0 ≤ E) (h2 : E ≤ 4.0) :
    (if shown = true then exposureBlock t e c F E r else (F, E, r)).1 = F ∧
      (if shown = true then exposureBlock t e c F E r else (F, E, r)).2.1 = E ∧ r = false := by
  cases shown with
  | false => exact ⟨rfl, rfl, h⟩
  | true => exact exposureBlock_unchanged h h1 h2

theorem ite_floatField_unchanged {shown : Bool} {e : Option Rat} {v lo hi : Rat} {r : Bool}
    (h : (if shown = true then floatField e v lo hi r else (v, r)).2 = false)
    (h1 : lo ≤ v) (h2 : v ≤ hi) :
    (if shown = true then floatField e v lo hi r else (v, r)).1 = v ∧ r = false := by
  cases shown with
  | false => exact ⟨rfl, h⟩
  | true => exact floatField_unchanged h h1 h2

/-! ## Lemmas on the editors -/

theorem ddsEdits_unchanged (b : LoadFlagBits) (inp : FormatInput) (info : ImgInfo)
    (p : LoadParamsDDS) (h : (ddsEdits b inp info p).reloadChanges = false)
    (g1 : 0.5 ≤ p.Gamma) (g2 : p.Gamma ≤ 4.0) (e1 : 0.0 ≤ p.Exposure) (e2 : p.Exposure ≤ 4.0) :
    (ddsEdits b inp info p).params = p := by
  unfold ddsEdits at h ⊢
  simp only [] at h ⊢
  obtain ⟨l1, l2⟩ := ite_CheckboxFlags_unchanged h
  obtain ⟨x1, x2, x3⟩ := ite_exposureBlock_unchanged l2 e1 e2
  obtain ⟨f1, f2⟩ := gammaField_unchanged x3 g1 g2
  obtain ⟨c1, c2⟩ := gammaCorrCombo_unchanged f2
  obtain ⟨s1, _⟩ := ite_CheckboxFlags_unchanged c2
  rw [l1, x1, x2, f1, c1, s1]

theorem pvrEdits_unchanged (b : LoadFlagBits) (inp : FormatInput) (info : ImgInfo)
    (p : LoadParamsPVR) (h : (pvrEdits b inp info p).reloadChanges = false)
    (g1 : 0.5 ≤ p.Gamma) (g2 : p.Gamma ≤ 4.0) (e1 : 0.0 ≤ p.Exposure) (e2 : p.Exposure ≤ 4.0)
    (m1 : 0.01 ≤ p.MaxRange) (m2 : p.MaxRange ≤ 128.0) :
    (pvrEdits b inp info p).params = p := by
  unfold pvrEdits at h ⊢
  simp only [] at h ⊢
  obtain ⟨l1, l2⟩ := ite_CheckboxFlags_unchanged h
  obtain ⟨r1, r2⟩ := ite_floatField_unchanged l2 m1 m2
  obtain ⟨x1, x2, x3⟩ := ite_exposureBlock_unchanged r2 e1 e2
  obtain ⟨f1, f2⟩ := gammaField_unchanged x3 g1 g2
  obtain ⟨c1, _⟩ := gammaCorrCombo_unchanged f2
  rw [l1, r1, x1, x2, f1, c1]

theorem ktxEdits_unchanged (b : LoadFlagBits) (inp : FormatInput) (info : ImgInfo)
    (p : LoadParamsKTX) (h : (ktxEdits b inp info p).reloadChanges = false)
    (g1 : 0.5 ≤ p.Gamma) (g2 : p.Gamma ≤ 4.0) (e1 : 0.0 ≤ p.Exposure) (e2 : p.Exposure ≤ 4.0) :
    (ktxEdits b inp info p).params = p := by
  unfold ktxEdits at h ⊢
  simp only [] at h ⊢
  obtain ⟨l1, l2⟩ := ite_CheckboxFlags_unchanged h
  obtain ⟨x1, x2, x3⟩ := ite_exposureBlock_unchanged l2 e1 e2
  obtain ⟨f1, f2⟩ := gammaField_unchanged x3 g1 g2
  obtain ⟨c1, c2⟩ := gammaCorrCombo_unchanged f2
  obtain ⟨s1, _⟩ := ite_CheckboxFlags_unchanged c2
  rw [l1, x1, x2, f1, c1, s1]

theorem astcEdits_unchanged (b : LoadFlagBits) (inp : FormatInput)
    (p : LoadParamsASTC) (h : (astcEdits b inp p).reloadChanges = false)
    (g1 : 0.5 ≤ p.Gamma) (g2 : p.Gamma ≤ 4.0) (e1 : 0.0 ≤ p.Exposure) (e2 : p.Exposure ≤ 4.0) :
    (astcEdits b inp p).params = p := by
  unfold astcEdits at h ⊢
  simp only [] at h ⊢
  obtain ⟨x1, x2, x3⟩ := exposureBlock_unchanged h e1 e2
  obtain ⟨f1, f2⟩ := gammaField_unchanged x3 g1 g2
  obtain ⟨c1, c2⟩ := gammaCorrCombo_unchanged f2
  rw [x1, x2, f1, c1]
  cases hc : inp.colourProfile with
  | none => rfl
  | some k => rw [hc] at c2; exact absurd c2 (by simp)

theorem pkmEdits_unchanged (b : LoadFlagBits) (inp : FormatInput) (info : ImgInfo)
    (p : LoadParamsPKM) (h : (pkmEdits b inp info p).reloadChanges = false)
    (g1 : 0.5 ≤ p.Gamma) (g2 : p.Gamma ≤ 4.0) :
    (pkmEdits b inp info p).params = p := by
  unfold pkmEdits at h ⊢
  simp only [] at h ⊢
  obtain ⟨l1, l2⟩ := ite_CheckboxFlags_unchanged h
  obtain ⟨f1, f2⟩ := gammaField_unchanged l2 g1 g2
  obtain ⟨c1, _⟩ := gammaCorrCombo_unchanged f2
  rw [l1, f1, c1]

theorem hdrEdits_unchanged (inp : FormatInput) (p : LoadParamsHDR)
    (h : (hdrEdits inp p).reloadChanges = false)
    (g1 : 0.6 ≤ p.Gamma) (g2 : p.Gamma ≤ 3.0) (e1 : -10 ≤ p.Exposure) (e2 : p.Exposure ≤ 10) :
    (hdrEdits inp p).params = p := by
  unfold hdrEdits at h ⊢
  simp only [] at h ⊢
  cases he : (hdrExposureField inp.hdrExposure p.Exposure).2 with
  | true => rw [he] at h; exact absurd h (by simp)
  | false =>
    rw [he] at h
    simp only [Bool.false_eq_true, if_false] at h
    obtain ⟨f1, _⟩ := floatField_unchanged h g1 g2
    rw [f1, hdrExposureField_unchanged he e1 e2]

theorem exrEdits_unchanged (inp : FormatInput) (p : LoadParamsEXR)
    (h : (exrEdits inp p).reloadChanges = false)
    (g1 : 0.6 ≤ p.Gamma) (g2 : p.Gamma ≤ 3.0)
    (e1 : -10.0 ≤ p.Exposure) (e2 : p.Exposure ≤ 10.0)
    (d1 : 0.0 ≤ p.Defog) (d2 : p.Defog ≤ 0.1)
    (l1 : -3.0 ≤ p.KneeLow) (l2 : p.KneeLow ≤ 3.0)
    (k1 : 3.5 ≤ p.KneeHigh) (k2 : p.KneeHigh ≤ 7.5) :
    (exrEdits inp p).params = p := by
  unfold exrEdits at h ⊢
  simp only [] at h ⊢
  obtain ⟨a1, a2⟩ := floatField_unchanged h k1 k2
  obtain ⟨b1, b2⟩ := floatField_unchanged a2 l1 l2
  obtain ⟨c1, c2⟩ := floatField_unchanged b2 d1 d2
  obtain ⟨x1, x2⟩ := floatField_unchanged c2 e1 e2
  obtain ⟨y1, _⟩ := floatField_unchanged x2 g1 g2
  rw [a1, b1, c1, x1, y1]

theorem tgaEdits_unchanged (f : Nat) (inp : FormatInput) (p : LoadParamsTGA)
    (h : (tgaEdits f inp p).reloadChanges = false) : (tgaEdits f inp p).params = p := by
  unfold tgaEdits at h ⊢
  simp only [] at h ⊢
  obtain ⟨a1, _⟩ := CheckboxFlags_unchanged h
  rw [a1]


/-! ## Lemmas on the state after `DoMultiSurface` and after the tail of a case -/

theorem isAltCall_bind : Call.Bind.IsAltCall := Or.inl rfl

theorem isAltCall_enable (b : Bool) : (Call.EnableAltPicture b).IsAltCall := Or.inr ⟨b, rfl⟩

theorem afterMulti_of_eq (s r : PanelState)
    (h1 : r.CropMode = s.CropMode) (h2 : r.ShowFrameScrubber = s.ShowFrameScrubber)
    (h3 : r.texts = s.texts)
    (h4 : r.calls = s.calls ++ r.calls.drop s.calls.length)
    (h5 : r.CurrImage = { s.CurrImage with AltPictureEnabled := r.CurrImage.AltPictureEnabled,
                                           FrameNum := r.CurrImage.FrameNum }) :
    r = s.afterMulti r.CurrImage.AltPictureEnabled r.CurrImage.FrameNum
      r.gShowAllMipsUnified r.gShowAllArrayLayers r.gShowLayerMipMatrix
      (r.calls.drop s.calls.length) := by
  unfold PanelState.afterMulti
  cases r
  simp only [] at h1 h2 h3 h4 h5
  simp only [PanelState.mk.injEq, true_and, h1, h2, h3, ← h4, and_self, and_true]
  exact h5

theorem mipmapsSection_form (inp : MultiSurfaceInput) (s : PanelState) :
    ∃ e g1 g2 g3 pre, (mipmapsSection inp s).1 = s.afterMulti e s.CurrImage.FrameNum g1 g2 g3 pre ∧
      ∀ c ∈ pre, c.IsAltCall := by
  have k1 : (mipmapsSection inp s).1.CropMode = s.CropMode := by
    unfold mipmapsSection; simp only []; split_ifs <;> rfl
  have k2 : (mipmapsSection inp s).1.ShowFrameScrubber = s.ShowFrameScrubber := by
    unfold mipmapsSection; simp only []; split_ifs <;> rfl
  have k3 : (mipmapsSection inp s).1.texts = s.texts := by
    unfold mipmapsSection; simp only []; split_ifs <;> rfl
  have k4 : (mipmapsSection inp s).1.calls =
      s.calls ++ (mipmapsSection inp s).1.calls.drop s.calls.length := by
    unfold mipmapsSection; simp only []
    split_ifs <;> simp [PanelState.EnableAltPicture, PanelState.Bind]
  have k5 : (mipmapsSection inp s).1.CurrImage = { s.CurrImage with
      AltPictureEnabled := (mipmapsSection inp s).1.CurrImage.AltPictureEnabled,
      FrameNum := (mipmapsSection inp s).1.CurrImage.FrameNum } := by
    unfold mipmapsSection; simp only []; split_ifs <;> rfl
  have k6 : ∀ c ∈ (mipmapsSection inp s).1.calls.drop s.calls.length, c.IsAltCall := by
    unfold mipmapsSection; simp only []
    split_ifs <;>
      simp [PanelState.EnableAltPicture, PanelState.Bind, isAltCall_bind, isAltCall_enable]
  have hf : (mipmapsSection inp s).1.CurrImage.FrameNum = s.CurrImage.FrameNum :=
    (mipmapsSection_fields inp s).1
  have := afterMulti_of_eq s (mipmapsSection inp s).1 k1 k2 k3 k4 k5
  rw [hf] at this
  exact ⟨_, _, _, _, _, this, k6⟩

theorem cubemapSection_form (inp : MultiSurfaceInput) (s : PanelState) (a : Bool) :
    ∃ e pre, (cubemapSection inp s a).1 = s.afterMulti e s.CurrImage.FrameNum
        s.gShowAllMipsUnified s.gShowAllArrayLayers s.gShowLayerMipMatrix pre ∧
      ∀ c ∈ pre, c.IsAltCall := by
  unfold cubemapSection
  simp only []
  split_ifs
  · exact ⟨!((s.CurrImage.AltCubemapPictureAvail && !s.CropMode) &&
        s.CurrImage.AltPictureEnabled),
      [Call.EnableAltPicture (!((s.CurrImage.AltCubemapPictureAvail && !s.CropMode) &&
        s.CurrImage.AltPictureEnabled)), Call.Bind],
      by simp [PanelState.EnableAltPicture, PanelState.Bind, Image.EnableAltPicture,
        PanelState.afterMulti],
      by simp [isAltCall_bind, isAltCall_enable]⟩
  · exact ⟨s.CurrImage.AltPictureEnabled, [], by simp [PanelState.afterMulti], by simp⟩
  · exact ⟨s.CurrImage.AltPictureEnabled, [], by simp [PanelState.afterMulti], by simp⟩

theorem afterMulti_afterMulti (s : PanelState) (e e2 : Bool) (n n2 : Int)
    (g1 g2 g3 h1 h2 h3 : Bool) (pre pre2 : List Call) :
    (s.afterMulti e n g1 g2 g3 pre).afterMulti e2 n2 h1 h2 h3 pre2 =
      s.afterMulti e2 n2 h1 h2 h3 (pre ++ pre2) := by
  simp [PanelState.afterMulti]

theorem afterMulti_setFrameNum (s : PanelState) (e : Bool) (n n2 : Int) (g1 g2 g3 : Bool)
    (pre : List Call) :
    (s.afterMulti e n g1 g2 g3 pre).setFrameNum n2 = s.afterMulti e n2 g1 g2 g3 pre := by
  simp [PanelState.afterMulti, PanelState.setFrameNum]

/-- The state after a completed pass of `DoMultiSurface`. -/
theorem DoMultiSurface_form (inp : MultiSurfaceInput) (s : PanelState) (r : PanelState × Bool)
    (h : DoMultiSurface inp s = some r) :
    ∃ e n g1 g2 g3 pre, r.1 = s.afterMulti e n g1 g2 g3 pre ∧ ∀ c ∈ pre, c.IsAltCall := by
  obtain ⟨e1, g1, g2, g3, pre1, hm, hp1⟩ := mipmapsSection_form inp s
  obtain ⟨e2, pre2, hc, hp2⟩ :=
    cubemapSection_form inp (mipmapsSection inp s).1 (mipmapsSection inp s).2
  unfold DoMultiSurface at h
  simp only [] at h
  obtain ⟨n, hn⟩ := frameSection_eq _ _ _ r h
  refine ⟨e2, n, g1, g2, g3, pre1 ++ pre2, ?_, ?_⟩
  · rw [hn, hc, hm]
    simp [PanelState.afterMulti, PanelState.setFrameNum]
  · intro c hcm
    rcases List.mem_append.mp hcm with h1 | h1
    · exact hp1 c h1
    · exact hp2 c h1


/-! ## Lemmas on the cases of the file-type section -/

theorem ddsBranch_eq (m : ImageMethods) (b : LoadFlagBits) (inp : FormatInput) (s : PanelState) :
    ddsBranch m b inp s = (DoMultiSurface inp.multi s).map (fun q =>
      multiSurfaceTail m "No DDS Properties Available" inp s.CurrImage.NumFrames
        q.1.CurrImage.AltPictureEnabled true
        (ddsEdits b inp q.1.CurrImage.Info q.1.CurrImage.LoadParams_DDS).reloadChanges
        { q.1 with CurrImage := { q.1.CurrImage with LoadParams_DDS :=
            (ddsEdits b inp q.1.CurrImage.Info q.1.CurrImage.LoadParams_DDS).params } }) := by
  unfold ddsBranch
  cases DoMultiSurface inp.multi s with
  | none => rfl
  | some q =>
    simp only [Option.bind_eq_bind, Option.some_bind, Option.pure_def, Option.map_some',
      ite_self]

theorem pvrBranch_eq (m : ImageMethods) (b : LoadFlagBits) (inp : FormatInput) (s : PanelState) :
    pvrBranch m b inp s = (DoMultiSurface inp.multi s).map (fun q =>
      multiSurfaceTail m "No PVR Properties Available" inp s.CurrImage.NumFrames
        q.1.CurrImage.AltPictureEnabled true
        (pvrEdits b inp q.1.CurrImage.Info q.1.CurrImage.LoadParams_PVR).reloadChanges
        { q.1 with CurrImage := { q.1.CurrImage with LoadParams_PVR :=
            (pvrEdits b inp q.1.CurrImage.Info q.1.CurrImage.LoadParams_PVR).params } }) := by
  unfold pvrBranch
  cases DoMultiSurface inp.multi s with
  | none => rfl
  | some q =>
    simp only [Option.bind_eq_bind, Option.some_bind, Option.pure_def, Option.map_some',
      ite_self]

theorem ktxBranch_eq (m : ImageMethods) (b : LoadFlagBits) (inp : FormatInput) (s : PanelState) :
    ktxBranch m b inp s = (DoMultiSurface inp.multi s).map (fun q =>
      multiSurfaceTail m "No KTX/KTX2 Properties Available" inp s.CurrImage.NumFrames
        q.1.CurrImage.AltPictureEnabled true
        (ktxEdits b inp q.1.CurrImage.Info q.1.CurrImage.LoadParams_KTX).reloadChanges
        { q.1 with CurrImage := { q.1.CurrImage with LoadParams_KTX :=
            (ktxEdits b inp q.1.CurrImage.Info q.1.CurrImage.LoadParams_KTX).params } }) := by
  unfold ktxBranch
  cases DoMultiSurface inp.multi s with
  | none => rfl
  | some q =>
    simp only [Option.bind_eq_bind, Option.some_bind, Option.pure_def, Option.map_some',
      ite_self]

/-- The tail of a case when a control was drawn before it: no text is shown. -/
theorem multiSurfaceTail_texts (m : ImageMethods) (txt : String) (inp : FormatInput) (N : Int)
    (alt r : Bool) (s : PanelState) :
    (multiSurfaceTail m txt inp N alt true r s).state.texts = s.texts := by
  unfold multiSurfaceTail reloadWithAlt resetPressed
  simp only [ite_self, Bool.true_and, Bool.not_true, Bool.false_eq_true, if_false]
  split_ifs <;> rfl

theorem multiSurfaceTail_reload (m : ImageMethods) (txt : String) (inp : FormatInput) (N : Int)
    (alt r : Bool) (s : PanelState) :
    (multiSurfaceTail m txt inp N alt true r s).reloadChanges =
      (if inp.reset = true then true else r) := by
  unfold multiSurfaceTail
  simp only [ite_self, Bool.true_and]

/-- The tail of a case without a reload: at most the scrubber flag changes. -/
theorem multiSurfaceTail_noReload (m : ImageMethods) (txt : String) (inp : FormatInput)
    (N : Int) (alt r : Bool) (s : PanelState)
    (h : (multiSurfaceTail m txt inp N alt true r s).reloadChanges = false) :
    (multiSurfaceTail m txt inp N alt true r s).state =
      (if (decide (N ≥ 2) && !alt) && inp.scrubber
        then { s with ShowFrameScrubber := !s.ShowFrameScrubber } else s) ∧
      inp.reset = false ∧ r = false := by
  rw [multiSurfaceTail_reload] at h
  cases hreset : inp.reset with
  | true => rw [hreset] at h; exact absurd h (by simp)
  | false =>
    rw [hreset] at h
    simp only [Bool.false_eq_true, if_false] at h
    unfold multiSurfaceTail reloadWithAlt
    simp only [ite_self, Bool.true_and, hreset, h, Bool.false_eq_true, if_false,
      Bool.not_true, and_self, and_true]

/-- The calls of the tail of a case with a reload. -/
theorem multiSurfaceTail_calls (m : ImageMethods) (txt : String) (inp : FormatInput) (N : Int)
    (alt r : Bool) (s : PanelState)
    (h : (multiSurfaceTail m txt inp N alt true r s).reloadChanges = true) :
    (multiSurfaceTail m txt inp N alt true r s).state.calls =
      s.calls ++ (if inp.reset = true then [Call.ResetLoadParams] else []) ++
        (if alt = true then [Call.Unload, Call.Load, Call.EnableAltPicture true, Call.Bind]
          else [Call.Unload, Call.Load]) := by
  rw [multiSurfaceTail_reload] at h
  unfold multiSurfaceTail reloadWithAlt resetPressed
  simp only [ite_self, Bool.true_and, h, if_true, Bool.not_true, Bool.false_eq_true, if_false]
  cases inp.reset <;> cases alt <;> split_ifs <;>
    simp [PanelState.Unload, PanelState.Load, PanelState.EnableAltPicture, PanelState.Bind,
      PanelState.ResetLoadParams, PanelState.setFrameNum]

/-- The load parameters after the tail of a case in which Reset is not pressed. -/
theorem multiSurfaceTail_params (m : ImageMethods) (txt : String) (inp : FormatInput) (N : Int)
    (alt r : Bool) (s : PanelState) (hm : m.ReloadKeepsParams) (hreset : inp.reset = false) :
    (multiSurfaceTail m txt inp N alt true r s).state.CurrImage.LoadParams =
      s.CurrImage.LoadParams := by
  unfold multiSurfaceTail reloadWithAlt
  simp only [ite_self, Bool.true_and, hreset, Bool.false_eq_true, if_false, Bool.not_true]
  have k : ∀ t : PanelState, ((t.Unload m).Load m).CurrImage.LoadParams = t.CurrImage.LoadParams := by
    intro t
    simp only [PanelState.Unload, PanelState.Load]
    rw [(hm _).2, (hm _).1]
  split_ifs
  all_goals first
    | rfl
    | exact k _

theorem reloadPlain_calls (m : ImageMethods) (r : Bool) (s : PanelState) :
    (reloadPlain m r s).calls = s.calls ++ (if r = true then [Call.Unload, Call.Load] else []) := by
  unfold reloadPlain
  cases r <;> simp [PanelState.Unload, PanelState.Load]

theorem reloadPlain_params (m : ImageMethods) (r : Bool) (s : PanelState)
    (hm : m.ReloadKeepsParams) :
    (reloadPlain m r s).CurrImage.LoadParams = s.CurrImage.LoadParams := by
  unfold reloadPlain
  cases r
  · rfl
  · simp only [if_true, PanelState.Unload, PanelState.Load]
    rw [(hm _).2, (hm _).1]

theorem reloadPlain_texts (m : ImageMethods) (r : Bool) (s : PanelState) :
    (reloadPlain m r s).texts = s.texts := by
  unfold reloadPlain
  cases r <;> rfl

/-- The ASTC case without a reload changes nothing when the record is in range. -/
theorem astcBranch_noReload (m : ImageMethods) (b : LoadFlagBits) (inp : FormatInput)
    (s : PanelState) (h : (astcBranch m b inp s).reloadChanges = false)
    (g1 : 0.5 ≤ s.CurrImage.LoadParams_ASTC.Gamma) (g2 : s.CurrImage.LoadParams_ASTC.Gamma ≤ 4.0)
    (e1 : 0.0 ≤ s.CurrImage.LoadParams_ASTC.Exposure)
    (e2 : s.CurrImage.LoadParams_ASTC.Exposure ≤ 4.0) :
    (astcBranch m b inp s).state = s := by
  unfold astcBranch at h ⊢
  simp only [] at h ⊢
  cases hreset : inp.reset with
  | true => rw [hreset] at h; exact absurd h (by simp)
  | false =>
    rw [hreset] at h
    simp only [Bool.false_eq_true, if_false] at h ⊢
    rw [h, astcEdits_unchanged b inp _ h g1 g2 e1 e2]
    rfl

/-- The PKM case without a reload changes nothing when the record is in range. -/
theorem pkmBranch_noReload (m : ImageMethods) (b : LoadFlagBits) (inp : FormatInput)
    (s : PanelState) (h : (pkmBranch m b inp s).reloadChanges = false)
    (g1 : 0.5 ≤ s.CurrImage.LoadParams_PKM.Gamma) (g2 : s.CurrImage.LoadParams_PKM.Gamma ≤ 4.0) :
    (pkmBranch m b inp s).state = s := by
  unfold pkmBranch at h ⊢
  simp only [] at h ⊢
  cases hreset : inp.reset with
  | true => rw [hreset] at h; exact absurd h (by simp)
  | false =>
    rw [hreset] at h
    simp only [Bool.false_eq_true, if_false] at h ⊢
    rw [h, pkmEdits_unchanged b inp _ _ h g1 g2]
    rfl

/-- The HDR case without a reload only shows its title when the record is in range. -/
theorem hdrBranch_noReload (m : ImageMethods) (inp : FormatInput)
    (s : PanelState) (h : (hdrBranch m inp s).reloadChanges = false)
    (g1 : 0.6 ≤ s.CurrImage.LoadParams_HDR.Gamma) (g2 : s.CurrImage.LoadParams_HDR.Gamma ≤ 3.0)
    (e1 : -10 ≤ s.CurrImage.LoadParams_HDR.Exposure)
    (e2 : s.CurrImage.LoadParams_HDR.Exposure ≤ 10) :
    (hdrBranch m inp s).state = s.Text "Radiance HDR" := by
  unfold hdrBranch at h ⊢
  simp only [] at h ⊢
  cases hreset : inp.reset with
  | true => rw [hreset] at h; exact absurd h (by simp)
  | false =>
    rw [hreset] at h
    simp only [Bool.false_eq_true, if_false] at h ⊢
    have hp : (s.Text "Radiance HDR").CurrImage.LoadParams_HDR = s.CurrImage.LoadParams_HDR := rfl
    rw [hp] at h ⊢
    rw [h, hdrEdits_unchanged inp _ h g1 g2 e1 e2]
    rfl

/-- The EXR case without a reload only shows its title when the record is in range. -/
theorem exrBranch_noReload (m : ImageMethods) (inp : FormatInput)
    (s : PanelState) (h : (exrBranch m inp s).reloadChanges = false)
    (g1 : 0.6 ≤ s.CurrImage.LoadParams_EXR.Gamma) (g2 : s.CurrImage.LoadParams_EXR.Gamma ≤ 3.0)
    (e1 : -10.0 ≤ s.CurrImage.LoadParams_EXR.Exposure)
    (e2 : s.CurrImage.LoadParams_EXR.Exposure ≤ 10.0)
    (d1 : 0.0 ≤ s.CurrImage.LoadParams_EXR.Defog) (d2 : s.CurrImage.LoadParams_EXR.Defog ≤ 0.1)
    (l1 : -3.0 ≤ s.CurrImage.LoadParams_EXR.KneeLow)
    (l2 : s.CurrImage.LoadParams_EXR.KneeLow ≤ 3.0)
    (k1 : 3.5 ≤ s.CurrImage.LoadParams_EXR.KneeHigh)
    (k2 : s.CurrImage.LoadParams_EXR.KneeHigh ≤ 7.5) :
    (exrBranch m inp s).state = s.Text "OpenEXR" := by
  unfold exrBranch at h ⊢
  simp only [] at h ⊢
  cases hreset : inp.reset with
  | true => rw [hreset] at h; exact absurd h (by simp)
  | false =>
    rw [hreset] at h
    simp only [Bool.false_eq_true, if_false] at h ⊢
    have hp : (s.Text "OpenEXR").CurrImage.LoadParams_EXR = s.CurrImage.LoadParams_EXR := rfl
    rw [hp] at h ⊢
    rw [h, exrEdits_unchanged inp _ h g1 g2 e1 e2 d1 d2 l1 l2 k1 k2]
    rfl

/-- The TGA case without a reload at most shows its title. -/
theorem tgaBranch_noReload (m : ImageMethods) (f : Nat) (inp : FormatInput)
    (s : PanelState) (h : (tgaBranch m f inp s).reloadChanges = false) :
    (tgaBranch m f inp s).state =
      (if s.CurrImage.Info.IsRGBA8OrG3B5A1R5G2 = true then s.Text "Truevision TGA" else s) := by
  unfold tgaBranch at h ⊢
  cases hfmt : s.CurrImage.Info.IsRGBA8OrG3B5A1R5G2 with
  | false => simp only [Bool.false_eq_true, if_false]
  | true =>
    rw [hfmt] at h
    simp only [if_true] at h ⊢
    cases hreset : inp.reset with
    | true => rw [hreset] at h; exact absurd h (by simp)
    | false =>
      rw [hreset] at h
      simp only [Bool.false_eq_true, if_false] at h ⊢
      have hp : (s.Text "Truevision TGA").CurrImage.LoadParams_TGA = s.CurrImage.LoadParams_TGA :=
        rfl
      rw [hp] at h ⊢
      rw [h, tgaEdits_unchanged f inp _ h]
      rfl

theorem astcBranch_calls (m : ImageMethods) (b : LoadFlagBits) (inp : FormatInput)
    (s : PanelState) (h : (astcBranch m b inp s).reloadChanges = true) :
    (astcBranch m b inp s).state.calls =
      s.calls ++ (if inp.reset = true then [Call.ResetLoadParams] else []) ++
        [Call.Unload, Call.Load] := by
  unfold astcBranch at h ⊢
  simp only [] at h ⊢
  rw [reloadPlain_calls, h]
  cases inp.reset <;>
    simp [resetPressed, PanelState.ResetLoadParams, PanelState.setFrameNum]

theorem pkmBranch_calls (m : ImageMethods) (b : LoadFlagBits) (inp : FormatInput)
    (s : PanelState) (h : (pkmBranch m b inp s).reloadChanges = true) :
    (pkmBranch m b inp s).state.calls =
      s.calls ++ (if inp.reset = true then [Call.ResetLoadParams] else []) ++
        [Call.Unload, Call.Load] := by
  unfold pkmBranch at h ⊢
  simp only [] at h ⊢
  rw [reloadPlain_calls, h]
  cases inp.reset <;> simp [PanelState.ResetLoadParams]

theorem hdrBranch_calls (m : ImageMethods) (inp : FormatInput)
    (s : PanelState) (h : (hdrBranch m inp s).reloadChanges = true) :
    (hdrBranch m inp s).state.calls =
      s.calls ++ (if inp.reset = true then [Call.ResetLoadParams] else []) ++
        [Call.Unload, Call.Load] := by
  unfold hdrBranch at h ⊢
  simp only [] at h ⊢
  rw [reloadPlain_calls, h]
  cases inp.reset <;> simp [PanelState.ResetLoadParams, PanelState.Text]

theorem exrBranch_calls (m : ImageMethods) (inp : FormatInput)
    (s : PanelState) (h : (exrBranch m inp s).reloadChanges = true) :
    (exrBranch m inp s).state.calls =
      s.calls ++ (if inp.reset = true then [Call.ResetLoadParams] else []) ++
        [Call.Unload, Call.Load] := by
  unfold exrBranch at h ⊢
  simp only [] at h ⊢
  rw [reloadPlain_calls, h]
  cases inp.reset <;> simp [PanelState.ResetLoadParams, PanelState.Text]

theorem tgaBranch_calls (m : ImageMethods) (f : Nat) (inp : FormatInput)
    (s : PanelState) (h : (tgaBranch m f inp s).reloadChanges = true) :
    (tgaBranch m f inp s).state.calls =
      s.calls ++ (if inp.reset = true then [Call.ResetLoadParams] else []) ++
        [Call.Unload, Call.Load] := by
  unfold tgaBranch at h ⊢
  cases hfmt : s.CurrImage.Info.IsRGBA8OrG3B5A1R5G2 with
  | false => rw [hfmt] at h; exact absurd h (by simp)
  | true =>
    rw [hfmt] at h
    simp only [if_true] at h ⊢
    rw [reloadPlain_calls, h]
    cases inp.reset <;> simp [PanelState.ResetLoadParams, PanelState.Text]

/-- The load parameters of a state reached by `DoMultiSurface`. -/
theorem afterMulti_image (s : PanelState) (e : Bool) (n : Int) (g1 g2 g3 : Bool)
    (pre : List Call) :
    (s.afterMulti e n g1 g2 g3 pre).CurrImage.LoadParams = s.CurrImage.LoadParams ∧
    (s.afterMulti e n g1 g2 g3 pre).CurrImage.Info = s.CurrImage.Info ∧
    (s.afterMulti e n g1 g2 g3 pre).CurrImage.Filetype = s.CurrImage.Filetype ∧
    (s.afterMulti e n g1 g2 g3 pre).CurrImage.NumFrames = s.CurrImage.NumFrames ∧
    (s.afterMulti e n g1 g2 g3 pre).texts = s.texts ∧
    (s.afterMulti e n g1 g2 g3 pre).calls = s.calls ++ pre :=
  ⟨rfl, rfl, rfl, rfl, rfl, rfl⟩

/-- Toggling the scrubber flag leaves the image alone. -/
theorem scrubberToggle_image (c : Bool) (s : PanelState) :
    (if c = true then { s with ShowFrameScrubber := !s.ShowFrameScrubber } else s).CurrImage
      = s.CurrImage ∧
    (if c = true then { s with ShowFrameScrubber := !s.ShowFrameScrubber } else s).calls
      = s.calls := by
  cases c <;> exact ⟨rfl, rfl⟩

/-- What a completed case with `DoMultiSurface` leaves behind, in terms of the state `q`
after `DoMultiSurface`, the editors' result and the tail. -/
theorem ddsBranch_some (m : ImageMethods) (b : LoadFlagBits) (inp : FormatInput)
    (s : PanelState) (r : SectionResult) (h : ddsBranch m b inp s = some r) :
    ∃ q, DoMultiSurface inp.multi s = some q ∧
      r = multiSurfaceTail m "No DDS Properties Available" inp s.CurrImage.NumFrames
        q.1.CurrImage.AltPictureEnabled true
        (ddsEdits b inp s.CurrImage.Info s.CurrImage.LoadParams_DDS).reloadChanges
        { q.1 with CurrImage := { q.1.CurrImage with LoadParams_DDS :=
            (ddsEdits b inp s.CurrImage.Info s.CurrImage.LoadParams_DDS).params } } := by
  rw [ddsBranch_eq] at h
  cases hq : DoMultiSurface inp.multi s with
  | none => rw [hq] at h; exact absurd h (by simp)
  | some q =>
    rw [hq] at h
    simp only [Option.map_some', Option.some.injEq] at h
    obtain ⟨e, n, g1, g2, g3, pre, hf, _⟩ := DoMultiSurface_form inp.multi s q hq
    have hi : q.1.CurrImage.Info = s.CurrImage.Info := by rw [hf]; rfl
    have hp : q.1.CurrImage.LoadParams_DDS = s.CurrImage.LoadParams_DDS := by rw [hf]; rfl
    have he : ddsEdits b inp q.1.CurrImage.Info q.1.CurrImage.LoadParams_DDS =
        ddsEdits b inp s.CurrImage.Info s.CurrImage.LoadParams_DDS := by rw [hi, hp]
    rw [he] at h
    exact ⟨q, rfl, h.symm⟩

theorem pvrBranch_some (m : ImageMethods) (b : LoadFlagBits) (inp : FormatInput)
    (s : PanelState) (r : SectionResult) (h : pvrBranch m b inp s = some r) :
    ∃ q, DoMultiSurface inp.multi s = some q ∧
      r = multiSurfaceTail m "No PVR Properties Available" inp s.CurrImage.NumFrames
        q.1.CurrImage.AltPictureEnabled true
        (pvrEdits b inp s.CurrImage.Info s.CurrImage.LoadParams_PVR).reloadChanges
        { q.1 with CurrImage := { q.1.CurrImage with LoadParams_PVR :=
            (pvrEdits b inp s.CurrImage.Info s.CurrImage.LoadParams_PVR).params } } := by
  rw [pvrBranch_eq] at h
  cases hq : DoMultiSurface inp.multi s with
  | none => rw [hq] at h; exact absurd h (by simp)
  | some q =>
    rw [hq] at h
    simp only [Option.map_some', Option.some.injEq] at h
    obtain ⟨e, n, g1, g2, g3, pre, hf, _⟩ := DoMultiSurface_form inp.multi s q hq
    have hi : q.1.CurrImage.Info = s.CurrImage.Info := by rw [hf]; rfl
    have hp : q.1.CurrImage.LoadParams_PVR = s.CurrImage.LoadParams_PVR := by rw [hf]; rfl
    have he : pvrEdits b inp q.1.CurrImage.Info q.1.CurrImage.LoadParams_PVR =
        pvrEdits b inp s.CurrImage.Info s.CurrImage.LoadParams_PVR := by rw [hi, hp]
    rw [he] at h
    exact ⟨q, rfl, h.symm⟩

theorem ktxBranch_some (m : ImageMethods) (b : LoadFlagBits) (inp : FormatInput)
    (s : PanelState) (r : SectionResult) (h : ktxBranch m b inp s = some r) :
    ∃ q, DoMultiSurface inp.multi s = some q ∧
      r = multiSurfaceTail m "No KTX/KTX2 Properties Available" inp s.CurrImage.NumFrames
        q.1.CurrImage.AltPictureEnabled true
        (ktxEdits b inp s.CurrImage.Info s.CurrImage.LoadParams_KTX).reloadChanges
        { q.1 with CurrImage := { q.1.CurrImage with LoadParams_KTX :=
            (ktxEdits b inp s.CurrImage.Info s.CurrImage.LoadParams_KTX).params } } := by
  rw [ktxBranch_eq] at h
  cases hq : DoMultiSurface inp.multi s with
  | none => rw [hq] at h; exact absurd h (by simp)
  | some q =>
    rw [hq] at h
    simp only [Option.map_some', Option.some.injEq] at h
    obtain ⟨e, n, g1, g2, g3, pre, hf, _⟩ := DoMultiSurface_form inp.multi s q hq
    have hi : q.1.CurrImage.Info = s.CurrImage.Info := by rw [hf]; rfl
    have hp : q.1.CurrImage.LoadParams_KTX = s.CurrImage.LoadParams_KTX := by rw [hf]; rfl
    have he : ktxEdits b inp q.1.CurrImage.Info q.1.CurrImage.LoadParams_KTX =
        ktxEdits b inp s.CurrImage.Info s.CurrImage.LoadParams_KTX := by rw [hi, hp]
    rw [he] at h
    exact ⟨q, rfl, h.symm⟩

/-- A case with `DoMultiSurface` that ends without a reload, on a record in range: the state
is the one after `DoMultiSurface`, up to the scrubber flag. -/
theorem ddsBranch_noReload (m : ImageMethods) (b : LoadFlagBits) (inp : FormatInput)
    (s : PanelState) (r : SectionResult) (h : ddsBranch m b inp s = some r)
    (hr : r.reloadChanges = false)
    (g1 : 0.5 ≤ s.CurrImage.LoadParams_DDS.Gamma) (g2 : s.CurrImage.LoadParams_DDS.Gamma ≤ 4.0)
    (e1 : 0.0 ≤ s.CurrImage.LoadParams_DDS.Exposure)
    (e2 : s.CurrImage.LoadParams_DDS.Exposure ≤ 4.0) :
    ∃ q, DoMultiSurface inp.multi s = some q ∧
      r.state = (if (decide (s.CurrImage.NumFrames ≥ 2) && !q.1.CurrImage.AltPictureEnabled) &&
          inp.scrubber
        then { q.1 with ShowFrameScrubber := !q.1.ShowFrameScrubber } else q.1) := by
  obtain ⟨q, hq, hr2⟩ := ddsBranch_some m b inp s r h
  rw [hr2] at hr
  obtain ⟨hs, _, he⟩ := multiSurfaceTail_noReload _ _ _ _ _ _ _ hr
  obtain ⟨e, n, g1', g2', g3', pre, hf, _⟩ := DoMultiSurface_form inp.multi s q hq
  have hp : q.1.CurrImage.LoadParams_DDS = s.CurrImage.LoadParams_DDS := by rw [hf]; rfl
  refine ⟨q, hq, ?_⟩
  rw [hr2, hs, ddsEdits_unchanged b inp _ _ he g1 g2 e1 e2, ← hp]

theorem pvrBranch_noReload (m : ImageMethods) (b : LoadFlagBits) (inp : FormatInput)
    (s : PanelState) (r : SectionResult) (h : pvrBranch m b inp s = some r)
    (hr : r.reloadChanges = false)
    (g1 : 0.5 ≤ s.CurrImage.LoadParams_PVR.Gamma) (g2 : s.CurrImage.LoadParams_PVR.Gamma ≤ 4.0)
    (e1 : 0.0 ≤ s.CurrImage.LoadParams_PVR.Exposure)
    (e2 : s.CurrImage.LoadParams_PVR.Exposure ≤ 4.0)
    (m1 : 0.01 ≤ s.CurrImage.LoadParams_PVR.MaxRange)
    (m2 : s.CurrImage.LoadParams_PVR.MaxRange ≤ 128.0) :
    ∃ q, DoMultiSurface inp.multi s = some q ∧
      r.state = (if (decide (s.CurrImage.NumFrames ≥ 2) && !q.1.CurrImage.AltPictureEnabled) &&
          inp.scrubber
        then { q.1 with ShowFrameScrubber := !q.1.ShowFrameScrubber } else q.1) := by
  obtain ⟨q, hq, hr2⟩ := pvrBranch_some m b inp s r h
  rw [hr2] at hr
  obtain ⟨hs, _, he⟩ := multiSurfaceTail_noReload _ _ _ _ _ _ _ hr
  obtain ⟨e, n, g1', g2', g3', pre, hf, _⟩ := DoMultiSurface_form inp.multi s q hq
  have hp : q.1.CurrImage.LoadParams_PVR = s.CurrImage.LoadParams_PVR := by rw [hf]; rfl
  refine ⟨q, hq, ?_⟩
  rw [hr2, hs, pvrEdits_unchanged b inp _ _ he g1 g2 e1 e2 m1 m2, ← hp]

theorem ktxBranch_noReload (m : ImageMethods) (b : LoadFlagBits) (inp : FormatInput)
    (s : PanelState) (r : SectionResult) (h : ktxBranch m b inp s = some r)
    (hr : r.reloadChanges = false)
    (g1 : 0.5 ≤ s.CurrImage.LoadParams_KTX.Gamma) (g2 : s.CurrImage.LoadParams_KTX.Gamma ≤ 4.0)
    (e1 : 0.0 ≤ s.CurrImage.LoadParams_KTX.Exposure)
    (e2 : s.CurrImage.LoadParams_KTX.Exposure ≤ 4.0) :
    ∃ q, DoMultiSurface inp.multi s = some q ∧
      r.state = (if (decide (s.CurrImage.NumFrames ≥ 2) && !q.1.CurrImage.AltPictureEnabled) &&
          inp.scrubber
        then { q.1 with ShowFrameScrubber := !q.1.ShowFrameScrubber } else q.1) := by
  obtain ⟨q, hq, hr2⟩ := ktxBranch_some m b inp s r h
  rw [hr2] at hr
  obtain ⟨hs, _, he⟩ := multiSurfaceTail_noReload _ _ _ _ _ _ _ hr
  obtain ⟨e, n, g1', g2', g3', pre, hf, _⟩ := DoMultiSurface_form inp.multi s q hq
  have hp : q.1.CurrImage.LoadParams_KTX = s.CurrImage.LoadParams_KTX := by rw [hf]; rfl
  refine ⟨q, hq, ?_⟩
  rw [hr2, hs, ktxEdits_unchanged b inp _ _ he g1 g2 e1 e2, ← hp]

/-- The load parameters after `DoMultiSurface` and a scrubber toggle are those before. -/
theorem multiThenScrubber_params (inp : MultiSurfaceInput) (s : PanelState)
    (q : PanelState × Bool) (hq : DoMultiSurface inp s = some q) (c : Bool) :
    (if c = true then { q.1 with ShowFrameScrubber := !q.1.ShowFrameScrubber }
      else q.1).CurrImage.LoadParams = s.CurrImage.LoadParams := by
  obtain ⟨e, n, g1, g2, g3, pre, hf, _⟩ := DoMultiSurface_form inp s q hq
  rw [(scrubberToggle_image c q.1).1, hf]
  rfl

/-- The calls of a case with `DoMultiSurface` that ends with a reload: those of
`DoMultiSurface`, the reset if pressed, and the reload sequence. -/
theorem multiSurfaceCase_calls (m : ImageMethods) (txt : String) (inp : FormatInput)
    (s : PanelState) (q : PanelState × Bool) (hq : DoMultiSurface inp.multi s = some q)
    (r : Bool) (img : Image)
    (h : (multiSurfaceTail m txt inp s.CurrImage.NumFrames q.1.CurrImage.AltPictureEnabled true r
      { q.1 with CurrImage := img }).reloadChanges = true) :
    ∃ pre, (∀ c ∈ pre, c.IsAltCall) ∧
      (multiSurfaceTail m txt inp s.CurrImage.NumFrames q.1.CurrImage.AltPictureEnabled true r
        { q.1 with CurrImage := img }).state.calls =
      s.calls ++ pre ++ (if inp.reset = true then [Call.ResetLoadParams] else []) ++
        (if q.1.CurrImage.AltPictureEnabled = true
          then [Call.Unload, Call.Load, Call.EnableAltPicture true, Call.Bind]
          else [Call.Unload, Call.Load]) := by
  obtain ⟨e, n, g1, g2, g3, pre, hf, hpre⟩ := DoMultiSurface_form inp.multi s q hq
  refine ⟨pre, hpre, ?_⟩
  rw [multiSurfaceTail_calls _ _ _ _ _ _ _ h]
  have hc : ({ q.1 with CurrImage := img } : PanelState).calls = s.calls ++ pre := by
    show q.1.calls = s.calls ++ pre
    rw [hf]; rfl
  rw [hc]

/-! ## Lemmas on the file-type section as a whole -/

/-- A completed file-type section that did not mark a reload, on records in range, leaves
every load-parameter record as it was. -/
theorem fileTypeSection_noReload_params (m : ImageMethods) (t : LoadFlagTable)
    (inp : FormatInput) (s : PanelState) (r : SectionResult)
    (hrange : LoadParamsInRange s.CurrImage)
    (h : fileTypeSection m t inp s = some r) (hr : r.reloadChanges = false) :
    r.state.CurrImage.LoadParams = s.CurrImage.LoadParams := by
  unfold fileTypeSection at h
  unfold LoadParamsInRange at hrange
  cases hft : s.CurrImage.Filetype <;> simp only [hft] at h hrange
  · obtain ⟨g1, g2, e1, e2⟩ := hrange
    obtain ⟨q, hq, hs⟩ := ddsBranch_noReload m _ inp s r h hr g1 g2 e1 e2
    rw [hs]
    exact multiThenScrubber_params inp.multi s q hq _
  · obtain ⟨g1, g2, e1, e2, m1, m2⟩ := hrange
    obtain ⟨q, hq, hs⟩ := pvrBranch_noReload m _ inp s r h hr g1 g2 e1 e2 m1 m2
    rw [hs]
    exact multiThenScrubber_params inp.multi s q hq _
  · obtain ⟨g1, g2, e1, e2⟩ := hrange
    obtain ⟨q, hq, hs⟩ := ktxBranch_noReload m _ inp s r h hr g1 g2 e1 e2
    rw [hs]
    exact multiThenScrubber_params inp.multi s q hq _
  · obtain ⟨g1, g2, e1, e2⟩ := hrange
    obtain ⟨q, hq, hs⟩ := ktxBranch_noReload m _ inp s r h hr g1 g2 e1 e2
    rw [hs]
    exact multiThenScrubber_params inp.multi s q hq _
  · obtain ⟨g1, g2, e1, e2⟩ := hrange
    simp only [Option.some.injEq] at h
    subst h
    rw [astcBranch_noReload m _ inp s hr g1 g2 e1 e2]
  · obtain ⟨g1, g2⟩ := hrange
    simp only [Option.some.injEq] at h
    subst h
    rw [pkmBranch_noReload m _ inp s hr g1 g2]
  · obtain ⟨g1, g2, e1, e2⟩ := hrange
    simp only [Option.some.injEq] at h
    subst h
    rw [hdrBranch_noReload m inp s hr g1 g2 e1 e2]
    rfl
  · obtain ⟨g1, g2, e1, e2, d1, d2, l1, l2, k1, k2⟩ := hrange
    simp only [Option.some.injEq] at h
    subst h
    rw [exrBranch_noReload m inp s hr g1 g2 e1 e2 d1 d2 l1 l2 k1 k2]
    rfl
  · simp only [Option.some.injEq] at h
    subst h
    rw [tgaBranch_noReload m _ inp s hr]
    split_ifs <;> rfl
  · simp only [Option.some.injEq] at h
    subst h
    unfold webpBranch
    split_ifs <;> rfl
  · simp only [Option.some.injEq] at h
    subst h
    rfl

/-- The calls of a completed file-type section that marked a reload: calls of
`DoMultiSurface` and the reset, then `Unload`, `Load`, then nothing or the re-enabling of the
alternate picture. -/
theorem fileTypeSection_reload_calls (m : ImageMethods) (t : LoadFlagTable)
    (inp : FormatInput) (s : PanelState) (r : SectionResult)
    (h : fileTypeSection m t inp s = some r) (hr : r.reloadChanges = true) :
    ∃ pre post, (∀ c ∈ pre, c.IsAltCall ∨ c = Call.ResetLoadParams) ∧
      (post = [] ∨ post = [Call.EnableAltPicture true, Call.Bind]) ∧
      r.state.calls = s.calls ++ pre ++ [Call.Unload, Call.Load] ++ post := by
  have multi : ∀ (txt : String) (q : PanelState × Bool) (rc : Bool) (img : Image),
      DoMultiSurface inp.multi s = some q →
      r = multiSurfaceTail m txt inp s.CurrImage.NumFrames q.1.CurrImage.AltPictureEnabled true
        rc { q.1 with CurrImage := img } →
      ∃ pre post, (∀ c ∈ pre, c.IsAltCall ∨ c = Call.ResetLoadParams) ∧
        (post = [] ∨ post = [Call.EnableAltPicture true, Call.Bind]) ∧
        r.state.calls = s.calls ++ pre ++ [Call.Unload, Call.Load] ++ post := by
    intro txt q rc img hq hs
    rw [hs] at hr
    obtain ⟨pre, hpre, hc⟩ := multiSurfaceCase_calls m txt inp s q hq rc img hr
    rw [hs, hc]
    refine ⟨pre ++ (if inp.reset = true then [Call.ResetLoadParams] else []),
      if q.1.CurrImage.AltPictureEnabled = true then [Call.EnableAltPicture true, Call.Bind]
        else [], ?_, ?_, ?_⟩
    · intro c hc2
      rcases List.mem_append.1 hc2 with h1 | h1
      · exact Or.inl (hpre c h1)
      · split_ifs at h1
        · exact Or.inr (List.mem_singleton.1 h1)
        · exact absurd h1 (List.not_mem_nil c)
    · split_ifs
      · exact Or.inr rfl
      · exact Or.inl rfl
    · split_ifs <;> simp
  have plain : r.state.calls =
      s.calls ++ (if inp.reset = true then [Call.ResetLoadParams] else []) ++
        [Call.Unload, Call.Load] →
      ∃ pre post, (∀ c ∈ pre, c.IsAltCall ∨ c = Call.ResetLoadParams) ∧
        (post = [] ∨ post = [Call.EnableAltPicture true, Call.Bind]) ∧
        r.state.calls = s.calls ++ pre ++ [Call.Unload, Call.Load] ++ post := by
    intro hc
    refine ⟨if inp.reset = true then [Call.ResetLoadParams] else [], [], ?_, Or.inl rfl, ?_⟩
    · intro c h1
      split_ifs at h1
      · exact Or.inr (List.mem_singleton.1 h1)
      · exact absurd h1 (List.not_mem_nil c)
    · rw [hc]; simp
  unfold fileTypeSection at h
  cases hft : s.CurrImage.Filetype <;> simp only [hft] at h
  · obtain ⟨q, hq, hs⟩ := ddsBranch_some m _ inp s r h
    exact multi _ q _ _ hq hs
  · obtain ⟨q, hq, hs⟩ := pvrBranch_some m _ inp s r h
    exact multi _ q _ _ hq hs
  · obtain ⟨q, hq, hs⟩ := ktxBranch_some m _ inp s r h
    exact multi _ q _ _ hq hs
  · obtain ⟨q, hq, hs⟩ := ktxBranch_some m _ inp s r h
    exact multi _ q _ _ hq hs
  · simp only [Option.some.injEq] at h
    subst h
    exact plain (astcBranch_calls m _ inp s hr)
  · simp only [Option.some.injEq] at h
    subst h
    exact plain (pkmBranch_calls m _ inp s hr)
  · simp only [Option.some.injEq] at h
    subst h
    exact plain (hdrBranch_calls m inp s hr)
  · simp only [Option.some.injEq] at h
    subst h
    exact plain (exrBranch_calls m inp s hr)
  · simp only [Option.some.injEq] at h
    subst h
    exact plain (tgaBranch_calls m _ inp s hr)
  · simp only [Option.some.injEq] at h
    subst h
    unfold webpBranch at hr
    split_ifs at hr
  · simp only [Option.some.injEq] at h
    subst h
    exact absurd hr (by simp)

/-! ## Theorems on the reload contract -/

/-- C12 (counterexample). A Radiance HDR image whose stored exposure is 25, outside the
declared range, and a pass without any user input: the clamp of line 777 stores 10, so a
field of the load-parameter record differs after the pass, yet the pass neither marks the
reload nor calls `Unload` or `Load`.  The same holds for the switch alone and for the whole
pass of `ShowPropertiesWindow`. -/
theorem C12_clamp_without_reload_counterexample :
    (exampleHDR 25 false).CurrImage.LoadParams_HDR.Exposure = 25 ∧
    (fileTypeSection exampleMethods exampleFlagTable FormatInput.none
        (exampleHDR 25 false)).map
      (fun r => (r.state.CurrImage.LoadParams_HDR.Exposure, r.reloadChanges, r.state.calls)) =
      some (10, false, []) ∧
    (ShowPropertiesWindow exampleMethods exampleFlagTable PropertiesInput.none true
        (exampleHDR 25 false)).map
      (fun r => (r.state.CurrImage.LoadParams_HDR.Exposure, r.reloadChanges, r.state.calls)) =
      some (10, false, []) := by
  decide

/-! ## Theorem on a pass that only toggles the scrubber -/

/-- The tail of a case in which at most the "Scrubber" checkbox is clicked and the editors
marked no reload. -/
theorem multiSurfaceTail_scrubberOnly (m : ImageMethods) (txt : String) (N : Int) (alt : Bool)
    (s : PanelState) :
    multiSurfaceTail m txt FormatInput.scrubberOnly N alt true false s =
      { state := if (decide (N ≥ 2) && !alt) = true
          then { s with ShowFrameScrubber := !s.ShowFrameScrubber } else s,
        reloadChanges := false, returned := true, fileTypeSectionDisplayed := false } := by
  unfold multiSurfaceTail reloadWithAlt
  simp only [FormatInput.scrubberOnly, FormatInput.none, ite_self, Bool.true_and, Bool.and_true, Bool.and_false,
    Bool.false_eq_true, if_false, Bool.not_true]

theorem ddsEdits_scrubberOnly (b : LoadFlagBits) (info : ImgInfo) (p : LoadParamsDDS) :
    (ddsEdits b FormatInput.scrubberOnly info p).reloadChanges = false := by
  unfold ddsEdits
  simp only [FormatInput.scrubberOnly, FormatInput.none, CheckboxFlags, gammaCorrCombo,
    gammaField, floatField, exposureBlock, Bool.false_eq_true, if_false, ite_self]
  split_ifs <;> rfl

theorem pvrEdits_scrubberOnly (b : LoadFlagBits) (info : ImgInfo) (p : LoadParamsPVR) :
    (pvrEdits b FormatInput.scrubberOnly info p).reloadChanges = false := by
  unfold pvrEdits
  simp only [FormatInput.scrubberOnly, FormatInput.none, CheckboxFlags, gammaCorrCombo,
    gammaField, floatField, exposureBlock, Bool.false_eq_true, if_false, ite_self]
  split_ifs <;> rfl

theorem ktxEdits_scrubberOnly (b : LoadFlagBits) (info : ImgInfo) (p : LoadParamsKTX) :
    (ktxEdits b FormatInput.scrubberOnly info p).reloadChanges = false := by
  unfold ktxEdits
  simp only [FormatInput.scrubberOnly, FormatInput.none, CheckboxFlags, gammaCorrCombo,
    gammaField, floatField, exposureBlock, Bool.false_eq_true, if_false, ite_self]
  split_ifs <;> rfl

/-- The file-type section of a DDS, PVR, KTX or KTX2 image in range, when at most the
"Scrubber" checkbox is clicked. -/
theorem fileTypeSection_scrubberOnly (m : ImageMethods) (t : LoadFlagTable) (s : PanelState)
    (hft : s.CurrImage.Filetype = tFileType.DDS ∨ s.CurrImage.Filetype = tFileType.PVR ∨
      s.CurrImage.Filetype = tFileType.KTX ∨ s.CurrImage.Filetype = tFileType.KTX2)
    (hrange : LoadParamsInRange s.CurrImage)
    (h6 : s.CurrImage.AltCubemapPictureAvail = true → 6 ≤ s.CurrImage.NumFrames)
    (hi : s.CurrImage.NumFrames ≤ INT_MAX) :
    fileTypeSection m t FormatInput.scrubberOnly s =
      some { state := if (decide (s.CurrImage.NumFrames ≥ 2) &&
                 !s.CurrImage.AltPictureEnabled) = true
               then { s with ShowFrameScrubber := !s.ShowFrameScrubber } else s,
             reloadChanges := false, returned := true, fileTypeSectionDisplayed := false } := by
  have hsome := DoMultiSurface_isSome MultiSurfaceInput.none s h6 hi
  cases hq : DoMultiSurface MultiSurfaceInput.none s with
  | none => rw [hq] at hsome; exact absurd hsome (by decide)
  | some q =>
    have hqs : q.1 = s := DoMultiSurface_none s q hq
    have hm : FormatInput.scrubberOnly.multi =
        MultiSurfaceInput.none := rfl
    unfold fileTypeSection
    unfold LoadParamsInRange at hrange
    rcases hft with hf | hf | hf | hf <;> simp only [hf] at hrange ⊢
    · obtain ⟨g1, g2, e1, e2⟩ := hrange
      rw [ddsBranch_eq, hm, hq, Option.map_some', hqs,
        ddsEdits_unchanged _ _ _ _ (ddsEdits_scrubberOnly _ _ _) g1 g2 e1 e2,
        ddsEdits_scrubberOnly, multiSurfaceTail_scrubberOnly]
    · obtain ⟨g1, g2, e1, e2, m1, m2⟩ := hrange
      rw [pvrBranch_eq, hm, hq, Option.map_some', hqs,
        pvrEdits_unchanged _ _ _ _ (pvrEdits_scrubberOnly _ _ _) g1 g2 e1 e2 m1 m2,
        pvrEdits_scrubberOnly, multiSurfaceTail_scrubberOnly]
    · obtain ⟨g1, g2, e1, e2⟩ := hrange
      rw [ktxBranch_eq, hm, hq, Option.map_some', hqs,
        ktxEdits_unchanged _ _ _ _ (ktxEdits_scrubberOnly _ _ _) g1 g2 e1 e2,
        ktxEdits_scrubberOnly, multiSurfaceTail_scrubberOnly]
    · obtain ⟨g1, g2, e1, e2⟩ := hrange
      rw [ktxBranch_eq, hm, hq, Option.map_some', hqs,
        ktxEdits_unchanged _ _ _ _ (ktxEdits_scrubberOnly _ _ _) g1 g2 e1 e2,
        ktxEdits_scrubberOnly, multiSurfaceTail_scrubberOnly]

/-- C13. For a loaded DDS, PVR, KTX or KTX2 image whose clamped numeric fields are in range,
a pass of `ShowPropertiesWindow` in which no widget of the file-type section but the
"Scrubber" checkbox is operated completes (given at least 6 frames when a cubemap picture is
available), does not mark the reload, makes no call at all (so neither `Unload` nor `Load`),
and leaves the image (load-parameter records and `FrameNum` included) and every other
component of the state as it was, except that `ShowFrameScrubber` is negated when the
checkbox is displayed (two frames or more, alternate picture not enabled). -/
theorem C13_scrubber_only (m : ImageMethods) (t : LoadFlagTable) (frames : FramesInput)
    (s : PanelState) (hloaded : s.CurrImage.IsLoaded = true)
    (hft : s.CurrImage.Filetype = tFileType.DDS ∨ s.CurrImage.Filetype = tFileType.PVR ∨
      s.CurrImage.Filetype = tFileType.KTX ∨ s.CurrImage.Filetype = tFileType.KTX2)
    (hrange : LoadParamsInRange s.CurrImage)
    (h6 : s.CurrImage.AltCubemapPictureAvail = true → 6 ≤ s.CurrImage.NumFrames)
    (hi : s.CurrImage.NumFrames ≤ INT_MAX) :
    ∃ r, ShowPropertiesWindow m t
        { beginReturned := true, format := FormatInput.scrubberOnly,
          frames := frames } true s = some r ∧
      r.reloadChanges = false ∧
      r.state = (if (decide (s.CurrImage.NumFrames ≥ 2) && !s.CurrImage.AltPictureEnabled) = true
        then { s with ShowFrameScrubber := !s.ShowFrameScrubber } else s) ∧
      r.state.calls = s.calls ∧
      r.state.CurrImage.LoadParams = s.CurrImage.LoadParams ∧
      r.state.CurrImage.FrameNum = s.CurrImage.FrameNum := by
  unfold ShowPropertiesWindow
  simp only [Bool.not_true, Bool.false_eq_true, if_false, hloaded]
  rw [fileTypeSection_scrubberOnly m t s hft hrange h6 hi]
  simp only [Option.map_some', if_true]
  refine ⟨_, rfl, rfl, rfl, ?_, ?_, ?_⟩ <;> split_ifs <;> rfl

/-- Witness of C13: a DDS cubemap with 12 frames at frame 5; the scrubber flag goes from off
to on. -/
theorem C13_scrubber_only_witness :
    ∃ r, ShowPropertiesWindow exampleMethods exampleFlagTable
        { beginReturned := true, format := FormatInput.scrubberOnly,
          frames := FramesInput.none } true (exampleCubemap 12 5) = some r ∧
      r.reloadChanges = false ∧
      r.state = (if (decide ((exampleCubemap 12 5).CurrImage.NumFrames ≥ 2) &&
          !(exampleCubemap 12 5).CurrImage.AltPictureEnabled) = true
        then { exampleCubemap 12 5 with
               ShowFrameScrubber := !(exampleCubemap 12 5).ShowFrameScrubber }
        else exampleCubemap 12 5) ∧
      r.state.calls = (exampleCubemap 12 5).calls ∧
      r.state.CurrImage.LoadParams = (exampleCubemap 12 5).CurrImage.LoadParams ∧
      r.state.CurrImage.FrameNum = (exampleCubemap 12 5).CurrImage.FrameNum :=
  C13_scrubber_only exampleMethods exampleFlagTable FramesInput.none (exampleCubemap 12 5)
    rfl (Or.inl rfl)
    (by
      simp [LoadParamsInRange, exampleCubemap]
      norm_num)
    (fun _ => by decide) (by decide)

/-! ## Lemmas on the reload sequence -/

/-- A completed DDS, PVR, KTX or KTX2 case is the tail of the case run on the state after
`DoMultiSurface` with some load-parameter record written. -/
theorem multiSurfaceFormat_some (m : ImageMethods) (t : LoadFlagTable)
    (inp : FormatInput) (s : PanelState) (r : SectionResult)
    (hft : s.CurrImage.Filetype = tFileType.DDS ∨ s.CurrImage.Filetype = tFileType.PVR ∨
      s.CurrImage.Filetype = tFileType.KTX ∨ s.CurrImage.Filetype = tFileType.KTX2)
    (h : fileTypeSection m t inp s = some r) :
    ∃ (q : PanelState × Bool) (txt : String) (rc : Bool) (img : Image),
      DoMultiSurface inp.multi s = some q ∧
      r = multiSurfaceTail m txt inp s.CurrImage.NumFrames q.1.CurrImage.AltPictureEnabled true
        rc { q.1 with CurrImage := img } := by
  unfold fileTypeSection at h
  rcases hft with hf | hf | hf | hf <;> simp only [hf] at h
  · obtain ⟨q, hq, hs⟩ := ddsBranch_some m _ inp s r h
    exact ⟨q, _, _, _, hq, hs⟩
  · obtain ⟨q, hq, hs⟩ := pvrBranch_some m _ inp s r h
    exact ⟨q, _, _, _, hq, hs⟩
  · obtain ⟨q, hq, hs⟩ := ktxBranch_some m _ inp s r h
    exact ⟨q, _, _, _, hq, hs⟩
  · obtain ⟨q, hq, hs⟩ := ktxBranch_some m _ inp s r h
    exact ⟨q, _, _, _, hq, hs⟩

/-- The calls of a case of another format that ends with a reload. -/
theorem plainFormat_reload_calls (m : ImageMethods) (t : LoadFlagTable)
    (inp : FormatInput) (s : PanelState) (r : SectionResult)
    (hft : ¬ (s.CurrImage.Filetype = tFileType.DDS ∨ s.CurrImage.Filetype = tFileType.PVR ∨
      s.CurrImage.Filetype = tFileType.KTX ∨ s.CurrImage.Filetype = tFileType.KTX2))
    (h : fileTypeSection m t inp s = some r) (hr : r.reloadChanges = true) :
    r.state.calls =
      s.calls ++ (if inp.reset = true then [Call.ResetLoadParams] else []) ++
        [Call.Unload, Call.Load] := by
  unfold fileTypeSection at h
  cases hf : s.CurrImage.Filetype <;> simp only [hf] at h
  · exact absurd (Or.inl hf) hft
  · exact absurd (Or.inr (Or.inl hf)) hft
  · exact absurd (Or.inr (Or.inr (Or.inl hf))) hft
  · exact absurd (Or.inr (Or.inr (Or.inr hf))) hft
  · simp only [Option.some.injEq] at h
    subst h
    exact astcBranch_calls m _ inp s hr
  · simp only [Option.some.injEq] at h
    subst h
    exact pkmBranch_calls m _ inp s hr
  · simp only [Option.some.injEq] at h
    subst h
    exact hdrBranch_calls m inp s hr
  · simp only [Option.some.injEq] at h
    subst h
    exact exrBranch_calls m inp s hr
  · simp only [Option.some.injEq] at h
    subst h
    exact tgaBranch_calls m _ inp s hr
  · simp only [Option.some.injEq] at h
    subst h
    unfold webpBranch at hr
    split_ifs at hr
  · simp only [Option.some.injEq] at h
    subst h
    exact absurd hr (by simp)

/-! ## Lemmas on the ranges of the stored load parameters -/

/-- The file-type section completes when a cubemap picture comes with at least 6 frames. -/
theorem fileTypeSection_isSome (m : ImageMethods) (t : LoadFlagTable) (inp : FormatInput)
    (s : PanelState)
    (h6 : s.CurrImage.AltCubemapPictureAvail = true → 6 ≤ s.CurrImage.NumFrames)
    (hi : s.CurrImage.NumFrames ≤ INT_MAX) : (fileTypeSection m t inp s).isSome = true := by
  have hsome := DoMultiSurface_isSome inp.multi s h6 hi
  unfold fileTypeSection
  cases hq : DoMultiSurface inp.multi s with
  | none => rw [hq] at hsome; exact absurd hsome (by decide)
  | some q =>
    cases hf : s.CurrImage.Filetype <;> simp only [hf]
    · rw [ddsBranch_eq, hq]; rfl
    · rw [pvrBranch_eq, hq]; rfl
    · rw [ktxBranch_eq, hq]; rfl
    · rw [ktxBranch_eq, hq]; rfl
    all_goals rfl

/-- The record of the HDR case after the case, when Reset is not pressed. -/
theorem hdrBranch_params (m : ImageMethods) (inp : FormatInput) (s : PanelState)
    (hm : m.ReloadKeepsParams) (hreset : inp.reset = false) :
    (hdrBranch m inp s).state.CurrImage.LoadParams_HDR =
      (hdrEdits inp s.CurrImage.LoadParams_HDR).params := by
  unfold hdrBranch
  simp only [hreset, Bool.false_eq_true, if_false]
  exact congrArg (fun p => p.2.2.2.2.2.1) (reloadPlain_params m _ _ hm)

theorem ddsEdits_range (b : LoadFlagBits) (inp : FormatInput) (info : ImgInfo)
    (p : LoadParamsDDS) :
    ((ddsEdits b inp info p).gammaMode = 1 →
      0.5 ≤ (ddsEdits b inp info p).params.Gamma ∧ (ddsEdits b inp info p).params.Gamma ≤ 4.0) ∧
    (showExposure info = true →
      0.0 ≤ (ddsEdits b inp info p).params.Exposure ∧
        (ddsEdits b inp info p).params.Exposure ≤ 4.0) := by
  unfold ddsEdits
  simp only []
  refine ⟨fun hg => ?_, fun hx => ?_⟩
  · rw [hg]; exact gammaField_mem _ _ _
  · rw [if_pos hx]; exact exposureBlock_mem _ _ _ _ _ _

theorem pvrEdits_range (b : LoadFlagBits) (inp : FormatInput) (info : ImgInfo)
    (p : LoadParamsPVR) :
    ((pvrEdits b inp info p).gammaMode = 1 →
      0.5 ≤ (pvrEdits b inp info p).params.Gamma ∧ (pvrEdits b inp info p).params.Gamma ≤ 4.0) ∧
    (showExposure info = true →
      0.0 ≤ (pvrEdits b inp info p).params.Exposure ∧
        (pvrEdits b inp info p).params.Exposure ≤ 4.0) ∧
    (info.IsRGBMOrRGBD = true →
      0.01 ≤ (pvrEdits b inp info p).params.MaxRange ∧
        (pvrEdits b inp info p).params.MaxRange ≤ 128.0) := by
  unfold pvrEdits
  simp only []
  refine ⟨fun hg => ?_, fun hx => ?_, fun hr => ?_⟩
  · rw [hg]; exact gammaField_mem _ _ _
  · rw [if_pos hx]; exact exposureBlock_mem _ _ _ _ _ _
  · rw [if_pos hr]; exact floatField_mem _ _ _ _ _ (by norm_num)

theorem ktxEdits_range (b : LoadFlagBits) (inp : FormatInput) (info : ImgInfo)
    (p : LoadParamsKTX) :
    ((ktxEdits b inp info p).gammaMode = 1 →
      0.5 ≤ (ktxEdits b inp info p).params.Gamma ∧ (ktxEdits b inp info p).params.Gamma ≤ 4.0) ∧
    (showExposureKTX info = true →
      0.0 ≤ (ktxEdits b inp info p).params.Exposure ∧
        (ktxEdits b inp info p).params.Exposure ≤ 4.0) := by
  unfold ktxEdits
  simp only []
  refine ⟨fun hg => ?_, fun hx => ?_⟩
  · rw [hg]; exact gammaField_mem _ _ _
  · rw [if_pos hx]; exact exposureBlock_mem _ _ _ _ _ _

theorem astcEdits_range (b : LoadFlagBits) (inp : FormatInput) (p : LoadParamsASTC) :
    ((astcEdits b inp p).gammaMode = 1 →
      0.5 ≤ (astcEdits b inp p).params.Gamma ∧ (astcEdits b inp p).params.Gamma ≤ 4.0) ∧
    0.0 ≤ (astcEdits b inp p).params.Exposure ∧ (astcEdits b inp p).params.Exposure ≤ 4.0 := by
  unfold astcEdits
  simp only []
  refine ⟨fun hg => ?_, ?_⟩
  · rw [hg]; exact gammaField_mem _ _ _
  · exact exposureBlock_mem _ _ _ _ _ _

theorem pkmEdits_range (b : LoadFlagBits) (inp : FormatInput) (info : ImgInfo)
    (p : LoadParamsPKM) :
    (pkmEdits b inp info p).gammaMode = 1 →
      0.5 ≤ (pkmEdits b inp info p).params.Gamma ∧ (pkmEdits b inp info p).params.Gamma ≤ 4.0 := by
  unfold pkmEdits
  simp only []
  intro hg
  rw [hg]; exact gammaField_mem _ _ _

theorem hdrEdits_range (inp : FormatInput) (p : LoadParamsHDR) :
    0.6 ≤ (hdrEdits inp p).params.Gamma ∧ (hdrEdits inp p).params.Gamma ≤ 3.0 := by
  unfold hdrEdits
  exact floatField_mem _ _ _ _ _ (by norm_num)

theorem exrEdits_range (inp : FormatInput) (p : LoadParamsEXR) :
    (0.6 ≤ (exrEdits inp p).params.Gamma ∧ (exrEdits inp p).params.Gamma ≤ 3.0) ∧
    (-10.0 ≤ (exrEdits inp p).params.Exposure ∧ (exrEdits inp p).params.Exposure ≤ 10.0) ∧
    (0.0 ≤ (exrEdits inp p).params.Defog ∧ (exrEdits inp p).params.Defog ≤ 0.1) ∧
    (-3.0 ≤ (exrEdits inp p).params.KneeLow ∧ (exrEdits inp p).params.KneeLow ≤ 3.0) ∧
    (3.5 ≤ (exrEdits inp p).params.KneeHigh ∧ (exrEdits inp p).params.KneeHigh ≤ 7.5) := by
  unfold exrEdits
  exact ⟨floatField_mem _ _ _ _ _ (by norm_num), floatField_mem _ _ _ _ _ (by norm_num),
    floatField_mem _ _ _ _ _ (by norm_num), floatField_mem _ _ _ _ _ (by norm_num),
    floatField_mem _ _ _ _ _ (by norm_num)⟩

/-- The record of a case after the case, when Reset is not pressed and the reload keeps the
records: the record computed by the editors of the case. -/
theorem ddsBranch_params (m : ImageMethods) (b : LoadFlagBits) (inp : FormatInput)
    (s : PanelState) (r : SectionResult) (h : ddsBranch m b inp s = some r)
    (hm : m.ReloadKeepsParams) (hreset : inp.reset = false) :
    r.state.CurrImage.LoadParams_DDS =
      (ddsEdits b inp s.CurrImage.Info s.CurrImage.LoadParams_DDS).params := by
  obtain ⟨q, _, hs⟩ := ddsBranch_some m b inp s r h
  rw [hs]
  exact congrArg (fun p => p.1) (multiSurfaceTail_params m _ inp _ _ _ _ hm hreset)

theorem pvrBranch_params (m : ImageMethods) (b : LoadFlagBits) (inp : FormatInput)
    (s : PanelState) (r : SectionResult) (h : pvrBranch m b inp s = some r)
    (hm : m.ReloadKeepsParams) (hreset : inp.reset = false) :
    r.state.CurrImage.LoadParams_PVR =
      (pvrEdits b inp s.CurrImage.Info s.CurrImage.LoadParams_PVR).params := by
  obtain ⟨q, _, hs⟩ := pvrBranch_some m b inp s r h
  rw [hs]
  exact congrArg (fun p => p.2.1) (multiSurfaceTail_params m _ inp _ _ _ _ hm hreset)

theorem ktxBranch_params (m : ImageMethods) (b : LoadFlagBits) (inp : FormatInput)
    (s : PanelState) (r : SectionResult) (h : ktxBranch m b inp s = some r)
    (hm : m.ReloadKeepsParams) (hreset : inp.reset = false) :
    r.state.CurrImage.LoadParams_KTX =
      (ktxEdits b inp s.CurrImage.Info s.CurrImage.LoadParams_KTX).params := by
  obtain ⟨q, _, hs⟩ := ktxBranch_some m b inp s r h
  rw [hs]
  exact congrArg (fun p => p.2.2.1) (multiSurfaceTail_params m _ inp _ _ _ _ hm hreset)

theorem astcBranch_params (m : ImageMethods) (b : LoadFlagBits) (inp : FormatInput)
    (s : PanelState) (hm : m.ReloadKeepsParams) (hreset : inp.reset = false) :
    (astcBranch m b inp s).state.CurrImage.LoadParams_ASTC =
      (astcEdits b inp s.CurrImage.LoadParams_ASTC).params := by
  unfold astcBranch
  simp only [hreset, Bool.false_eq_true, if_false]
  exact congrArg (fun p => p.2.2.2.1) (reloadPlain_params m _ _ hm)

theorem pkmBranch_params (m : ImageMethods) (b : LoadFlagBits) (inp : FormatInput)
    (s : PanelState) (hm : m.ReloadKeepsParams) (hreset : inp.reset = false) :
    (pkmBranch m b inp s).state.CurrImage.LoadParams_PKM =
      (pkmEdits b inp s.CurrImage.Info s.CurrImage.LoadParams_PKM).params := by
  unfold pkmBranch
  simp only [hreset, Bool.false_eq_true, if_false]
  exact congrArg (fun p => p.2.2.2.2.1) (reloadPlain_params m _ _ hm)

theorem exrBranch_params (m : ImageMethods) (inp : FormatInput) (s : PanelState)
    (hm : m.ReloadKeepsParams) (hreset : inp.reset = false) :
    (exrBranch m inp s).state.CurrImage.LoadParams_EXR =
      (exrEdits inp s.CurrImage.LoadParams_EXR).params := by
  unfold exrBranch
  simp only [hreset, Bool.false_eq_true, if_false]
  exact congrArg (fun p => p.2.2.2.2.2.2.1) (reloadPlain_params m _ _ hm)

/-! ## Theorem on the durations passed to `SetFrameDuration` -/

theorem durationsInRange_nil : DurationsInRange [] := by
  intro d a h
  exact absurd h (List.not_mem_nil _)

theorem durationsInRange_append {a b : List Call} (ha : DurationsInRange a)
    (hb : DurationsInRange b) : DurationsInRange (a ++ b) := by
  intro d x h
  rcases List.mem_append.1 h with h1 | h1
  · exact ha d x h1
  · exact hb d x h1

theorem durationsInRange_single (d : Rat) (a : Bool) (h1 : 0.0 ≤ d) (h2 : d ≤ 60.0) :
    DurationsInRange [Call.SetFrameDuration d a] := by
  intro d2 a2 h
  have e := List.mem_singleton.1 h
  injection e with e1 e2
  rw [e1]
  exact ⟨h1, h2⟩

theorem durationsInRange_ite (c : Bool) (d : Rat) (a : Bool) (h1 : 0.0 ≤ d) (h2 : d ≤ 60.0) :
    DurationsInRange (if c = true then [Call.SetFrameDuration d a] else []) := by
  cases c
  · exact durationsInRange_nil
  · exact durationsInRange_single d a h1 h2

/-- A list of calls without any `SetFrameDuration`. -/
theorem durationsInRange_of_not_mem {l : List Call}
    (h : ∀ d a, Call.SetFrameDuration d a ∉ l) : DurationsInRange l := by
  intro d a hm
  exact absurd hm (h d a)

/-- The calls of the period controls in preview mode: "Set All" passes the clamped preview
period. -/
theorem periodPreview_calls (m : ImageMethods) (inp : FramesInput) (s : PanelState) :
    (periodPreview m inp s).calls = s.calls ++
      (if inp.setAll = true
        then [Call.SetFrameDuration
          (tiClamp (inp.period.getD s.CurrImage.FrameDurationPreview) 0.0 60.0) true]
        else []) := by
  unfold periodPreview
  cases inp.period <;> cases inp.setAll <;> cases inp.button1s <;> cases inp.button05s <;>
    cases inp.button01s <;> cases inp.button30Hz <;> cases inp.button60Hz <;>
    simp [PanelState.setFrameDurationPreview, PanelState.SetFrameDuration]

/-- The calls of the period controls of the current frame: the typed period clamped, then
the presets. -/
theorem periodPerFrame_calls (m : ImageMethods) (inp : FramesInput) (s : PanelState) :
    (periodPerFrame m inp s).calls = s.calls ++
      (match inp.period with
        | some duration => [Call.SetFrameDuration (tiClamp duration 0.0 60.0) false]
        | Option.none => []) ++
      (if inp.button1s = true then [Call.SetFrameDuration 1.0 false] else []) ++
      (if inp.button05s = true then [Call.SetFrameDuration 0.5 false] else []) ++
      (if inp.button01s = true then [Call.SetFrameDuration 0.1 false] else []) ++
      (if inp.button30Hz = true then [Call.SetFrameDuration (1.0 / 30.0) false] else []) ++
      (if inp.button60Hz = true then [Call.SetFrameDuration (1.0 / 60.0) false] else []) := by
  unfold periodPerFrame
  cases inp.period <;> cases inp.button1s <;> cases inp.button05s <;>
    cases inp.button01s <;> cases inp.button30Hz <;> cases inp.button60Hz <;>
    simp [PanelState.SetFrameDuration]

theorem addsDurations_refl (a : List Call) : AddsDurationsInRange a a :=
  ⟨[], (List.append_nil a).symm, durationsInRange_nil⟩

theorem addsDurations_of_eq {a b : List Call} (h : b = a) : AddsDurationsInRange a b := by
  rw [h]; exact addsDurations_refl a

theorem addsDurations_trans {a b c : List Call} (h1 : AddsDurationsInRange a b)
    (h2 : AddsDurationsInRange b c) : AddsDurationsInRange a c := by
  obtain ⟨p, hp, dp⟩ := h1
  obtain ⟨q, hq, dq⟩ := h2
  exact ⟨p ++ q, by rw [hq, hp, List.append_assoc], durationsInRange_append dp dq⟩

theorem addsDurations_append {a p : List Call} (h : DurationsInRange p) :
    AddsDurationsInRange a (a ++ p) := ⟨p, rfl, h⟩

theorem periodSection_adds (m : ImageMethods) (inp : FramesInput) (s : PanelState) :
    AddsDurationsInRange s.calls (periodSection m inp s).calls := by
  have k : ∀ d : Rat, 0.0 ≤ tiClamp d 0.0 60.0 ∧ tiClamp d 0.0 60.0 ≤ 60.0 :=
    fun d => tiClamp_mem d 0.0 60.0 (by norm_num)
  unfold periodSection
  split_ifs
  · rw [periodPreview_calls]
    exact addsDurations_append (durationsInRange_ite _ _ _ (k _).1 (k _).2)
  · rw [periodPerFrame_calls]
    simp only [List.append_assoc]
    refine addsDurations_append (durationsInRange_append ?_ (durationsInRange_append
      (durationsInRange_ite _ _ _ (by norm_num) (by norm_num)) (durationsInRange_append
      (durationsInRange_ite _ _ _ (by norm_num) (by norm_num)) (durationsInRange_append
      (durationsInRange_ite _ _ _ (by norm_num) (by norm_num)) (durationsInRange_append
      (durationsInRange_ite _ _ _ (by norm_num) (by norm_num))
      (durationsInRange_ite _ _ _ (by norm_num) (by norm_num)))))))
    cases inp.period with
    | none => exact durationsInRange_nil
    | some d => exact durationsInRange_single _ _ (k d).1 (k d).2

theorem playbackRow_adds (m : ImageMethods) (inp : PlaybackInput) (n : Int) (s : PanelState) :
    AddsDurationsInRange s.calls (playbackRow m inp n s).calls := by
  have e1 : ∀ (p : Bool) (s : PanelState), (loopButton p s).calls = s.calls := by
    intro p s; unfold loopButton; split_ifs <;> rfl
  have e2 : ∀ (p e : Bool) (s : PanelState), (skipBeginButton p e s).calls = s.calls := by
    intro p e s; unfold skipBeginButton; split_ifs <;> rfl
  have e3 : ∀ (p e : Bool) (s : PanelState), (prevButton p e s).calls = s.calls := by
    intro p e s; unfold prevButton; split_ifs <;> rfl
  have e4 : ∀ (p : Bool) (s : PanelState),
      AddsDurationsInRange s.calls (playRevButton m p s).calls := by
    intro p s; unfold playRevButton
    simp only []
    split_ifs
    · exact ⟨[Call.Stop], rfl, durationsInRange_of_not_mem (by simp)⟩
    · exact ⟨[Call.Play], rfl, durationsInRange_of_not_mem (by simp)⟩
    · exact addsDurations_refl _
  have e5 : ∀ (p : Bool) (s : PanelState),
      AddsDurationsInRange s.calls (playFwdButton m p s).calls := by
    intro p s; unfold playFwdButton
    simp only []
    split_ifs
    · exact ⟨[Call.Stop], rfl, durationsInRange_of_not_mem (by simp)⟩
    · exact ⟨[Call.Play], rfl, durationsInRange_of_not_mem (by simp)⟩
    · exact addsDurations_refl _
  have e6 : ∀ (p e : Bool) (s : PanelState), (nextButton p e n s).calls = s.calls := by
    intro p e s; unfold nextButton; split_ifs <;> rfl
  have e7 : ∀ (p e : Bool) (s : PanelState), (skipEndButton p e n s).calls = s.calls := by
    intro p e s; unfold skipEndButton; split_ifs <;> rfl
  unfold playbackRow
  simp only []
  rw [e7, e6]
  refine addsDurations_trans ?_ (e5 _ _)
  refine addsDurations_trans ?_ (e4 _ _)
  rw [e3, e2, e1]
  exact addsDurations_refl _

theorem framesSection_adds (m : ImageMethods) (inp : FramesInput) (d : Bool) (s : PanelState) :
    AddsDurationsInRange s.calls (framesSection m inp d s).calls := by
  have e1 : ∀ (x : Option Int) (s : PanelState), (frameNumEdit x s).calls = s.calls := by
    intro x s; cases x <;> rfl
  unfold framesSection
  simp only []
  split_ifs with h1 h2 h3 h4 h5
  all_goals first
    | exact addsDurations_refl _
    | (refine addsDurations_trans ?_ (playbackRow_adds m _ _ _)
       refine addsDurations_trans ?_ (periodSection_adds m inp _)
       exact addsDurations_of_eq ((e1 _ _).trans rfl))

theorem reloadPlain_adds (m : ImageMethods) (r : Bool) (s : PanelState) :
    AddsDurationsInRange s.calls (reloadPlain m r s).calls := by
  rw [reloadPlain_calls]
  refine addsDurations_append ?_
  cases r
  · exact durationsInRange_nil
  · exact durationsInRange_of_not_mem (by simp)

theorem reloadWithAlt_adds (m : ImageMethods) (r alt : Bool) (s : PanelState) :
    AddsDurationsInRange s.calls (reloadWithAlt m r alt s).calls := by
  unfold reloadWithAlt
  cases r <;> cases alt
  · exact addsDurations_refl _
  · exact addsDurations_refl _
  · exact ⟨[Call.Unload, Call.Load], by simp [PanelState.Unload, PanelState.Load],
      durationsInRange_of_not_mem (by simp)⟩
  · exact ⟨[Call.Unload, Call.Load, Call.EnableAltPicture true, Call.Bind],
      by simp [PanelState.Unload, PanelState.Load, PanelState.EnableAltPicture, PanelState.Bind],
      durationsInRange_of_not_mem (by simp)⟩

theorem resetLoadParams_adds (m : ImageMethods) (c : Bool) (s : PanelState) (a : List Call)
    (h : s.calls = a) :
    AddsDurationsInRange a (if c = true then s.ResetLoadParams m else s).calls ∧
    AddsDurationsInRange a (if c = true then resetPressed m s else s).calls := by
  subst h
  cases c
  · exact ⟨addsDurations_refl _, addsDurations_refl _⟩
  · exact ⟨⟨[Call.ResetLoadParams], rfl, durationsInRange_of_not_mem (by simp)⟩,
      ⟨[Call.ResetLoadParams], rfl, durationsInRange_of_not_mem (by simp)⟩⟩

theorem multiSurfaceTail_adds (m : ImageMethods) (txt : String) (inp : FormatInput) (N : Int)
    (alt any rc : Bool) (s : PanelState) :
    AddsDurationsInRange s.calls (multiSurfaceTail m txt inp N alt any rc s).state.calls := by
  unfold multiSurfaceTail
  simp only []
  have e0 : ∀ (c : Bool) (t : PanelState),
      (if c = true then t.Text txt else t).calls = t.calls := by
    intro c t; cases c <;> rfl
  rw [e0]
  refine addsDurations_trans ?_ (reloadWithAlt_adds m _ _ _)
  refine addsDurations_trans ?_ (resetLoadParams_adds m _ _ _ rfl).2
  exact addsDurations_of_eq (scrubberToggle_image _ s).2

theorem DoMultiSurface_adds (inp : MultiSurfaceInput) (s : PanelState) (q : PanelState × Bool)
    (h : DoMultiSurface inp s = some q) : AddsDurationsInRange s.calls q.1.calls := by
  obtain ⟨e, n, g1, g2, g3, pre, hf, hpre⟩ := DoMultiSurface_form inp s q h
  refine ⟨pre, by rw [hf]; rfl, durationsInRange_of_not_mem ?_⟩
  intro d a hm
  rcases hpre _ hm with h1 | ⟨b, h1⟩ <;> exact absurd h1 (by simp)

/-- Every completed file-type section only adds calls that are not `SetFrameDuration`, or
more generally whose durations are in range. -/
theorem fileTypeSection_adds (m : ImageMethods) (t : LoadFlagTable) (inp : FormatInput)
    (s : PanelState) (r : SectionResult) (h : fileTypeSection m t inp s = some r) :
    AddsDurationsInRange s.calls r.state.calls := by
  have multi : ∀ (txt : String) (q : PanelState × Bool) (rc : Bool) (img : Image),
      DoMultiSurface inp.multi s = some q →
      r = multiSurfaceTail m txt inp s.CurrImage.NumFrames q.1.CurrImage.AltPictureEnabled true
        rc { q.1 with CurrImage := img } →
      AddsDurationsInRange s.calls r.state.calls := by
    intro txt q rc img hq hs
    have h1 : AddsDurationsInRange s.calls q.1.calls := DoMultiSurface_adds _ s q hq
    have h2 : AddsDurationsInRange q.1.calls r.state.calls := by
      rw [hs]
      exact multiSurfaceTail_adds m txt inp _ _ true rc { q.1 with CurrImage := img }
    exact addsDurations_trans h1 h2
  unfold fileTypeSection at h
  cases hf : s.CurrImage.Filetype <;> simp only [hf] at h
  · obtain ⟨q, hq, hs⟩ := ddsBranch_some m _ inp s r h
    exact multi _ q _ _ hq hs
  · obtain ⟨q, hq, hs⟩ := pvrBranch_some m _ inp s r h
    exact multi _ q _ _ hq hs
  · obtain ⟨q, hq, hs⟩ := ktxBranch_some m _ inp s r h
    exact multi _ q _ _ hq hs
  · obtain ⟨q, hq, hs⟩ := ktxBranch_some m _ inp s r h
    exact multi _ q _ _ hq hs
  · simp only [Option.some.injEq] at h
    subst h
    unfold astcBranch
    simp only []
    refine addsDurations_trans ?_ (reloadPlain_adds m _ _)
    exact (resetLoadParams_adds m _ _ _ rfl).2
  · simp only [Option.some.injEq] at h
    subst h
    unfold pkmBranch
    simp only []
    refine addsDurations_trans ?_ (reloadPlain_adds m _ _)
    exact (resetLoadParams_adds m _ _ _ rfl).1
  · simp only [Option.some.injEq] at h
    subst h
    unfold hdrBranch
    simp only []
    refine addsDurations_trans ?_ (reloadPlain_adds m _ _)
    exact (resetLoadParams_adds m _ _ _ rfl).1
  · simp only [Option.some.injEq] at h
    subst h
    unfold exrBranch
    simp only []
    refine addsDurations_trans ?_ (reloadPlain_adds m _ _)
    exact (resetLoadParams_adds m _ _ _ rfl).1
  · simp only [Option.some.injEq] at h
    subst h
    unfold tgaBranch
    by_cases hfmt : s.CurrImage.Info.IsRGBA8OrG3B5A1R5G2 = true
    · rw [if_pos hfmt]
      simp only []
      refine addsDurations_trans ?_ (reloadPlain_adds m _ _)
      exact (resetLoadParams_adds m _ _ _ rfl).1
    · rw [if_neg hfmt]
      exact addsDurations_refl _
  · simp only [Option.some.injEq] at h
    subst h
    unfold webpBranch
    split_ifs <;> exact addsDurations_refl _
  · simp only [Option.some.injEq] at h
    subst h
    exact addsDurations_refl _

/-- C18. Every duration the panel passes to `SetFrameDuration` lies in `[0.0, 60.0]` seconds,
whatever the user typed.  The period controls (lines 943-989, shown for an image with more
than one frame) make exactly these calls: in preview mode "Set All" passes the preview
period after the clamp of line 948 (the typed value, or the stored one, clamped), with
`applyToAll` true, and the presets make no call; in per-frame mode the typed period is
passed clamped, and the presets pass 1.0, 0.5, 0.1, 1/30 and 1/60.  Every call that a
completed pass of `ShowPropertiesWindow` adds to those made before it is either not a
`SetFrameDuration` or has its duration in `[0.0, 60.0]`.  Real values are rationals here. -/
theorem C18_frame_durations_in_range (m : ImageMethods) (t : LoadFlagTable)
    (inp : PropertiesInput) (hasCurrImage : Bool) (s : PanelState) :
    (s.CurrImage.FrameDurationPreviewEnabled = true →
      (periodSection m inp.frames s).calls = s.calls ++
        (if inp.frames.setAll = true
          then [Call.SetFrameDuration
            (tiClamp (inp.frames.period.getD s.CurrImage.FrameDurationPreview) 0.0 60.0) true]
          else [])) ∧
    (s.CurrImage.FrameDurationPreviewEnabled = false →
      (periodSection m inp.frames s).calls = s.calls ++
        (match inp.frames.period with
          | some duration => [Call.SetFrameDuration (tiClamp duration 0.0 60.0) false]
          | Option.none => []) ++
        (if inp.frames.button1s = true then [Call.SetFrameDuration 1.0 false] else []) ++
        (if inp.frames.button05s = true then [Call.SetFrameDuration 0.5 false] else []) ++
        (if inp.frames.button01s = true then [Call.SetFrameDuration 0.1 false] else []) ++
        (if inp.frames.button30Hz = true then [Call.SetFrameDuration (1.0 / 30.0) false]
          else []) ++
        (if inp.frames.button60Hz = true then [Call.SetFrameDuration (1.0 / 60.0) false]
          else [])) ∧
    (∀ d : Rat, 0.0 ≤ tiClamp d 0.0 60.0 ∧ tiClamp d 0.0 60.0 ≤ 60.0) ∧
    (∀ r, ShowPropertiesWindow m t inp hasCurrImage s = some r →
      ∃ post, r.state.calls = s.calls ++ post ∧
        ∀ (seconds : Rat) (applyToAll : Bool),
          Call.SetFrameDuration seconds applyToAll ∈ post → 0.0 ≤ seconds ∧ seconds ≤ 60.0) := by
  refine ⟨fun hp => ?_, fun hp => ?_, fun d => tiClamp_mem d 0.0 60.0 (by norm_num), ?_⟩
  · unfold periodSection
    rw [if_pos hp, periodPreview_calls]
  · unfold periodSection
    rw [if_neg (by rw [hp]; simp), periodPerFrame_calls]
  · intro r hr
    unfold ShowPropertiesWindow at hr
    split_ifs at hr with h1 h2 h3
    · simp only [Option.some.injEq] at hr
      subst hr
      exact addsDurations_refl _
    · simp only [Option.some.injEq] at hr
      subst hr
      exact addsDurations_refl _
    · simp only [Option.some.injEq] at hr
      subst hr
      exact addsDurations_refl _
    · cases hq : fileTypeSection m t inp.format s with
      | none => rw [hq] at hr; exact absurd hr (by simp)
      | some q =>
        rw [hq] at hr
        simp only [Option.map_some', Option.some.injEq] at hr
        have hf := fileTypeSection_adds m t inp.format s q hq
        subst hr
        split_ifs
        · exact hf
        · exact addsDurations_trans hf (framesSection_adds m _ _ _)

/-- Witness of C18: three frames, per-frame mode, and the user commits a period of 100
seconds; the one call made passes the clamped period. -/
theorem C18_frame_durations_in_range_witness :
    (periodSection exampleMethods { FramesInput.none with period := some 100 }
      (exampleFrames 3 0)).calls = [Call.SetFrameDuration (tiClamp 100 0.0 60.0) false] :=
  (C18_frame_durations_in_range exampleMethods exampleFlagTable
    { PropertiesInput.none with frames := { FramesInput.none with period := some 100 } } true
    (exampleFrames 3 0)).2.1 rfl

/-! ## Theorems on the informational texts -/

/-- C19 (counterexample). A pass in which `ImGui::Begin` returns false (the window is
collapsed or clipped; lines 160-164): with no current image, and with a current image that
is not loaded, the pass returns before the tests of lines 166 and 172 and displays no text
at all. -/
theorem C19_collapsed_window_counterexample :
    (ShowPropertiesWindow exampleMethods exampleFlagTable
        { PropertiesInput.none with beginReturned := false } false (exampleFrames 1 0)).map
      (fun r => r.state.texts) = some [] ∧
    ({ exampleFrames 1 0 with
        CurrImage := { (exampleFrames 1 0).CurrImage with IsLoaded := false } }
      : PanelState).CurrImage.IsLoaded = false ∧
    (ShowPropertiesWindow exampleMethods exampleFlagTable
        { PropertiesInput.none with beginReturned := false } true
        { exampleFrames 1 0 with
          CurrImage := { (exampleFrames 1 0).CurrImage with IsLoaded := false } }).map
      (fun r => r.state.texts) = some [] := by
  decide

/-- C19 (amended). When there is no current image, or the current image is not loaded, a
pass of `ShowPropertiesWindow` completes without marking a reload, makes no call at all (so
none of `Load`, `Unload`, `Bind`, `EnableAltPicture`), and leaves the image (`FrameNum` and
every load-parameter record included), the three global toggles and the scrubber flag as
they were.  When `ImGui::Begin` returned true it displays exactly one text, "No Images in
Folder" when there is no current image and otherwise "Image Failed to Load"; when
`ImGui::Begin` returned false it displays nothing. -/
theorem C19_absent_image_texts (m : ImageMethods) (t : LoadFlagTable) (inp : PropertiesInput)
    (hasCurrImage : Bool) (s : PanelState)
    (habsent : hasCurrImage = false ∨ s.CurrImage.IsLoaded = false) :
    ∃ r, ShowPropertiesWindow m t inp hasCurrImage s = some r ∧
      r.reloadChanges = false ∧ r.state.calls = s.calls ∧ r.state.CurrImage = s.CurrImage ∧
      r.state.gShowAllMipsUnified = s.gShowAllMipsUnified ∧
      r.state.gShowAllArrayLayers = s.gShowAllArrayLayers ∧
      r.state.gShowLayerMipMatrix = s.gShowLayerMipMatrix ∧
      r.state.ShowFrameScrubber = s.ShowFrameScrubber ∧
      (inp.beginReturned = true →
        r.state.texts = s.texts ++
          [if hasCurrImage = true then "Image Failed to Load" else "No Images in Folder"]) ∧
      (inp.beginReturned = false → r.state.texts = s.texts) := by
  unfold ShowPropertiesWindow
  cases hb : inp.beginReturned with
  | false =>
    exact ⟨_, rfl, rfl, rfl, rfl, rfl, rfl, rfl, rfl, fun h => absurd h (by simp), fun _ => rfl⟩
  | true =>
    cases hc : hasCurrImage with
    | false =>
      exact ⟨_, rfl, rfl, rfl, rfl, rfl, rfl, rfl, rfl, fun _ => rfl, fun h => absurd h (by simp)⟩
    | true =>
      have hl : s.CurrImage.IsLoaded = false := by
        rcases habsent with h | h
        · rw [hc] at h; exact absurd h (by simp)
        · exact h
      simp only [Bool.not_true, Bool.false_eq_true, if_false, hl, Bool.not_false, if_true]
      exact ⟨_, rfl, rfl, rfl, rfl, rfl, rfl, rfl, rfl, fun _ => rfl, fun h => absurd h (by simp)⟩

/-- Witness of C19: no current image, window open. -/
theorem C19_absent_image_texts_witness :
    ∃ r, ShowPropertiesWindow exampleMethods exampleFlagTable PropertiesInput.none false
        (exampleFrames 1 0) = some r ∧
      r.reloadChanges = false ∧ r.state.calls = (exampleFrames 1 0).calls ∧
      r.state.CurrImage = (exampleFrames 1 0).CurrImage ∧
      r.state.gShowAllMipsUnified = (exampleFrames 1 0).gShowAllMipsUnified ∧
      r.state.gShowAllArrayLayers = (exampleFrames 1 0).gShowAllArrayLayers ∧
      r.state.gShowLayerMipMatrix = (exampleFrames 1 0).gShowLayerMipMatrix ∧
      r.state.ShowFrameScrubber = (exampleFrames 1 0).ShowFrameScrubber ∧
      (PropertiesInput.none.beginReturned = true →
        r.state.texts = (exampleFrames 1 0).texts ++
          [if false = true then "Image Failed to Load" else "No Images in Folder"]) ∧
      (PropertiesInput.none.beginReturned = false → r.state.texts = (exampleFrames 1 0).texts) :=
  C19_absent_image_texts exampleMethods exampleFlagTable PropertiesInput.none false
    (exampleFrames 1 0) (Or.inl rfl)

/-- A completed DDS, PVR, KTX or KTX2 case never shows a text: line 245 (366, 505) sets
`anyUIDisplayed` before the test of line 307 (438, 572). -/
theorem multiSurfaceFormat_texts (m : ImageMethods) (t : LoadFlagTable)
    (inp : FormatInput) (s : PanelState) (r : SectionResult)
    (hft : s.CurrImage.Filetype = tFileType.DDS ∨ s.CurrImage.Filetype = tFileType.PVR ∨
      s.CurrImage.Filetype = tFileType.KTX ∨ s.CurrImage.Filetype = tFileType.KTX2)
    (h : fileTypeSection m t inp s = some r) : r.state.texts = s.texts := by
  obtain ⟨q, txt, rc, img, hq, hs⟩ := multiSurfaceFormat_some m t inp s r hft h
  obtain ⟨e, n, g1, g2, g3, pre, hf, _⟩ := DoMultiSurface_form inp.multi s q hq
  rw [hs, multiSurfaceTail_texts]
  show q.1.texts = s.texts
  rw [hf]
  rfl

/-- C20. A loaded DDS image (and likewise PVR, KTX and KTX2) with one texture, a pixel format
that is not HDR (nor ETC, ASTC or luminance), neither a texture array nor with an alternate
mipmap or cubemap picture, and a pass without any interaction: `ShowPropertiesWindow`
completes and displays no text at all, so not "No DDS Properties Available" (respectively
"No PVR Properties Available", "No KTX/KTX2 Properties Available"). -/
theorem C20_no_properties_text_not_shown :
    ((exampleOfType tFileType.DDS 1 0).CurrImage.IsLoaded = true ∧
      (exampleOfType tFileType.DDS 1 0).CurrImage.NumFrames = 1 ∧
      (exampleOfType tFileType.DDS 1 0).CurrImage.Info.IsHDRFormat = false ∧
      (exampleOfType tFileType.DDS 1 0).CurrImage.AltMipmapsPictureAvail = false ∧
      (exampleOfType tFileType.DDS 1 0).CurrImage.AltCubemapPictureAvail = false ∧
      (exampleOfType tFileType.DDS 1 0).texts = []) ∧
    (ShowPropertiesWindow exampleMethods exampleFlagTable PropertiesInput.none true
        (exampleOfType tFileType.DDS 1 0)).map (fun r => r.state.texts) = some [] ∧
    (ShowPropertiesWindow exampleMethods exampleFlagTable PropertiesInput.none true
        (exampleOfType tFileType.PVR 1 0)).map (fun r => r.state.texts) = some [] ∧
    (ShowPropertiesWindow exampleMethods exampleFlagTable PropertiesInput.none true
        (exampleOfType tFileType.KTX 1 0)).map (fun r => r.state.texts) = some [] ∧
    (ShowPropertiesWindow exampleMethods exampleFlagTable PropertiesInput.none true
        (exampleOfType tFileType.KTX2 1 0)).map (fun r => r.state.texts) = some [] := by
  decide

/-! ## Lemmas on the whole pass -/

theorem periodPreview_params (m : ImageMethods) (inp : FramesInput) (s : PanelState)
    (hm : m.PlaybackKeepsParams) :
    (periodPreview m inp s).CurrImage.LoadParams = s.CurrImage.LoadParams := by
  have k : ∀ (t : PanelState) (d : Rat) (a : Bool),
      (t.SetFrameDuration m d a).CurrImage.LoadParams = t.CurrImage.LoadParams :=
    fun t d a => (hm _).2.2 d a
  have k1 : ∀ (c : Bool) (t : PanelState) (d : Rat),
      (if c = true then t.setFrameDurationPreview d else t).CurrImage.LoadParams =
        t.CurrImage.LoadParams := by
    intro c t d; cases c <;> rfl
  unfold periodPreview
  simp only []
  rw [k1, k1, k1, k1, k1]
  cases inp.setAll
  · cases inp.period <;> rfl
  · simp only [if_true]
    cases inp.period
    · exact k _ _ _
    · exact k _ _ _

theorem periodPerFrame_params (m : ImageMethods) (inp : FramesInput) (s : PanelState)
    (hm : m.PlaybackKeepsParams) :
    (periodPerFrame m inp s).CurrImage.LoadParams = s.CurrImage.LoadParams := by
  have k1 : ∀ (c : Bool) (t : PanelState) (d : Rat),
      (if c = true then t.SetFrameDuration m d false else t).CurrImage.LoadParams =
        t.CurrImage.LoadParams := by
    intro c t d
    cases c
    · rfl
    · exact (hm _).2.2 d false
  unfold periodPerFrame
  simp only []
  rw [k1, k1, k1, k1, k1]
  cases inp.period
  · rfl
  · exact (hm _).2.2 _ _

theorem playbackRow_params (m : ImageMethods) (inp : PlaybackInput) (n : Int) (s : PanelState)
    (hm : m.PlaybackKeepsParams) :
    (playbackRow m inp n s).CurrImage.LoadParams = s.CurrImage.LoadParams := by
  have e1 : ∀ (p : Bool) (s : PanelState),
      (loopButton p s).CurrImage.LoadParams = s.CurrImage.LoadParams := by
    intro p s; unfold loopButton; split_ifs <;> rfl
  have e2 : ∀ (p e : Bool) (s : PanelState),
      (skipBeginButton p e s).CurrImage.LoadParams = s.CurrImage.LoadParams := by
    intro p e s; unfold skipBeginButton; split_ifs <;> rfl
  have e3 : ∀ (p e : Bool) (s : PanelState),
      (prevButton p e s).CurrImage.LoadParams = s.CurrImage.LoadParams := by
    intro p e s; unfold prevButton; split_ifs <;> rfl
  have e4 : ∀ (p : Bool) (s : PanelState),
      (playRevButton m p s).CurrImage.LoadParams = s.CurrImage.LoadParams := by
    intro p s; unfold playRevButton
    simp only []
    split_ifs
    · exact (hm _).2.1
    · exact (hm _).1
    · rfl
  have e5 : ∀ (p : Bool) (s : PanelState),
      (playFwdButton m p s).CurrImage.LoadParams = s.CurrImage.LoadParams := by
    intro p s; unfold playFwdButton
    simp only []
    split_ifs
    · exact (hm _).2.1
    · exact (hm _).1
    · rfl
  have e6 : ∀ (p e : Bool) (s : PanelState),
      (nextButton p e n s).CurrImage.LoadParams = s.CurrImage.LoadParams := by
    intro p e s; unfold nextButton; split_ifs <;> rfl
  have e7 : ∀ (p e : Bool) (s : PanelState),
      (skipEndButton p e n s).CurrImage.LoadParams = s.CurrImage.LoadParams := by
    intro p e s; unfold skipEndButton; split_ifs <;> rfl
  unfold playbackRow
  simp only []
  rw [e7, e6, e5, e4, e3, e2, e1]

/-- The frames section leaves the load-parameter records as they are. -/
theorem framesSection_params (m : ImageMethods) (inp : FramesInput) (d : Bool) (s : PanelState)
    (hm : m.PlaybackKeepsParams) :
    (framesSection m inp d s).CurrImage.LoadParams = s.CurrImage.LoadParams := by
  have e1 : ∀ (x : Option Int) (s : PanelState),
      (frameNumEdit x s).CurrImage.LoadParams = s.CurrImage.LoadParams := by
    intro x s; cases x <;> rfl
  have e2 : ∀ s : PanelState,
      (periodSection m inp s).CurrImage.LoadParams = s.CurrImage.LoadParams := by
    intro s
    unfold periodSection
    split_ifs
    · exact periodPreview_params m inp s hm
    · exact periodPerFrame_params m inp s hm
  unfold framesSection
  simp only []
  split_ifs with h1 h2 h3 h4 h5
  all_goals first
    | rfl
    | (rw [playbackRow_params m _ _ _ hm]
       exact (e2 _).trans ((e1 _ _).trans rfl))

/-- A pass of `ShowPropertiesWindow` through the open window on a loaded image ends with the
load-parameter records and the reload mark that the file-type section leaves behind. -/
theorem ShowPropertiesWindow_params (m : ImageMethods) (t : LoadFlagTable)
    (inp : PropertiesInput) (s : PanelState) (p : PassResult)
    (hm : m.PlaybackKeepsParams) (hbegin : inp.beginReturned = true)
    (hloaded : s.CurrImage.IsLoaded = true)
    (h : ShowPropertiesWindow m t inp true s = some p) :
    ∃ r, fileTypeSection m t inp.format s = some r ∧ p.reloadChanges = r.reloadChanges ∧
      p.state.CurrImage.LoadParams = r.state.CurrImage.LoadParams := by
  unfold ShowPropertiesWindow at h
  simp only [hbegin, hloaded, Bool.not_true, Bool.false_eq_true, if_false] at h
  cases hq : fileTypeSection m t inp.format s with
  | none => rw [hq] at h; exact absurd h (by simp)
  | some q =>
    rw [hq] at h
    simp only [Option.map_some', Option.some.injEq] at h
    subst h
    refine ⟨q, rfl, ?_, ?_⟩
    · split_ifs <;> rfl
    · split_ifs
      · rfl
      · exact framesSection_params m _ _ _ hm

/-- A pass that returns before the file-type section leaves the image and the calls as they
were and marks no reload. -/
theorem ShowPropertiesWindow_early (m : ImageMethods) (t : LoadFlagTable)
    (inp : PropertiesInput) (hasCurrImage : Bool) (s : PanelState) (p : PassResult)
    (hearly : inp.beginReturned = false ∨ hasCurrImage = false ∨ s.CurrImage.IsLoaded = false)
    (h : ShowPropertiesWindow m t inp hasCurrImage s = some p) :
    p.state.CurrImage = s.CurrImage ∧ p.state.calls = s.calls ∧ p.reloadChanges = false := by
  unfold ShowPropertiesWindow at h
  split_ifs at h with h1 h2 h3
  · simp only [Option.some.injEq] at h
    subst h
    exact ⟨rfl, rfl, rfl⟩
  · simp only [Option.some.injEq] at h
    subst h
    exact ⟨rfl, rfl, rfl⟩
  · simp only [Option.some.injEq] at h
    subst h
    exact ⟨rfl, rfl, rfl⟩
  · simp only [Bool.not_eq_true', Bool.not_eq_false] at h1 h2 h3
    rcases hearly with e | e | e
    · rw [h1] at e; exact absurd e (by simp)
    · rw [h2] at e; exact absurd e (by simp)
    · rw [h3] at e; exact absurd e (by simp)

/-- The calls of a pass through the open window on a loaded image: those of the file-type
section, then those of the frames section if it runs. -/
theorem ShowPropertiesWindow_calls (m : ImageMethods) (t : LoadFlagTable)
    (inp : PropertiesInput) (s : PanelState) (p : PassResult)
    (hbegin : inp.beginReturned = true) (hloaded : s.CurrImage.IsLoaded = true)
    (h : ShowPropertiesWindow m t inp true s = some p) :
    ∃ r, fileTypeSection m t inp.format s = some r ∧
      (r.returned = true → p.state = r.state) ∧
      ∃ post, p.state.calls = r.state.calls ++ post := by
  unfold ShowPropertiesWindow at h
  simp only [hbegin, hloaded, Bool.not_true, Bool.false_eq_true, if_false] at h
  cases hq : fileTypeSection m t inp.format s with
  | none => rw [hq] at h; exact absurd h (by simp)
  | some q =>
    rw [hq] at h
    simp only [Option.map_some', Option.some.injEq] at h
    subst h
    refine ⟨q, rfl, ?_, ?_⟩
    · intro hr
      rw [if_pos hr]
    · split_ifs
      · exact ⟨[], (List.append_nil _).symm⟩
      · obtain ⟨post, hp, _⟩ := framesSection_adds m inp.frames q.fileTypeSectionDisplayed q.state
        exact ⟨post, hp⟩

/-- A completed DDS, PVR, KTX or KTX2 case ends in `return`. -/
theorem multiSurfaceFormat_returned (m : ImageMethods) (t : LoadFlagTable)
    (inp : FormatInput) (s : PanelState) (r : SectionResult)
    (hft : s.CurrImage.Filetype = tFileType.DDS ∨ s.CurrImage.Filetype = tFileType.PVR ∨
      s.CurrImage.Filetype = tFileType.KTX ∨ s.CurrImage.Filetype = tFileType.KTX2)
    (h : fileTypeSection m t inp s = some r) : r.returned = true := by
  obtain ⟨q, txt, rc, img, _, hs⟩ := multiSurfaceFormat_some m t inp s r hft h
  rw [hs]
  rfl

/-! ## Theorems on the reload contract, the reload sequence and the stored ranges -/

/-- C12 (amended). For every format case of `ShowPropertiesWindow`, every user input of the
pass and every initial load-parameter record whose clamped numeric fields lie in their
declared ranges: if any load-parameter record of the image differs after the case from what
it was before, then the case marked the reload and called `Unload` directly followed by
`Load`; before them it made only calls of `DoMultiSurface` and of the Reset button, after
them nothing or `EnableAltPicture(true)`, `Bind`.  The same holds for the whole pass,
whether or not there is a current image, as long as `Play`, `Stop` and `SetFrameDuration`
keep the load-parameter records: a record that differs after the pass implies that the pass
marked the reload and called `Unload` directly followed by `Load`. -/
theorem C12_changed_params_reload (m : ImageMethods) (t : LoadFlagTable)
    (inp : PropertiesInput) (s : PanelState) (hrange : LoadParamsInRange s.CurrImage) :
    (∀ r, fileTypeSection m t inp.format s = some r →
      r.state.CurrImage.LoadParams ≠ s.CurrImage.LoadParams →
      r.reloadChanges = true ∧
      ∃ pre post, (∀ c ∈ pre, c.IsAltCall ∨ c = Call.ResetLoadParams) ∧
        (post = [] ∨ post = [Call.EnableAltPicture true, Call.Bind]) ∧
        r.state.calls = s.calls ++ pre ++ [Call.Unload, Call.Load] ++ post) ∧
    (m.PlaybackKeepsParams →
      ∀ (hasCurrImage : Bool) (p : PassResult),
      ShowPropertiesWindow m t inp hasCurrImage s = some p →
      p.state.CurrImage.LoadParams ≠ s.CurrImage.LoadParams →
      p.reloadChanges = true ∧
      ∃ pre post, (∀ c ∈ pre, c.IsAltCall ∨ c = Call.ResetLoadParams) ∧
        p.state.calls = s.calls ++ pre ++ [Call.Unload, Call.Load] ++ post) := by
  have hcase : ∀ r, fileTypeSection m t inp.format s = some r →
      r.state.CurrImage.LoadParams ≠ s.CurrImage.LoadParams →
      r.reloadChanges = true ∧
      ∃ pre post, (∀ c ∈ pre, c.IsAltCall ∨ c = Call.ResetLoadParams) ∧
        (post = [] ∨ post = [Call.EnableAltPicture true, Call.Bind]) ∧
        r.state.calls = s.calls ++ pre ++ [Call.Unload, Call.Load] ++ post := by
    intro r h hchanged
    have hr : r.reloadChanges = true := by
      cases hrc : r.reloadChanges with
      | true => rfl
      | false =>
        exact absurd (fileTypeSection_noReload_params m t inp.format s r hrange h hrc) hchanged
    exact ⟨hr, fileTypeSection_reload_calls m t inp.format s r h hr⟩
  refine ⟨hcase, ?_⟩
  intro hm hasCurrImage p hp hchanged
  by_cases hearly :
      inp.beginReturned = false ∨ hasCurrImage = false ∨ s.CurrImage.IsLoaded = false
  · have he := (ShowPropertiesWindow_early m t inp hasCurrImage s p hearly hp).1
    rw [he] at hchanged
    exact absurd rfl hchanged
  · have hbegin : inp.beginReturned = true := by
      cases hb : inp.beginReturned
      · exact absurd (Or.inl hb) hearly
      · rfl
    have hcurr : hasCurrImage = true := by
      cases hb : hasCurrImage
      · exact absurd (Or.inr (Or.inl hb)) hearly
      · rfl
    have hloaded : s.CurrImage.IsLoaded = true := by
      cases hb : s.CurrImage.IsLoaded
      · exact absurd (Or.inr (Or.inr hb)) hearly
      · rfl
    rw [hcurr] at hp
    obtain ⟨r, hr, hrc, hpar⟩ := ShowPropertiesWindow_params m t inp s p hm hbegin hloaded hp
    obtain ⟨r2, hr2, _, post2, hcalls⟩ := ShowPropertiesWindow_calls m t inp s p hbegin hloaded hp
    rw [hr] at hr2
    simp only [Option.some.injEq] at hr2
    subst hr2
    rw [hpar] at hchanged
    obtain ⟨h1, pre, post, hpre, _, hc⟩ := hcase r hr hchanged
    refine ⟨by rw [hrc]; exact h1, pre, post ++ post2, hpre, ?_⟩
    rw [hcalls, hc, List.append_assoc]

/-- Witness of C12: a Radiance HDR image with stored exposure 0, and the exposure edited
to 3. -/
theorem C12_changed_params_reload_witness :
    (hdrBranch exampleMethods { FormatInput.none with hdrExposure := some 3 }
      (exampleHDR 0 false)).reloadChanges = true ∧
    ∃ pre post, (∀ c ∈ pre, c.IsAltCall ∨ c = Call.ResetLoadParams) ∧
      (post = [] ∨ post = [Call.EnableAltPicture true, Call.Bind]) ∧
      (hdrBranch exampleMethods { FormatInput.none with hdrExposure := some 3 }
        (exampleHDR 0 false)).state.calls =
        (exampleHDR 0 false).calls ++ pre ++ [Call.Unload, Call.Load] ++ post :=
  (C12_changed_params_reload exampleMethods exampleFlagTable
    { PropertiesInput.none with format := { FormatInput.none with hdrExposure := some 3 } }
    (exampleHDR 0 false)
    (by
      simp [LoadParamsInRange, exampleHDR, exampleOfType, exampleFrames, exampleCubemap]
      norm_num)).1 _ rfl
    (fun heq => absurd (congrArg (fun p => p.2.2.2.2.2.1.Exposure) heq) (by decide))

/-- The flag before the reload in the DDS, PVR and KTX/KTX2 cases. -/
theorem altEnabledBeforeReload_multi (inp : FormatInput) (s : PanelState)
    (hft : s.CurrImage.Filetype = tFileType.DDS ∨ s.CurrImage.Filetype = tFileType.PVR ∨
      s.CurrImage.Filetype = tFileType.KTX ∨ s.CurrImage.Filetype = tFileType.KTX2) :
    altEnabledBeforeReload inp s =
      (DoMultiSurface inp.multi s).map (fun q => q.1.CurrImage.AltPictureEnabled) := by
  unfold altEnabledBeforeReload
  rcases hft with hf | hf | hf | hf <;> simp only [hf]

/-- The flag before the reload in the other cases. -/
theorem altEnabledBeforeReload_plain (inp : FormatInput) (s : PanelState)
    (hft : ¬ (s.CurrImage.Filetype = tFileType.DDS ∨ s.CurrImage.Filetype = tFileType.PVR ∨
      s.CurrImage.Filetype = tFileType.KTX ∨ s.CurrImage.Filetype = tFileType.KTX2)) :
    altEnabledBeforeReload inp s = some s.CurrImage.AltPictureEnabled := by
  unfold altEnabledBeforeReload
  cases hf : s.CurrImage.Filetype <;> simp only [] <;>
    exact absurd (by simp [hf]) hft

/-- C14.  For every format case of `ShowPropertiesWindow` (DDS, PVR, KTX/KTX2, ASTC, PKM,
HDR, EXR, TGA), on an image whose alternate picture is enabled only if it is of a format
that has one (DDS, PVR, KTX, KTX2): whenever the case performs a reload and the alternate
picture was enabled before the reload, the calls of the case end with `Unload`, `Load`,
`EnableAltPicture(true)`, `Bind`, in that order, preceded only by calls of `DoMultiSurface`
and of the Reset button.  In detail: in the DDS, PVR and KTX/KTX2 cases the flag is the one
read after `DoMultiSurface` (lines 202, 323 and 462), the value on entry when the controls of
`DoMultiSurface` are not operated; with the flag clear the reload is `Unload`, `Load`; these
cases end the pass, so the calls of the case are the calls of the pass.  In the ASTC, PKM,
HDR, EXR and TGA cases the alternate picture is not enabled and the reload is `Unload`,
`Load`. -/
theorem C14_reload_sequence (m : ImageMethods) (t : LoadFlagTable) (inp : PropertiesInput)
    (s : PanelState) (r : SectionResult)
    (hadm : AltPictureOnMultiSurface s.CurrImage)
    (h : fileTypeSection m t inp.format s = some r) (hr : r.reloadChanges = true) :
    (altEnabledBeforeReload inp.format s = some true →
      ∃ pre, (∀ c ∈ pre, c.IsAltCall ∨ c = Call.ResetLoadParams) ∧
        r.state.calls =
          s.calls ++ pre ++
            [Call.Unload, Call.Load, Call.EnableAltPicture true, Call.Bind]) ∧
    ((s.CurrImage.Filetype = tFileType.DDS ∨ s.CurrImage.Filetype = tFileType.PVR ∨
        s.CurrImage.Filetype = tFileType.KTX ∨ s.CurrImage.Filetype = tFileType.KTX2) →
      (∃ q pre, DoMultiSurface inp.format.multi s = some q ∧ (∀ c ∈ pre, c.IsAltCall) ∧
        r.state.calls =
          s.calls ++ pre ++ (if inp.format.reset = true then [Call.ResetLoadParams] else []) ++
            (if q.1.CurrImage.AltPictureEnabled = true
              then [Call.Unload, Call.Load, Call.EnableAltPicture true, Call.Bind]
              else [Call.Unload, Call.Load])) ∧
      (inp.format.multi = MultiSurfaceInput.none → s.CurrImage.AltPictureEnabled = true →
        r.state.calls =
          s.calls ++ (if inp.format.reset = true then [Call.ResetLoadParams] else []) ++
            [Call.Unload, Call.Load, Call.EnableAltPicture true, Call.Bind]) ∧
      (inp.beginReturned = true → s.CurrImage.IsLoaded = true →
        ShowPropertiesWindow m t inp true s =
          some { state := r.state, reloadChanges := r.reloadChanges })) ∧
    (¬ (s.CurrImage.Filetype = tFileType.DDS ∨ s.CurrImage.Filetype = tFileType.PVR ∨
        s.CurrImage.Filetype = tFileType.KTX ∨ s.CurrImage.Filetype = tFileType.KTX2) →
      s.CurrImage.AltPictureEnabled = false ∧
      altEnabledBeforeReload inp.format s = some false ∧
      r.state.calls =
        s.calls ++ (if inp.format.reset = true then [Call.ResetLoadParams] else []) ++
          [Call.Unload, Call.Load]) := by
  have hplain : ¬ (s.CurrImage.Filetype = tFileType.DDS ∨
      s.CurrImage.Filetype = tFileType.PVR ∨ s.CurrImage.Filetype = tFileType.KTX ∨
      s.CurrImage.Filetype = tFileType.KTX2) → s.CurrImage.AltPictureEnabled = false := by
    intro hft
    cases ha : s.CurrImage.AltPictureEnabled
    · rfl
    · exact absurd (hadm ha) hft
  have hmulti : (s.CurrImage.Filetype = tFileType.DDS ∨ s.CurrImage.Filetype = tFileType.PVR ∨
        s.CurrImage.Filetype = tFileType.KTX ∨ s.CurrImage.Filetype = tFileType.KTX2) →
      (∃ q pre, DoMultiSurface inp.format.multi s = some q ∧ (∀ c ∈ pre, c.IsAltCall) ∧
        r.state.calls =
          s.calls ++ pre ++ (if inp.format.reset = true then [Call.ResetLoadParams] else []) ++
            (if q.1.CurrImage.AltPictureEnabled = true
              then [Call.Unload, Call.Load, Call.EnableAltPicture true, Call.Bind]
              else [Call.Unload, Call.Load])) ∧
      (inp.format.multi = MultiSurfaceInput.none → s.CurrImage.AltPictureEnabled = true →
        r.state.calls =
          s.calls ++ (if inp.format.reset = true then [Call.ResetLoadParams] else []) ++
            [Call.Unload, Call.Load, Call.EnableAltPicture true, Call.Bind]) ∧
      (inp.beginReturned = true → s.CurrImage.IsLoaded = true →
        ShowPropertiesWindow m t inp true s =
          some { state := r.state, reloadChanges := r.reloadChanges }) := by
    intro hft
    have hret := multiSurfaceFormat_returned m t inp.format s r hft h
    obtain ⟨q, txt, rc, img, hq, hs⟩ := multiSurfaceFormat_some m t inp.format s r hft h
    rw [hs] at hr
    refine ⟨?_, ?_, ?_⟩
    · obtain ⟨pre, hpre, hc⟩ := multiSurfaceCase_calls m txt inp.format s q hq rc img hr
      exact ⟨q, pre, hq, hpre, by rw [hs, hc]⟩
    · intro hnone halt
      rw [hnone] at hq
      have hqs : q.1 = s := DoMultiSurface_none s q hq
      rw [hs, multiSurfaceTail_calls _ _ _ _ _ _ _ hr, hqs, halt]
      rfl
    · intro hbegin hloaded
      unfold ShowPropertiesWindow
      simp only [hbegin, hloaded, Bool.not_true, Bool.false_eq_true, if_false, h,
        Option.map_some', hret, if_true]
  refine ⟨fun hbefore => ?_, hmulti, fun hft => ⟨hplain hft, ?_,
    plainFormat_reload_calls m t inp.format s r hft h hr⟩⟩
  · by_cases hft : s.CurrImage.Filetype = tFileType.DDS ∨
        s.CurrImage.Filetype = tFileType.PVR ∨ s.CurrImage.Filetype = tFileType.KTX ∨
        s.CurrImage.Filetype = tFileType.KTX2
    · obtain ⟨⟨q, pre, hq, hpre, hc⟩, _, _⟩ := hmulti hft
      rw [altEnabledBeforeReload_multi _ _ hft, hq] at hbefore
      have halt : q.1.CurrImage.AltPictureEnabled = true := Option.some.inj hbefore
      rw [if_pos halt] at hc
      refine ⟨pre ++ (if inp.format.reset = true then [Call.ResetLoadParams] else []), ?_, ?_⟩
      · intro c hcm
        rcases List.mem_append.1 hcm with hc1 | hc2
        · exact Or.inl (hpre c hc1)
        · split_ifs at hc2
          · exact Or.inr (List.mem_singleton.1 hc2)
          · exact absurd hc2 (List.not_mem_nil c)
      · rw [hc]
        simp only [List.append_assoc]
    · rw [altEnabledBeforeReload_plain _ _ hft, hplain hft] at hbefore
      exact absurd (Option.some.inj hbefore) (by decide)
  · rw [altEnabledBeforeReload_plain _ _ hft, hplain hft]

/-- Witness of C14: a DDS image with the alternate picture enabled and the Reset button
pressed. -/
theorem C14_reload_sequence_witness :
    ∃ r, fileTypeSection exampleMethods exampleFlagTable { FormatInput.none with reset := true }
        (exampleAltEnabled tFileType.DDS 1 0) = some r ∧
      altEnabledBeforeReload { FormatInput.none with reset := true }
        (exampleAltEnabled tFileType.DDS 1 0) = some true ∧
      r.state.calls =
        [Call.ResetLoadParams, Call.Unload, Call.Load, Call.EnableAltPicture true, Call.Bind] :=
  ⟨_, rfl, rfl,
    ((C14_reload_sequence exampleMethods exampleFlagTable
      { PropertiesInput.none with format := { FormatInput.none with reset := true } }
      (exampleAltEnabled tFileType.DDS 1 0) _ (fun _ => Or.inl rfl) rfl (by decide)).2.1
        (Or.inl rfl)).2.1 rfl rfl⟩

/-- C16. For a Radiance HDR image, every initial integer value of `LoadParams_HDR.Exposure`
and every integer the user enters (or no edit at all): lines 772-777 store the entered (or
initial) value clamped into `[-10, 10]`; after the HDR case with Reset not pressed the
stored exposure is that value; and a pass of `ShowPropertiesWindow` through the open window
on the loaded image, with Reset not pressed, completes with that value stored, an integer in
`[-10, 10]`.  The methods `Unload`, `Load`, `Play`, `Stop` and `SetFrameDuration` are assumed
to keep the load-parameter records. -/
theorem C16_hdr_exposure_clamped (m : ImageMethods) (t : LoadFlagTable)
    (inp : PropertiesInput) (s : PanelState) (hft : s.CurrImage.Filetype = tFileType.HDR)
    (hbegin : inp.beginReturned = true) (hloaded : s.CurrImage.IsLoaded = true)
    (hm : m.ReloadKeepsParams) (hm2 : m.PlaybackKeepsParams)
    (hreset : inp.format.reset = false) :
    (hdrEdits inp.format s.CurrImage.LoadParams_HDR).params.Exposure =
      tiClamp (inp.format.hdrExposure.getD s.CurrImage.LoadParams_HDR.Exposure) (-10) 10 ∧
    (hdrBranch m inp.format s).state.CurrImage.LoadParams_HDR.Exposure =
      tiClamp (inp.format.hdrExposure.getD s.CurrImage.LoadParams_HDR.Exposure) (-10) 10 ∧
    ∃ p, ShowPropertiesWindow m t inp true s = some p ∧
      p.state.CurrImage.LoadParams_HDR.Exposure =
        tiClamp (inp.format.hdrExposure.getD s.CurrImage.LoadParams_HDR.Exposure) (-10) 10 ∧
      -10 ≤ p.state.CurrImage.LoadParams_HDR.Exposure ∧
      p.state.CurrImage.LoadParams_HDR.Exposure ≤ 10 := by
  have he : (hdrEdits inp.format s.CurrImage.LoadParams_HDR).params.Exposure =
      tiClamp (inp.format.hdrExposure.getD s.CurrImage.LoadParams_HDR.Exposure) (-10) 10 := by
    unfold hdrEdits
    exact hdrExposureField_fst _ _
  have hb : (hdrBranch m inp.format s).state.CurrImage.LoadParams_HDR.Exposure =
      tiClamp (inp.format.hdrExposure.getD s.CurrImage.LoadParams_HDR.Exposure) (-10) 10 := by
    rw [hdrBranch_params m inp.format s hm hreset, he]
  have hf : fileTypeSection m t inp.format s = some (hdrBranch m inp.format s) := by
    unfold fileTypeSection
    simp only [hft]
  have hsome : (ShowPropertiesWindow m t inp true s).isSome = true := by
    unfold ShowPropertiesWindow
    simp only [hbegin, hloaded, Bool.not_true, Bool.false_eq_true, if_false, hf,
      Option.map_some', Option.isSome_some]
  cases hp : ShowPropertiesWindow m t inp true s with
  | none => rw [hp] at hsome; exact absurd hsome (by decide)
  | some p =>
    obtain ⟨r, hr, _, hpar⟩ := ShowPropertiesWindow_params m t inp s p hm2 hbegin hloaded hp
    rw [hf] at hr
    simp only [Option.some.injEq] at hr
    subst hr
    have hx : p.state.CurrImage.LoadParams_HDR.Exposure =
        tiClamp (inp.format.hdrExposure.getD s.CurrImage.LoadParams_HDR.Exposure) (-10) 10 := by
      have := congrArg (fun x => x.2.2.2.2.2.1.Exposure) hpar
      exact this.trans hb
    refine ⟨he, hb, p, rfl, hx, ?_⟩
    rw [hx]
    exact tiClamp_mem _ (-10) 10 (by decide)

/-- Witness of C16: stored exposure 0, the user enters 25, and 10 is stored. -/
theorem C16_hdr_exposure_clamped_witness :
    (hdrBranch exampleMethods { FormatInput.none with hdrExposure := some 25 }
      (exampleHDR 0 false)).state.CurrImage.LoadParams_HDR.Exposure =
      tiClamp ((some 25 : Option Int).getD 0) (-10) 10 :=
  (C16_hdr_exposure_clamped exampleMethods exampleFlagTable
    { PropertiesInput.none with format := { FormatInput.none with hdrExposure := some 25 } }
    (exampleHDR 0 false) rfl rfl rfl (fun _ => ⟨rfl, rfl⟩)
    (fun _ => ⟨rfl, rfl, fun _ _ => rfl⟩) rfl).2.1

/-- The pass completes when the file-type section does. -/
theorem ShowPropertiesWindow_isSome (m : ImageMethods) (t : LoadFlagTable)
    (inp : PropertiesInput) (hasCurrImage : Bool) (s : PanelState)
    (h6 : s.CurrImage.AltCubemapPictureAvail = true → 6 ≤ s.CurrImage.NumFrames)
    (hi : s.CurrImage.NumFrames ≤ INT_MAX) :
    (ShowPropertiesWindow m t inp hasCurrImage s).isSome = true := by
  have hs := fileTypeSection_isSome m t inp.format s h6 hi
  unfold ShowPropertiesWindow
  split_ifs
  · rfl
  · rfl
  · rfl
  · cases hq : fileTypeSection m t inp.format s with
    | none => rw [hq] at hs; exact absurd hs (by decide)
    | some q => rfl

/-- C17. For a pass of `ShowPropertiesWindow` through the open window on a loaded image,
every user input with Reset not pressed and every initial record, the real-valued fields
stored after the pass lie in their declared inclusive ranges whenever the field's editor is
shown in the pass, whether or not the user committed a value through it: Gamma in
`[0.5, 4.0]` for DDS, PVR, KTX/KTX2, PKM (and ASTC) when the "Gamma Corr" combo stands at
Gamma (the local `gammaMode` is 1); Exposure in `[0.0, 4.0]` for DDS and PVR with an HDR or
ASTC pixel format, for KTX/KTX2 under the condition of lines 508-512 (and always for ASTC);
MaxRange in `[0.01, 128.0]` for PVR with an RGBM or RGBD pixel format; Gamma in `[0.6, 3.0]`
for HDR and EXR; for EXR Exposure in `[-10.0, 10.0]`, Defog in `[0.0, 0.1]`, KneeLow in
`[-3.0, 3.0]` and KneeHigh in `[3.5, 7.5]`.  The methods `Unload`, `Load`, `Play`, `Stop` and
`SetFrameDuration` are assumed to keep the load-parameter records; the pass completes
whenever a cubemap picture comes with at least 6 frames.  Real values are rationals here. -/
theorem C17_real_fields_in_range (m : ImageMethods) (t : LoadFlagTable)
    (inp : PropertiesInput) (s : PanelState)
    (hbegin : inp.beginReturned = true) (hloaded : s.CurrImage.IsLoaded = true)
    (hm : m.ReloadKeepsParams) (hm2 : m.PlaybackKeepsParams)
    (hreset : inp.format.reset = false) :
    (∀ p, ShowPropertiesWindow m t inp true s = some p →
      (s.CurrImage.Filetype = tFileType.DDS →
        ((ddsEdits t.DDS inp.format s.CurrImage.Info s.CurrImage.LoadParams_DDS).gammaMode = 1 →
          0.5 ≤ p.state.CurrImage.LoadParams_DDS.Gamma ∧
            p.state.CurrImage.LoadParams_DDS.Gamma ≤ 4.0) ∧
        (showExposure s.CurrImage.Info = true →
          0.0 ≤ p.state.CurrImage.LoadParams_DDS.Exposure ∧
            p.state.CurrImage.LoadParams_DDS.Exposure ≤ 4.0)) ∧
      (s.CurrImage.Filetype = tFileType.PVR →
        ((pvrEdits t.PVR inp.format s.CurrImage.Info s.CurrImage.LoadParams_PVR).gammaMode = 1 →
          0.5 ≤ p.state.CurrImage.LoadParams_PVR.Gamma ∧
            p.state.CurrImage.LoadParams_PVR.Gamma ≤ 4.0) ∧
        (showExposure s.CurrImage.Info = true →
          0.0 ≤ p.state.CurrImage.LoadParams_PVR.Exposure ∧
            p.state.CurrImage.LoadParams_PVR.Exposure ≤ 4.0) ∧
        (s.CurrImage.Info.IsRGBMOrRGBD = true →
          0.01 ≤ p.state.CurrImage.LoadParams_PVR.MaxRange ∧
            p.state.CurrImage.LoadParams_PVR.MaxRange ≤ 128.0)) ∧
      (s.CurrImage.Filetype = tFileType.KTX ∨ s.CurrImage.Filetype = tFileType.KTX2 →
        ((ktxEdits t.KTX inp.format s.CurrImage.Info s.CurrImage.LoadParams_KTX).gammaMode = 1 →
          0.5 ≤ p.state.CurrImage.LoadParams_KTX.Gamma ∧
            p.state.CurrImage.LoadParams_KTX.Gamma ≤ 4.0) ∧
        (showExposureKTX s.CurrImage.Info = true →
          0.0 ≤ p.state.CurrImage.LoadParams_KTX.Exposure ∧
            p.state.CurrImage.LoadParams_KTX.Exposure ≤ 4.0)) ∧
      (s.CurrImage.Filetype = tFileType.ASTC →
        ((astcEdits t.ASTC inp.format s.CurrImage.LoadParams_ASTC).gammaMode = 1 →
          0.5 ≤ p.state.CurrImage.LoadParams_ASTC.Gamma ∧
            p.state.CurrImage.LoadParams_ASTC.Gamma ≤ 4.0) ∧
        0.0 ≤ p.state.CurrImage.LoadParams_ASTC.Exposure ∧
          p.state.CurrImage.LoadParams_ASTC.Exposure ≤ 4.0) ∧
      (s.CurrImage.Filetype = tFileType.PKM →
        (pkmEdits t.PKM inp.format s.CurrImage.Info s.CurrImage.LoadParams_PKM).gammaMode = 1 →
          0.5 ≤ p.state.CurrImage.LoadParams_PKM.Gamma ∧
            p.state.CurrImage.LoadParams_PKM.Gamma ≤ 4.0) ∧
      (s.CurrImage.Filetype = tFileType.HDR →
        0.6 ≤ p.state.CurrImage.LoadParams_HDR.Gamma ∧
          p.state.CurrImage.LoadParams_HDR.Gamma ≤ 3.0) ∧
      (s.CurrImage.Filetype = tFileType.EXR →
        (0.6 ≤ p.state.CurrImage.LoadParams_EXR.Gamma ∧
          p.state.CurrImage.LoadParams_EXR.Gamma ≤ 3.0) ∧
        (-10.0 ≤ p.state.CurrImage.LoadParams_EXR.Exposure ∧
          p.state.CurrImage.LoadParams_EXR.Exposure ≤ 10.0) ∧
        (0.0 ≤ p.state.CurrImage.LoadParams_EXR.Defog ∧
          p.state.CurrImage.LoadParams_EXR.Defog ≤ 0.1) ∧
        (-3.0 ≤ p.state.CurrImage.LoadParams_EXR.KneeLow ∧
          p.state.CurrImage.LoadParams_EXR.KneeLow ≤ 3.0) ∧
        (3.5 ≤ p.state.CurrImage.LoadParams_EXR.KneeHigh ∧
          p.state.CurrImage.LoadParams_EXR.KneeHigh ≤ 7.5))) ∧
    ((s.CurrImage.AltCubemapPictureAvail = true → 6 ≤ s.CurrImage.NumFrames) →
      s.CurrImage.NumFrames ≤ INT_MAX →
      (ShowPropertiesWindow m t inp true s).isSome = true) := by
  refine ⟨?_, fun h6 hi => ShowPropertiesWindow_isSome m t inp true s h6 hi⟩
  intro p hp
  obtain ⟨r, h, _, hpar⟩ := ShowPropertiesWindow_params m t inp s p hm2 hbegin hloaded hp
  have p1 : p.state.CurrImage.LoadParams_DDS = r.state.CurrImage.LoadParams_DDS :=
    congrArg (fun x => x.1) hpar
  have p2 : p.state.CurrImage.LoadParams_PVR = r.state.CurrImage.LoadParams_PVR :=
    congrArg (fun x => x.2.1) hpar
  have p3 : p.state.CurrImage.LoadParams_KTX = r.state.CurrImage.LoadParams_KTX :=
    congrArg (fun x => x.2.2.1) hpar
  have p4 : p.state.CurrImage.LoadParams_ASTC = r.state.CurrImage.LoadParams_ASTC :=
    congrArg (fun x => x.2.2.2.1) hpar
  have p5 : p.state.CurrImage.LoadParams_PKM = r.state.CurrImage.LoadParams_PKM :=
    congrArg (fun x => x.2.2.2.2.1) hpar
  have p6 : p.state.CurrImage.LoadParams_HDR = r.state.CurrImage.LoadParams_HDR :=
    congrArg (fun x => x.2.2.2.2.2.1) hpar
  have p7 : p.state.CurrImage.LoadParams_EXR = r.state.CurrImage.LoadParams_EXR :=
    congrArg (fun x => x.2.2.2.2.2.2.1) hpar
  rw [p1, p2, p3, p4, p5, p6, p7]
  unfold fileTypeSection at h
  refine ⟨fun hf => ?_, fun hf => ?_, fun hf => ?_, fun hf => ?_, fun hf => ?_, fun hf => ?_,
    fun hf => ?_⟩
  · simp only [hf] at h
    rw [ddsBranch_params m _ inp.format s r h hm hreset]
    exact ddsEdits_range _ _ _ _
  · simp only [hf] at h
    rw [pvrBranch_params m _ inp.format s r h hm hreset]
    exact pvrEdits_range _ _ _ _
  · have h2 : ktxBranch m t.KTX inp.format s = some r := by
      rcases hf with hf | hf <;> simp only [hf] at h <;> exact h
    rw [ktxBranch_params m _ inp.format s r h2 hm hreset]
    exact ktxEdits_range _ _ _ _
  · simp only [hf, Option.some.injEq] at h
    subst h
    rw [astcBranch_params m _ inp.format s hm hreset]
    exact astcEdits_range _ _ _
  · simp only [hf, Option.some.injEq] at h
    subst h
    rw [pkmBranch_params m _ inp.format s hm hreset]
    exact pkmEdits_range _ _ _ _
  · simp only [hf, Option.some.injEq] at h
    subst h
    rw [hdrBranch_params m inp.format s hm hreset]
    exact hdrEdits_range _ _
  · simp only [hf, Option.some.injEq] at h
    subst h
    rw [exrBranch_params m inp.format s hm hreset]
    exact exrEdits_range _ _

/-- Witness of C17: an OpenEXR image and a pass in which the user enters 100 in the
"Knee High" field; the pass completes and the stored value lies in `[3.5, 7.5]`. -/
theorem C17_real_fields_in_range_witness :
    ∃ p, ShowPropertiesWindow exampleMethods exampleFlagTable
        { PropertiesInput.none with format := { FormatInput.none with kneeHigh := some 100 } }
        true (exampleOfType tFileType.EXR 1 0) = some p ∧
      3.5 ≤ p.state.CurrImage.LoadParams_EXR.KneeHigh ∧
      p.state.CurrImage.LoadParams_EXR.KneeHigh ≤ 7.5 :=
  ⟨_, rfl,
    (((C17_real_fields_in_range exampleMethods exampleFlagTable
      { PropertiesInput.none with format := { FormatInput.none with kneeHigh := some 100 } }
      (exampleOfType tFileType.EXR 1 0) rfl rfl (fun _ => ⟨rfl, rfl⟩)
      (fun _ => ⟨rfl, rfl, fun _ _ => rfl⟩) rfl).1 _ rfl).2.2.2.2.2.2 rfl).2.2.2.2⟩

/-! ## Theorems on the gamma mode read from and written to the flags -/

/-- Bit `p` of the flags after a combo selection, for any flag constants. -/
theorem gammaComboSelect_bit (b : GammaFlagBits) (F : Nat) (gammaMode : Int) (p : Nat) :
    (gammaComboSelect b F gammaMode).testBit p =
      ((((F.testBit p && (decide (p < 32) &&
          !((b.LoadFlag_GammaCompression ||| b.LoadFlag_SRGBCompression |||
            b.LoadFlag_AutoGamma).testBit p)))
        || (decide (gammaMode = 1) && b.LoadFlag_GammaCompression.testBit p))
        || (decide (gammaMode = 2) && b.LoadFlag_SRGBCompression.testBit p))
        || (decide (gammaMode = 3) && b.LoadFlag_AutoGamma.testBit p)) := by
  unfold gammaComboSelect
  simp only []
  by_cases h1 : gammaMode = 1 <;> by_cases h2 : gammaMode = 2 <;> by_cases h3 : gammaMode = 3 <;>
    simp [h1, h2, h3, Nat.testBit_or, Nat.testBit_and, not32_testBit]

/-- A bit outside the three gamma constants keeps its value through a combo selection on a
32-bit flags word. -/
theorem gammaComboSelect_other_bit (b : GammaFlagBits) (F : Nat) (gammaMode : Int) (p : Nat)
    (hF : F < 2 ^ 32)
    (hp : (b.LoadFlag_GammaCompression ||| b.LoadFlag_SRGBCompression |||
      b.LoadFlag_AutoGamma).testBit p = false) :
    (gammaComboSelect b F gammaMode).testBit p = F.testBit p := by
  rw [gammaComboSelect_bit, hp]
  simp only [Nat.testBit_or, Bool.or_eq_false_iff] at hp
  obtain ⟨⟨h1, h2⟩, h3⟩ := hp
  rw [h1, h2, h3]
  by_cases h32 : p < 32
  · simp [h32]
  · have : F.testBit p = false :=
      Nat.testBit_lt_two_pow (lt_of_lt_of_le hF (Nat.pow_le_pow_right (by norm_num) (by omega)))
    simp [this]

/-- A flag constant that shares no bit with the three gamma constants reads the same before
and after a combo selection on a 32-bit flags word. -/
theorem gammaComboSelect_other_flag (b : GammaFlagBits) (F : Nat) (gammaMode : Int) (f : Nat)
    (hF : F < 2 ^ 32)
    (hf : f &&& (b.LoadFlag_GammaCompression ||| b.LoadFlag_SRGBCompression |||
      b.LoadFlag_AutoGamma) = 0) :
    gammaComboSelect b F gammaMode &&& f = F &&& f := by
  apply Nat.eq_of_testBit_eq
  intro p
  rw [Nat.testBit_and, Nat.testBit_and]
  cases hfp : f.testBit p with
  | false => simp
  | true =>
    have hm : (b.LoadFlag_GammaCompression ||| b.LoadFlag_SRGBCompression |||
        b.LoadFlag_AutoGamma).testBit p = false := by
      have := congrArg (fun x => x.testBit p) hf
      simp only [Nat.testBit_and, hfp, Bool.true_and, Nat.zero_testBit] at this
      exact this
    rw [gammaComboSelect_other_bit b F gammaMode p hF hm]

/-- The mode read from the flags, by priority. -/
theorem readGammaMode_eq (b : GammaFlagBits) (F : Nat) :
    readGammaMode b F =
      if flagSet F b.LoadFlag_AutoGamma = true then 3
      else if flagSet F b.LoadFlag_SRGBCompression = true then 2
      else if flagSet F b.LoadFlag_GammaCompression = true then 1
      else 0 := by
  unfold readGammaMode
  simp only []

/-- C23. For every mode `k` in {0 None, 1 Gamma, 2 sRGB, 3 Auto}, every initial `Flags` value
and flag constants that are three distinct single bits: the flags written by the "Gamma Corr"
combo for the selection `k` (lines 216-219) are read back as mode `k` by lines 205-211, and so
the next pass, in which the combo reports no selection, shows mode `k` and leaves the flags
as written. -/
theorem C23_gamma_mode_roundtrip (b : GammaFlagBits) (hb : b.DistinctSingleBits)
    (Flags : Nat) (k : Int) (hk0 : 0 ≤ k) (hk3 : k ≤ 3) (r1 r2 : Bool) :
    readGammaMode b (gammaComboSelect b Flags k) = k ∧
    (gammaCorrCombo b (some k) Flags r1).1 = gammaComboSelect b Flags k ∧
    gammaCorrCombo b Option.none (gammaCorrCombo b (some k) Flags r1).1 r2 =
      (gammaComboSelect b Flags k, k, r2) := by
  obtain ⟨g, s, a⟩ := gammaComboSelect_flags b hb Flags k
  have e : readGammaMode b (gammaComboSelect b Flags k) = k := by
    rw [readGammaMode_eq, g, s, a]
    have hk : k = 0 ∨ k = 1 ∨ k = 2 ∨ k = 3 := by omega
    rcases hk with h | h | h | h <;> subst h <;> decide
  refine ⟨e, rfl, ?_⟩
  show (gammaComboSelect b Flags k, readGammaMode b (gammaComboSelect b Flags k), r2) = _
  rw [e]

/-- Witness of C23: flag constants 1, 2 and 4, initial flags 15, mode sRGB. -/
theorem C23_gamma_mode_roundtrip_witness :
    readGammaMode ⟨1, 2, 4⟩ (gammaComboSelect ⟨1, 2, 4⟩ 15 2) = 2 :=
  (C23_gamma_mode_roundtrip ⟨1, 2, 4⟩
    ⟨0, 1, 2, by decide, by decide, by decide, by decide, by decide, by decide, rfl, rfl, rfl⟩
    15 2 (by decide) (by decide) false false).1

/-! ## Theorems on the flags the combo writes and the mode it reads -/

/-- C24. Selecting a mode in the "Gamma Corr" combo (lines 216-219, 476-479 and their
likes) on a 32-bit flags word changes only bits of the three gamma constants: every bit
outside them keeps its value, and every flag constant that shares no bit with them (such as
SwizzleBGR2RGB, ToneMapExposure and SpreadLuminance in the Tacent library) reads the same
before and after.  In a pass whose only interaction is the selection, the editors of the
DDS, PVR, KTX/KTX2, ASTC and PKM cases store these flags and write the numeric fields only
through the clamps that run in every pass in which the editor is shown: the selection itself
writes neither Gamma nor Exposure (nor MaxRange). -/
theorem C24_gamma_select_frame (b : LoadFlagBits) (Flags : Nat) (k : Int)
    (hF : Flags < 2 ^ 32) :
    (∀ p : Nat, (b.LoadFlag_GammaCompression ||| b.LoadFlag_SRGBCompression |||
        b.LoadFlag_AutoGamma).testBit p = false →
      (gammaComboSelect b.toGammaFlagBits Flags k).testBit p = Flags.testBit p) ∧
    (∀ f : Nat, f &&& (b.LoadFlag_GammaCompression ||| b.LoadFlag_SRGBCompression |||
        b.LoadFlag_AutoGamma) = 0 →
      gammaComboSelect b.toGammaFlagBits Flags k &&& f = Flags &&& f ∧
      flagSet (gammaComboSelect b.toGammaFlagBits Flags k) f = flagSet Flags f) ∧
    (∀ (r : Bool), gammaCorrCombo b.toGammaFlagBits (some k) Flags r =
      (gammaComboSelect b.toGammaFlagBits Flags k, k, true)) ∧
    (∀ (info : ImgInfo) (p : LoadParamsDDS),
      (ddsEdits b (FormatInput.gammaCorrOnly k) info p).params =
        { Flags := gammaComboSelect b.toGammaFlagBits p.Flags k,
          Gamma := if k = 1 then tiClamp p.Gamma 0.5 4.0 else p.Gamma,
          Exposure := if showExposure info = true then tiClamp p.Exposure 0.0 4.0
            else p.Exposure }) ∧
    (∀ (info : ImgInfo) (p : LoadParamsPVR),
      (pvrEdits b (FormatInput.gammaCorrOnly k) info p).params =
        { Flags := gammaComboSelect b.toGammaFlagBits p.Flags k,
          Gamma := if k = 1 then tiClamp p.Gamma 0.5 4.0 else p.Gamma,
          Exposure := if showExposure info = true then tiClamp p.Exposure 0.0 4.0
            else p.Exposure,
          MaxRange := if info.IsRGBMOrRGBD = true then tiClamp p.MaxRange 0.01 128.0
            else p.MaxRange }) ∧
    (∀ (info : ImgInfo) (p : LoadParamsKTX),
      (ktxEdits b (FormatInput.gammaCorrOnly k) info p).params =
        { Flags := gammaComboSelect b.toGammaFlagBits p.Flags k,
          Gamma := if k = 1 then tiClamp p.Gamma 0.5 4.0 else p.Gamma,
          Exposure := if showExposureKTX info = true then tiClamp p.Exposure 0.0 4.0
            else p.Exposure }) ∧
    (∀ (p : LoadParamsASTC),
      (astcEdits b (FormatInput.gammaCorrOnly k) p).params =
        { Profile := p.Profile, Flags := gammaComboSelect b.toGammaFlagBits p.Flags k,
          Gamma := if k = 1 then tiClamp p.Gamma 0.5 4.0 else p.Gamma,
          Exposure := tiClamp p.Exposure 0.0 4.0 }) ∧
    (∀ (info : ImgInfo) (p : LoadParamsPKM),
      (pkmEdits b (FormatInput.gammaCorrOnly k) info p).params =
        { Flags := gammaComboSelect b.toGammaFlagBits p.Flags k,
          Gamma := if k = 1 then tiClamp p.Gamma 0.5 4.0 else p.Gamma }) := by
  refine ⟨fun p hp => gammaComboSelect_other_bit _ Flags k p hF hp, fun f hf => ?_,
    fun r => rfl, fun info p => ?_, fun info p => ?_, fun info p => ?_, fun p => ?_,
    fun info p => ?_⟩
  · have e := gammaComboSelect_other_flag b.toGammaFlagBits Flags k f hF hf
    exact ⟨e, by unfold flagSet; rw [e]⟩
  · unfold ddsEdits
    simp only [FormatInput.gammaCorrOnly, FormatInput.none, CheckboxFlags, gammaCorrCombo,
      gammaField, floatField, exposureBlock, Bool.false_eq_true, if_false, ite_self]
    split_ifs <;> rfl
  · unfold pvrEdits
    simp only [FormatInput.gammaCorrOnly, FormatInput.none, CheckboxFlags, gammaCorrCombo,
      gammaField, floatField, exposureBlock, Bool.false_eq_true, if_false, ite_self]
    split_ifs <;> rfl
  · unfold ktxEdits
    simp only [FormatInput.gammaCorrOnly, FormatInput.none, CheckboxFlags, gammaCorrCombo,
      gammaField, floatField, exposureBlock, Bool.false_eq_true, if_false, ite_self]
    split_ifs <;> rfl
  · unfold astcEdits
    simp only [FormatInput.gammaCorrOnly, FormatInput.none, CheckboxFlags, gammaCorrCombo,
      gammaField, floatField, exposureBlock, Bool.false_eq_true, if_false, ite_self]
    split_ifs <;> rfl
  · unfold pkmEdits
    simp only [FormatInput.gammaCorrOnly, FormatInput.none, CheckboxFlags, gammaCorrCombo,
      gammaField, floatField, exposureBlock, Bool.false_eq_true, if_false, ite_self]
    split_ifs <;> rfl

/-- Witness of C24: the example flag constants (gamma bits 1, 2, 4; ToneMapExposure 16),
flags 17 (Gamma and ToneMapExposure set), mode sRGB selected: the ToneMapExposure flag reads
the same. -/
theorem C24_gamma_select_frame_witness :
    gammaComboSelect exampleFlagBits.toGammaFlagBits 17 2 &&& 16 = 17 &&& 16 ∧
      flagSet (gammaComboSelect exampleFlagBits.toGammaFlagBits 17 2) 16 = flagSet 17 16 :=
  (C24_gamma_select_frame exampleFlagBits 17 2 (by decide)).2.1 16 (by decide)

/-- C25. The mode the panel reads from the flags (lines 205-211 and their likes) is 3 when
the Auto flag is set, whatever the others; otherwise 2 when the sRGB flag is set; otherwise
1 when the Gamma flag is set; otherwise 0.  A pass in which the combo reports no selection
leaves the flags word as it is and shows that mode, and the editors of the DDS, PVR,
KTX/KTX2, ASTC and PKM cases in a pass without interaction store the flags they found: with
all three gamma flags set (constants 1, 2, 4, flags 7) the mode read is 3 and the flags
stay 7. -/
theorem C25_gamma_mode_priority (b : LoadFlagBits) (Flags : Nat) (r : Bool) (info : ImgInfo) :
    readGammaMode b.toGammaFlagBits Flags =
      (if flagSet Flags b.LoadFlag_AutoGamma = true then 3
        else if flagSet Flags b.LoadFlag_SRGBCompression = true then 2
        else if flagSet Flags b.LoadFlag_GammaCompression = true then 1
        else 0) ∧
    gammaCorrCombo b.toGammaFlagBits Option.none Flags r =
      (Flags, readGammaMode b.toGammaFlagBits Flags, r) ∧
    (∀ p : LoadParamsDDS, (ddsEdits b FormatInput.none info p).params.Flags = p.Flags ∧
      (ddsEdits b FormatInput.none info p).gammaMode = readGammaMode b.toGammaFlagBits p.Flags) ∧
    (∀ p : LoadParamsPVR, (pvrEdits b FormatInput.none info p).params.Flags = p.Flags ∧
      (pvrEdits b FormatInput.none info p).gammaMode = readGammaMode b.toGammaFlagBits p.Flags) ∧
    (∀ p : LoadParamsKTX, (ktxEdits b FormatInput.none info p).params.Flags = p.Flags ∧
      (ktxEdits b FormatInput.none info p).gammaMode = readGammaMode b.toGammaFlagBits p.Flags) ∧
    (∀ p : LoadParamsASTC, (astcEdits b FormatInput.none p).params.Flags = p.Flags ∧
      (astcEdits b FormatInput.none p).gammaMode = readGammaMode b.toGammaFlagBits p.Flags) ∧
    (∀ p : LoadParamsPKM, (pkmEdits b FormatInput.none info p).params.Flags = p.Flags ∧
      (pkmEdits b FormatInput.none info p).gammaMode = readGammaMode b.toGammaFlagBits p.Flags) ∧
    (readGammaMode ⟨1, 2, 4⟩ 7 = 3 ∧ readGammaMode ⟨1, 2, 4⟩ 6 = 3 ∧
      readGammaMode ⟨1, 2, 4⟩ 3 = 2 ∧ gammaCorrCombo ⟨1, 2, 4⟩ Option.none 7 false = (7, 3, false) ∧
      (ddsEdits exampleFlagBits FormatInput.none exampleInfo
        { Flags := 7, Gamma := 2, Exposure := 1 }).params.Flags = 7) := by
  refine ⟨readGammaMode_eq _ _, rfl, fun p => ?_, fun p => ?_, fun p => ?_, fun p => ?_,
    fun p => ?_, by decide⟩
  · unfold ddsEdits
    simp only [FormatInput.none, CheckboxFlags, gammaCorrCombo, exposureBlock,
      Bool.false_eq_true, if_false, ite_self, and_self]
    exact ⟨by split_ifs <;> rfl, trivial⟩
  · unfold pvrEdits
    simp only [FormatInput.none, CheckboxFlags, gammaCorrCombo, exposureBlock,
      Bool.false_eq_true, if_false, ite_self, and_self]
    exact ⟨by split_ifs <;> rfl, trivial⟩
  · unfold ktxEdits
    simp only [FormatInput.none, CheckboxFlags, gammaCorrCombo, exposureBlock,
      Bool.false_eq_true, if_false, ite_self, and_self]
    exact ⟨by split_ifs <;> rfl, trivial⟩
  · unfold astcEdits
    simp only [FormatInput.none, CheckboxFlags, gammaCorrCombo, exposureBlock,
      Bool.false_eq_true, if_false, ite_self, and_self]
  · unfold pkmEdits
    simp only [FormatInput.none, CheckboxFlags, gammaCorrCombo, exposureBlock,
      Bool.false_eq_true, if_false, ite_self, and_self]

/-! ## Theorem on the value returned by `DoMultiSurface` -/

theorem mipmapsSection_anyDraw (inp : MultiSurfaceInput) (s : PanelState) :
    (mipmapsSection inp s).2 =
      ((s.CurrImage.IsTextureArray && decide (s.CurrImage.NumMipLevels > 1)) ||
        (s.CurrImage.AltMipmapsPictureAvail && !s.CropMode)) := by
  unfold mipmapsSection
  simp only []
  by_cases h1 : (s.CurrImage.IsTextureArray && decide (s.CurrImage.NumMipLevels > 1)) = true
  · rw [if_pos h1, h1]
    rfl
  · rw [if_neg h1]
    by_cases h2 : (s.CurrImage.AltMipmapsPictureAvail && !s.CropMode) = true
    · rw [if_pos h2, h2, Bool.or_true]
    · rw [if_neg h2]
      simp only [Bool.not_eq_true] at h1 h2
      rw [h1, h2]
      rfl

theorem cubemapSection_anyDraw (inp : MultiSurfaceInput) (s : PanelState) (anyDraw : Bool) :
    (cubemapSection inp s anyDraw).2 =
      ((s.CurrImage.AltCubemapPictureAvail && !s.CropMode) || anyDraw) := by
  unfold cubemapSection
  simp only []
  by_cases h1 : (s.CurrImage.AltCubemapPictureAvail && !s.CropMode) = true
  · rw [if_pos h1, h1]
    rfl
  · rw [if_neg h1]
    simp only [Bool.not_eq_true] at h1
    rw [h1]
    rfl

theorem frameSection_anyDraw (inp : MultiSurfaceInput) (s : PanelState) (anyDraw : Bool)
    (r : PanelState × Bool) (h : frameSection inp s anyDraw = some r) :
    r.2 = (anyDraw || (decide (s.CurrImage.NumFrames ≥ 2) && !s.CurrImage.AltPictureEnabled)) ∧
    r.1.CurrImage.AltPictureEnabled = s.CurrImage.AltPictureEnabled := by
  obtain ⟨n, hn⟩ := frameSection_eq inp s anyDraw r h
  refine ⟨?_, by rw [hn]; rfl⟩
  unfold frameSection at h
  simp only [] at h
  split_ifs at h with g1 g2
  · cases hc : cubeBranch inp s s.CurrImage.NumFrames with
    | none => rw [hc] at h; exact absurd h (by simp)
    | some r1 =>
      rw [hc] at h
      simp only [Option.map_some', Option.some.injEq] at h
      rw [← h, g1]
      simp
  · simp only [Option.some.injEq] at h
    rw [← h, g1]
    simp
  · simp only [Option.some.injEq] at h
    simp only [Bool.not_eq_true] at g1
    rw [← h, g1]
    simp

/-- C27. Whenever `DoMultiSurface` returns, the value it returns (`anyDraw`, true when a
control was drawn) is true if and only if at least one of these holds: the image is a
texture array with more than one mip level; the alternate mipmaps picture is available and
crop mode is off; the alternate cubemap picture is available and crop mode is off; the image
has at least 2 frames and its alternate picture is not enabled when line 90 reads the flag,
after the checkboxes of this pass, which is the flag the function leaves behind.  The value
read by a pass that clicks neither checkbox is the flag on entry.  The function returns
whenever a cubemap picture comes with at least 6 frames. -/
theorem C27_multi_surface_any_draw (inp : MultiSurfaceInput) (s : PanelState) :
    (∀ r, DoMultiSurface inp s = some r →
      (r.2 = true ↔
        ((s.CurrImage.IsTextureArray = true ∧ 1 < s.CurrImage.NumMipLevels) ∨
          (s.CurrImage.AltMipmapsPictureAvail = true ∧ s.CropMode = false) ∨
          (s.CurrImage.AltCubemapPictureAvail = true ∧ s.CropMode = false) ∨
          (2 ≤ s.CurrImage.NumFrames ∧ r.1.CurrImage.AltPictureEnabled = false))) ∧
      r.1.CurrImage.AltPictureEnabled =
        (cubemapSection inp (mipmapsSection inp s).1
          (mipmapsSection inp s).2).1.CurrImage.AltPictureEnabled ∧
      (inp.displayAllMipmaps = false → inp.displayAsCubemap = false →
        r.1.CurrImage.AltPictureEnabled = s.CurrImage.AltPictureEnabled)) ∧
    ((s.CurrImage.AltCubemapPictureAvail = true → 6 ≤ s.CurrImage.NumFrames) →
      s.CurrImage.NumFrames ≤ INT_MAX → (DoMultiSurface inp s).isSome = true) := by
  refine ⟨?_, fun h6 hi => DoMultiSurface_isSome inp s h6 hi⟩
  intro r hr
  obtain ⟨_, a2, a3, a4⟩ := mipmapsSection_fields inp s
  obtain ⟨_, b2, b3, b4⟩ :=
    cubemapSection_fields inp (mipmapsSection inp s).1 (mipmapsSection inp s).2
  unfold DoMultiSurface at hr
  simp only [] at hr
  obtain ⟨f1, f2⟩ := frameSection_anyDraw _ _ _ r hr
  rw [cubemapSection_anyDraw, b2, a2, a3, a4, ← f2, mipmapsSection_anyDraw] at f1
  refine ⟨?_, f2, ?_⟩
  · rw [f1]
    simp only [Bool.or_eq_true, Bool.and_eq_true, decide_eq_true_eq, Bool.not_eq_true',
      gt_iff_lt, ge_iff_le]
    tauto
  · intro h1 h2
    rw [f2]
    unfold cubemapSection mipmapsSection
    simp only [h1, h2, Bool.false_eq_true, if_false]
    split_ifs <;> rfl

/-- Witness of C27: a cubemap with 12 frames outside crop mode; a control is drawn. -/
theorem C27_multi_surface_any_draw_witness :
    ∃ r, DoMultiSurface MultiSurfaceInput.none (exampleCubemap 12 5) = some r ∧ r.2 = true :=
  ⟨_, rfl, ((C27_multi_surface_any_draw MultiSurfaceInput.none (exampleCubemap 12 5)).1 _
    rfl).1.2 (Or.inr (Or.inr (Or.inl ⟨rfl, rfl⟩)))⟩

/-! ## Theorem on the playback row while the image is playing -/

/-- C28. While the image is playing (`FramePlaying` true) a pass in which one button of the
playback row is pressed does this: the button of the opposite direction is disabled and the
press changes nothing; the button of the current direction calls `Stop` on the image as it
is, `FramePlayRev` written with the value it has, and does nothing else; Prev, Next,
Skip-to-begin and Skip-to-end are disabled and the press changes nothing, so `FrameNum`
stays.  When the image is not playing, the reverse button sets `FramePlayRev` to true and
calls `Play`, and the forward button sets it to false and calls `Play`, and nothing else. -/
theorem C28_playback_while_playing (m : ImageMethods) (s : PanelState) (numFrames : Int) :
    (s.CurrImage.FramePlaying = true →
      (s.CurrImage.FramePlayRev = false →
        playbackRow m { PlaybackInput.none with playRev := true } numFrames s = s ∧
        playbackRow m { PlaybackInput.none with playFwd := true } numFrames s = s.Stop m) ∧
      (s.CurrImage.FramePlayRev = true →
        playbackRow m { PlaybackInput.none with playFwd := true } numFrames s = s ∧
        playbackRow m { PlaybackInput.none with playRev := true } numFrames s = s.Stop m) ∧
      playbackRow m { PlaybackInput.none with skipBegin := true } numFrames s = s ∧
      playbackRow m { PlaybackInput.none with prev := true } numFrames s = s ∧
      playbackRow m { PlaybackInput.none with next := true } numFrames s = s ∧
      playbackRow m { PlaybackInput.none with skipEnd := true } numFrames s = s) ∧
    (s.CurrImage.FramePlaying = false →
      playbackRow m { PlaybackInput.none with playRev := true } numFrames s =
        ({ s with CurrImage := { s.CurrImage with FramePlayRev := true } } : PanelState).Play m ∧
      playbackRow m { PlaybackInput.none with playFwd := true } numFrames s =
        ({ s with CurrImage := { s.CurrImage with FramePlayRev := false } }
          : PanelState).Play m) := by
  refine ⟨fun hp => ⟨fun hr => ⟨?_, ?_⟩, fun hr => ⟨?_, ?_⟩, ?_, ?_, ?_, ?_⟩,
    fun hp => ⟨?_, ?_⟩⟩
  · unfold playbackRow
    simp [PlaybackInput.none, loopButton, skipBeginButton, prevButton, playRevButton,
      playFwdButton, nextButton, skipEndButton, playRevEnabled, hp, hr]
  · unfold playbackRow
    simp [PlaybackInput.none, loopButton, skipBeginButton, prevButton, playRevButton,
      playFwdButton, nextButton, skipEndButton, playFwdEnabled, hp, hr]
    congr 1
    rcases s with ⟨img, _, _, _, _, _, _, _⟩
    cases img
    dsimp only at hp hr
    subst hp
    subst hr
    rfl
  · unfold playbackRow
    simp [PlaybackInput.none, loopButton, skipBeginButton, prevButton, playRevButton,
      playFwdButton, nextButton, skipEndButton, playFwdEnabled, hp, hr]
  · unfold playbackRow
    simp [PlaybackInput.none, loopButton, skipBeginButton, prevButton, playRevButton,
      playFwdButton, nextButton, skipEndButton, playRevEnabled, hp, hr]
    congr 1
    rcases s with ⟨img, _, _, _, _, _, _, _⟩
    cases img
    dsimp only at hp hr
    subst hp
    subst hr
    rfl
  · unfold playbackRow
    simp [PlaybackInput.none, loopButton, skipBeginButton, prevButton, playRevButton,
      playFwdButton, nextButton, skipEndButton, prevEnabled, hp]
  · unfold playbackRow
    simp [PlaybackInput.none, loopButton, skipBeginButton, prevButton, playRevButton,
      playFwdButton, nextButton, skipEndButton, prevEnabled, hp]
  · unfold playbackRow
    simp [PlaybackInput.none, loopButton, skipBeginButton, prevButton, playRevButton,
      playFwdButton, nextButton, skipEndButton, nextEnabled, hp]
  · unfold playbackRow
    simp [PlaybackInput.none, loopButton, skipBeginButton, prevButton, playRevButton,
      playFwdButton, nextButton, skipEndButton, nextEnabled, hp]
  · unfold playbackRow
    simp [PlaybackInput.none, loopButton, skipBeginButton, prevButton, playRevButton,
      playFwdButton, nextButton, skipEndButton, playRevEnabled, hp]
  · unfold playbackRow
    simp [PlaybackInput.none, loopButton, skipBeginButton, prevButton, playRevButton,
      playFwdButton, nextButton, skipEndButton, playFwdEnabled, hp]

/-- Witness of C28: three frames at frame 1, playing forward; Next changes nothing and the
forward button stops the image. -/
theorem C28_playback_while_playing_witness :
    playbackRow exampleMethods { PlaybackInput.none with next := true } 3
        { exampleFrames 3 1 with
          CurrImage := { (exampleFrames 3 1).CurrImage with FramePlaying := true } } =
      { exampleFrames 3 1 with
        CurrImage := { (exampleFrames 3 1).CurrImage with FramePlaying := true } } :=
  ((C28_playback_while_playing exampleMethods
    { exampleFrames 3 1 with
      CurrImage := { (exampleFrames 3 1).CurrImage with FramePlaying := true } } 3).1
    rfl).2.2.2.2.1

/-! ## Theorem on the cube side and cube mip edits -/

/-- The cubemap branch with the two edits: the frame number written has the clamped entered
coordinates, and the old coordinate where nothing was entered. -/
theorem cubeBranch_coords (a b : Option Int) (s : PanelState) (m : Int) (hm : 1 ≤ m)
    (hM : 6 * m ≤ 2147483647) (h0 : 0 ≤ s.CurrImage.FrameNum)
    (h1 : s.CurrImage.FrameNum < 6 * m) :
    ∃ s1, cubeBranch (MultiSurfaceInput.cubeEdit a b) s (6 * m) = some s1 ∧
      s1 = s.setFrameNum s1.CurrImage.FrameNum ∧
      0 ≤ s1.CurrImage.FrameNum ∧ s1.CurrImage.FrameNum < 6 * m ∧
      cubeCoords s1.CurrImage.FrameNum m =
        some ((a.map (fun e => tiClamp e 1 6)).getD (s.CurrImage.FrameNum / m + 1),
          (b.map (fun e => tiClamp e 1 m)).getD
            (s.CurrImage.FrameNum - s.CurrImage.FrameNum / m * m + 1)) := by
  obtain ⟨q0, q5, n0, l, u⟩ := quot_bounds hm h0 h1
  have hc := cubeCoords_eq hm (by omega) h0 h1 (by omega)
  have hside : ∀ n : Int, 1 ≤ tiClamp n 1 6 ∧ tiClamp n 1 6 ≤ 6 :=
    fun n => tiClamp_mem n 1 6 (by decide)
  have hmip : ∀ n : Int, 1 ≤ tiClamp n 1 m ∧ tiClamp n 1 m ≤ m := fun n => tiClamp_mem n 1 m hm
  have hr : 1 ≤ s.CurrImage.FrameNum - s.CurrImage.FrameNum / m * m + 1 ∧
      s.CurrImage.FrameNum - s.CurrImage.FrameNum / m * m + 1 ≤ m := by omega
  have hq : 1 ≤ s.CurrImage.FrameNum / m + 1 ∧ s.CurrImage.FrameNum / m + 1 ≤ 6 := by omega
  have R : ∀ face mip : Int, 1 ≤ face → face ≤ 6 → 1 ≤ mip → mip ≤ m →
      s.setFrameNum (cubeFrameNum face mip m) =
        s.setFrameNum (s.setFrameNum (cubeFrameNum face mip m)).CurrImage.FrameNum ∧
      0 ≤ (s.setFrameNum (cubeFrameNum face mip m)).CurrImage.FrameNum ∧
      (s.setFrameNum (cubeFrameNum face mip m)).CurrImage.FrameNum < 6 * m ∧
      cubeCoords (s.setFrameNum (cubeFrameNum face mip m)).CurrImage.FrameNum m =
        some (face, mip) := by
    intro face mip x1 x2 x3 x4
    have r := cubeCoords_cubeFrameNum hm hM x1 x2 x3 x4
    exact ⟨rfl, r.1, r.2.1, r.2.2⟩
  have R2 : ∀ (face mip : Int) (n1 : Int), 1 ≤ face → face ≤ 6 → 1 ≤ mip → mip ≤ m →
      ((s.setFrameNum n1).setFrameNum (cubeFrameNum face mip m)) =
        s.setFrameNum ((s.setFrameNum n1).setFrameNum
          (cubeFrameNum face mip m)).CurrImage.FrameNum ∧
      0 ≤ ((s.setFrameNum n1).setFrameNum (cubeFrameNum face mip m)).CurrImage.FrameNum ∧
      ((s.setFrameNum n1).setFrameNum (cubeFrameNum face mip m)).CurrImage.FrameNum < 6 * m ∧
      cubeCoords ((s.setFrameNum n1).setFrameNum
          (cubeFrameNum face mip m)).CurrImage.FrameNum m = some (face, mip) := by
    intro face mip n1 x1 x2 x3 x4
    have r := cubeCoords_cubeFrameNum hm hM x1 x2 x3 x4
    exact ⟨rfl, r.1, r.2.1, r.2.2⟩
  have hd6 : divInt (6 * m) 6 = some m := numCubeMips_eq hm hM
  unfold cubeBranch numCubeMips
  simp only [hd6, hc, Option.bind_eq_bind, Option.some_bind, Option.pure_def,
    MultiSurfaceInput.cubeEdit, MultiSurfaceInput.none, tFaceIndex_NumFaces]
  cases a with
  | none =>
    cases b with
    | none =>
      by_cases hm1 : m > 1 <;>
        simp only [hm1, decide_True, decide_False, if_true, if_false, Bool.false_eq_true,
          Option.map_none', Option.getD_none] <;>
        exact ⟨_, rfl, rfl, h0, h1, hc⟩
    | some y =>
      by_cases hm1 : m > 1 <;>
        simp only [hm1, decide_True, decide_False, if_true, if_false, Bool.false_eq_true,
          Option.map_none', Option.getD_none, Option.map_some', Option.getD_some]
      · exact ⟨_, rfl, R _ _ hq.1 hq.2 (hmip y).1 (hmip y).2⟩
      · have e1 : tiClamp y 1 m = s.CurrImage.FrameNum - s.CurrImage.FrameNum / m * m + 1 := by
          have := hmip y
          omega
        rw [e1]
        exact ⟨_, rfl, rfl, h0, h1, hc⟩
  | some x =>
    cases b with
    | none =>
      by_cases hm1 : m > 1 <;>
        simp only [hm1, decide_True, decide_False, if_true, if_false, Bool.false_eq_true,
          Option.map_none', Option.getD_none, Option.map_some', Option.getD_some] <;>
        exact ⟨_, rfl, R _ _ (hside x).1 (hside x).2 hr.1 hr.2⟩
    | some y =>
      by_cases hm1 : m > 1 <;>
        simp only [hm1, decide_True, decide_False, if_true, if_false, Bool.false_eq_true,
          Option.map_none', Option.getD_none, Option.map_some', Option.getD_some]
      · exact ⟨_, rfl, R2 _ _ _ (hside x).1 (hside x).2 (hmip y).1 (hmip y).2⟩
      · have e1 : tiClamp y 1 m = s.CurrImage.FrameNum - s.CurrImage.FrameNum / m * m + 1 := by
          have := hmip y
          omega
        rw [e1]
        exact ⟨_, rfl, R _ _ (hside x).1 (hside x).2 hr.1 hr.2⟩

/-- `DoMultiSurface` with at most the two cube edits, on a state that reaches the cubemap
branch: the checkbox sections change nothing and the branch runs on the entry state. -/
theorem DoMultiSurface_cubeEdit (a b : Option Int) (s : PanelState)
    (henter : entersCubeBranch s = true) :
    DoMultiSurface (MultiSurfaceInput.cubeEdit a b) s =
      (cubeBranch (MultiSurfaceInput.cubeEdit a b) s s.CurrImage.NumFrames).map
        (fun s1 => (s1, true)) := by
  have e1 : (mipmapsSection (MultiSurfaceInput.cubeEdit a b) s).1 = s := by
    unfold mipmapsSection
    simp only [MultiSurfaceInput.cubeEdit, MultiSurfaceInput.none, Bool.false_eq_true, if_false]
    split_ifs <;> rfl
  have e2 : ∀ x, (cubemapSection (MultiSurfaceInput.cubeEdit a b) s x).1 = s := by
    intro x
    unfold cubemapSection
    simp only [MultiSurfaceInput.cubeEdit, MultiSurfaceInput.none, Bool.false_eq_true, if_false]
    split_ifs <;> rfl
  unfold entersCubeBranch at henter
  simp only [Bool.and_eq_true] at henter
  unfold DoMultiSurface
  simp only []
  rw [e1, e2]
  unfold frameSection
  simp only []
  rw [if_pos (by simp only [Bool.and_eq_true]; exact henter.1),
    if_pos (by simp only [Bool.and_eq_true]; exact henter.2)]

/-- C22. For a cubemap container with `numFrames = 6 * numCubeMips`, `numCubeMips ≥ 1` (C++
`int` values), `FrameNum` in `[0, numFrames-1]`, on which `DoMultiSurface` runs the cubemap
branch, and a pass in which at most the "Cube Side" and "Cube Mip" fields are edited:
`DoMultiSurface` returns, writes nothing but `FrameNum`, the new `FrameNum` is in
`[0, numFrames-1]`, its derived side (lines 96-97) is the entered side clamped into `[1, 6]`,
or the side it had when the field is not edited, and its derived mip is the entered mip
clamped into `[1, numCubeMips]`, or the mip it had when the field is not edited.  So a Cube
Side edit keeps the mip, and a Cube Mip edit keeps the side.  (With one mip per face the
Cube Mip field is not shown; the only mip is 1.) -/
theorem C22_cube_side_and_mip_edit (side mip : Option Int) (s : PanelState)
    (numCubeMips : Int) (hm : 1 ≤ numCubeMips) (hM : 6 * numCubeMips ≤ INT_MAX)
    (hN : s.CurrImage.NumFrames = 6 * numCubeMips) (hr : FrameNumInRange s)
    (henter : entersCubeBranch s = true) :
    ∃ side0 mip0 r, cubeCoords s.CurrImage.FrameNum numCubeMips = some (side0, mip0) ∧
      DoMultiSurface (MultiSurfaceInput.cubeEdit side mip) s = some r ∧
      r.1 = s.setFrameNum r.1.CurrImage.FrameNum ∧
      FrameNumInRange r.1 ∧
      cubeCoords r.1.CurrImage.FrameNum numCubeMips =
        some ((side.map (fun e => tiClamp e 1 6)).getD side0,
          (mip.map (fun e => tiClamp e 1 numCubeMips)).getD mip0) := by
  unfold INT_MAX at hM
  unfold FrameNumInRange at hr
  rw [hN] at hr
  have h0 := hr.1
  have h1 : s.CurrImage.FrameNum < 6 * numCubeMips := by omega
  obtain ⟨s1, hb, hs, r0, r1, hc⟩ := cubeBranch_coords side mip s numCubeMips hm hM h0 h1
  refine ⟨_, _, (s1, true), cubeCoords_eq hm (by omega) h0 h1 (by omega), ?_, hs, ?_, hc⟩
  · rw [DoMultiSurface_cubeEdit side mip s henter, hN, hb]
    rfl
  · unfold FrameNumInRange
    have hn : s1.CurrImage.NumFrames = 6 * numCubeMips := by
      rw [hs]
      exact hN
    show 0 ≤ s1.CurrImage.FrameNum ∧ s1.CurrImage.FrameNum ≤ s1.CurrImage.NumFrames - 1
    rw [hn]
    omega

/-- Witness of C22: 12 frames (2 mips per face) at frame 5 (side 3, mip 2), and the user
enters 9 as the cube side: the frame becomes 11 (side 6, mip 2). -/
theorem C22_cube_side_and_mip_edit_witness :
    ∃ side0 mip0 r, cubeCoords (exampleCubemap 12 5).CurrImage.FrameNum 2 = some (side0, mip0) ∧
      DoMultiSurface (MultiSurfaceInput.cubeEdit (some 9) Option.none) (exampleCubemap 12 5) =
        some r ∧
      r.1 = (exampleCubemap 12 5).setFrameNum r.1.CurrImage.FrameNum ∧
      FrameNumInRange r.1 ∧
      cubeCoords r.1.CurrImage.FrameNum 2 =
        some (((some 9 : Option Int).map (fun e => tiClamp e 1 6)).getD side0,
          ((Option.none : Option Int).map (fun e => tiClamp e 1 2)).getD mip0) :=
  C22_cube_side_and_mip_edit (some 9) Option.none (exampleCubemap 12 5) 2 (by decide)
    (by decide) (by decide) (by decide) (by decide)

/-- The example of the witness of C22, evaluated. -/
theorem cubeEdit_example :
    cubeCoords 5 2 = some (3, 2) ∧
    (DoMultiSurface (MultiSurfaceInput.cubeEdit (some 9) Option.none) (exampleCubemap 12 5)).map
      (fun r => r.1.CurrImage.FrameNum) = some 11 ∧
    cubeCoords 11 2 = some (6, 2) := by
  decide

/-! ## Theorem on the exposure of ETC and EAC images in the KTX case -/

/-- A bit of the 32-bit word outside the flag constant keeps its value through
`CheckboxFlags`. -/
theorem CheckboxFlags_other_bit (c : Bool) (F f : Nat) (r : Bool) (p : Nat) (hp : p < 32)
    (hf : f.testBit p = false) : (CheckboxFlags c F f r).1.testBit p = F.testBit p := by
  unfold CheckboxFlags
  cases c
  · rfl
  · simp only [if_true]
    split_ifs
    · rw [Nat.testBit_and, not32_testBit, hf]
      simp [hp]
    · rw [Nat.testBit_or, hf, Bool.or_false]

/-- A bit of the 32-bit word outside the three gamma constants keeps its value through the
"Gamma Corr" combo. -/
theorem gammaCorrCombo_other_bit (b : GammaFlagBits) (sel : Option Int) (F : Nat) (r : Bool)
    (p : Nat) (hp : p < 32)
    (hf : (b.LoadFlag_GammaCompression ||| b.LoadFlag_SRGBCompression |||
      b.LoadFlag_AutoGamma).testBit p = false) :
    (gammaCorrCombo b sel F r).1.testBit p = F.testBit p := by
  cases sel with
  | none => rfl
  | some k =>
    show (gammaComboSelect b F k).testBit p = F.testBit p
    rw [gammaComboSelect_bit, hf]
    simp only [Nat.testBit_or, Bool.or_eq_false_iff] at hf
    obtain ⟨⟨h1, h2⟩, h3⟩ := hf
    rw [h1, h2, h3]
    simp [hp]

/-- Two words that agree on every bit of a constant read the same flag. -/
theorem and_eq_of_bits (F G f : Nat) (h : ∀ p, f.testBit p = true → G.testBit p = F.testBit p) :
    G &&& f = F &&& f := by
  apply Nat.eq_of_testBit_eq
  intro p
  rw [Nat.testBit_and, Nat.testBit_and]
  cases hfp : f.testBit p with
  | false => simp
  | true => rw [h p hfp]

/-- The bits of a constant that shares no bit with another one. -/
theorem testBit_of_and_eq_zero {f g : Nat} (h : f &&& g = 0) (p : Nat)
    (hf : f.testBit p = true) : g.testBit p = false := by
  have := congrArg (fun x => x.testBit p) h
  simp only [Nat.testBit_and, hf, Bool.true_and, Nat.zero_testBit] at this
  exact this

/-- The editors of the KTX case when the exposure is not offered: the exposure is not
written, and the ToneMapExposure flag is not written when its constant is separate. -/
theorem ktxEdits_noExposure (b : LoadFlagBits) (inp : FormatInput) (info : ImgInfo)
    (p : LoadParamsKTX) (hx : showExposureKTX info = false) (hsep : b.ToneMapSeparate) :
    (ktxEdits b inp info p).params.Exposure = p.Exposure ∧
    (ktxEdits b inp info p).params.Flags &&& b.LoadFlag_ToneMapExposure =
      p.Flags &&& b.LoadFlag_ToneMapExposure := by
  obtain ⟨h32, hg, hs, hl⟩ := hsep
  unfold ktxEdits
  simp only [hx, Bool.false_eq_true, if_false]
  refine ⟨trivial, ?_⟩
  apply and_eq_of_bits
  intro q hq
  have q32 : q < 32 := by
    by_contra hge
    have : b.LoadFlag_ToneMapExposure.testBit q = false :=
      Nat.testBit_lt_two_pow
        (lt_of_lt_of_le h32 (Nat.pow_le_pow_right (by norm_num) (by omega)))
    rw [this] at hq
    exact absurd hq (by simp)
  have bg := testBit_of_and_eq_zero hg q hq
  have bs := testBit_of_and_eq_zero hs q hq
  have bl := testBit_of_and_eq_zero hl q hq
  have e3 : ∀ (c : Bool) (F : Nat) (r : Bool),
      (if info.IsLuminanceFormat = true then CheckboxFlags c F b.LoadFlag_SpreadLuminance r
        else (F, r)).1.testBit q = F.testBit q := by
    intro c F r
    split_ifs
    · exact CheckboxFlags_other_bit c F _ r q q32 bl
    · rfl
  have e1 : ∀ (c : Bool) (F : Nat) (r : Bool),
      (if info.IsETCFormat = true then CheckboxFlags c F b.LoadFlag_SwizzleBGR2RGB r
        else (F, r)).1.testBit q = F.testBit q := by
    intro c F r
    split_ifs
    · exact CheckboxFlags_other_bit c F _ r q q32 bs
    · rfl
  rw [e3, gammaCorrCombo_other_bit _ _ _ _ q q32 bg, e1]

/-- C26. For a loaded KTX or KTX2 image whose source pixel format is ETC or EAC, whatever
its colour profile and HDR status, the condition of lines 508-512 is false and no exposure
control is offered: a pass of `ShowPropertiesWindow` through the open window in which Reset
is not pressed, whatever else the user does, leaves `LoadParams_KTX.Exposure` as it was,
whatever its value, and the ToneMapExposure flag reads as before.  The reload is assumed to
keep the load-parameter records and the ToneMapExposure constant to share no bit with the
other load-flag constants; the pass completes whenever a cubemap picture comes with at least
6 frames. -/
theorem C26_ktx_etc_no_exposure (m : ImageMethods) (t : LoadFlagTable) (inp : PropertiesInput)
    (s : PanelState)
    (hft : s.CurrImage.Filetype = tFileType.KTX ∨ s.CurrImage.Filetype = tFileType.KTX2)
    (hfmt : s.CurrImage.Info.IsETCFormat = true ∨ s.CurrImage.Info.IsEACFormat = true)
    (hbegin : inp.beginReturned = true) (hloaded : s.CurrImage.IsLoaded = true)
    (hm : m.ReloadKeepsParams) (hsep : t.KTX.ToneMapSeparate)
    (hreset : inp.format.reset = false) :
    showExposureKTX s.CurrImage.Info = false ∧
    (∀ p, ShowPropertiesWindow m t inp true s = some p →
      p.state.CurrImage.LoadParams_KTX.Exposure = s.CurrImage.LoadParams_KTX.Exposure ∧
      p.state.CurrImage.LoadParams_KTX.Flags &&& t.KTX.LoadFlag_ToneMapExposure =
        s.CurrImage.LoadParams_KTX.Flags &&& t.KTX.LoadFlag_ToneMapExposure ∧
      flagSet p.state.CurrImage.LoadParams_KTX.Flags t.KTX.LoadFlag_ToneMapExposure =
        flagSet s.CurrImage.LoadParams_KTX.Flags t.KTX.LoadFlag_ToneMapExposure) ∧
    ((s.CurrImage.AltCubemapPictureAvail = true → 6 ≤ s.CurrImage.NumFrames) →
      s.CurrImage.NumFrames ≤ INT_MAX →
      (ShowPropertiesWindow m t inp true s).isSome = true) := by
  have hx : showExposureKTX s.CurrImage.Info = false := by
    unfold showExposureKTX
    rcases hfmt with h | h <;> simp [h]
  refine ⟨hx, ?_, fun h6 hi => ShowPropertiesWindow_isSome m t inp true s h6 hi⟩
  intro p hp
  have hft4 : s.CurrImage.Filetype = tFileType.DDS ∨ s.CurrImage.Filetype = tFileType.PVR ∨
      s.CurrImage.Filetype = tFileType.KTX ∨ s.CurrImage.Filetype = tFileType.KTX2 := by
    rcases hft with h | h
    · exact Or.inr (Or.inr (Or.inl h))
    · exact Or.inr (Or.inr (Or.inr h))
  obtain ⟨r, hr, hret, _⟩ := ShowPropertiesWindow_calls m t inp s p hbegin hloaded hp
  have hps : p.state = r.state :=
    hret (multiSurfaceFormat_returned m t inp.format s r hft4 hr)
  have hk : ktxBranch m t.KTX inp.format s = some r := by
    unfold fileTypeSection at hr
    rcases hft with h | h <;> simp only [h] at hr <;> exact hr
  have hpar := ktxBranch_params m t.KTX inp.format s r hk hm hreset
  obtain ⟨e1, e2⟩ := ktxEdits_noExposure t.KTX inp.format s.CurrImage.Info
    s.CurrImage.LoadParams_KTX hx hsep
  rw [hps, hpar]
  exact ⟨e1, e2, by unfold flagSet; rw [e2]⟩

/-- Witness of C26: a KTX image in an ETC format that is also HDR, exposure 1 stored, and a
pass in which the user clicks the swizzle checkbox and selects the sRGB mode. -/
theorem C26_ktx_etc_no_exposure_witness :
    ∃ p, ShowPropertiesWindow exampleMethods exampleFlagTable
        { PropertiesInput.none with
          format := { FormatInput.none with swizzle := true, gammaCorr := some 2 } }
        true exampleEtcKtx = some p ∧
      p.state.CurrImage.LoadParams_KTX.Exposure = exampleEtcKtx.CurrImage.LoadParams_KTX.Exposure ∧
      p.state.calls = [Call.Unload, Call.Load] :=
  ⟨_, rfl,
    ((C26_ktx_etc_no_exposure exampleMethods exampleFlagTable
      { PropertiesInput.none with
        format := { FormatInput.none with swizzle := true, gammaCorr := some 2 } }
      exampleEtcKtx (Or.inl rfl) (Or.inl rfl) rfl rfl (fun _ => ⟨rfl, rfl⟩)
      ⟨by decide, by decide, by decide, by decide⟩ rfl).2.1 _ rfl).1, rfl⟩

/-! ## Theorem on the reload calls of the DDS, PVR and KTX/KTX2 cases -/

theorem CheckboxFlags_snd (c : Bool) (F f : Nat) (r : Bool) :
    (CheckboxFlags c F f r).2 = (c || r) := by
  cases c <;> rfl

theorem floatField_snd (e : Option Rat) (v lo hi : Rat) (r : Bool) :
    (floatField e v lo hi r).2 = (e.isSome || r) := by
  cases e <;> rfl

theorem gammaCorrCombo_snd (b : GammaFlagBits) (sel : Option Int) (F : Nat) (r : Bool) :
    (gammaCorrCombo b sel F r).2.2 = (sel.isSome || r) := by
  cases sel <;> rfl

theorem gammaField_snd (gm : Int) (e : Option Rat) (G : Rat) (r : Bool) :
    (gammaField gm e G r).2 = ((decide (gm = 1) && e.isSome) || r) := by
  unfold gammaField
  by_cases h : gm = 1
  · rw [if_pos h, floatField_snd]
    simp [h]
  · rw [if_neg h]
    simp [h]

theorem exposureBlock_snd (t : Nat) (e : Option Rat) (c : Bool) (F : Nat) (E : Rat) (r : Bool) :
    (exposureBlock t e c F E r).2.2 = (c || (e.isSome || r)) := by
  unfold exposureBlock
  simp only [CheckboxFlags_snd, floatField_snd]

/-- The DDS editors mark the reload exactly when one of them fired. -/
theorem ddsEdits_reload (b : LoadFlagBits) (inp : FormatInput) (info : ImgInfo)
    (p : LoadParamsDDS) :
    (ddsEdits b inp info p).reloadChanges =
      editFired info.IsETCFormat (showExposure info) false info.IsLuminanceFormat
        (ddsEdits b inp info p).gammaMode inp := by
  unfold ddsEdits editFired
  simp only []
  cases info.IsETCFormat <;> cases showExposure info <;> cases info.IsLuminanceFormat <;>
    simp only [if_true, if_false, Bool.false_eq_true, CheckboxFlags_snd, gammaCorrCombo_snd,
      gammaField_snd, exposureBlock_snd, Bool.false_and, Bool.true_and, Bool.or_false,
      Bool.false_or] <;>
    cases inp.swizzle <;> cases inp.gammaCorr.isSome <;> cases inp.gamma.isSome <;>
    cases inp.exposure.isSome <;> cases inp.exposureEnabled <;> cases inp.spreadLuminance <;>
    simp

/-- The PVR editors mark the reload exactly when one of them fired. -/
theorem pvrEdits_reload (b : LoadFlagBits) (inp : FormatInput) (info : ImgInfo)
    (p : LoadParamsPVR) :
    (pvrEdits b inp info p).reloadChanges =
      editFired false (showExposure info) info.IsRGBMOrRGBD info.IsLuminanceFormat
        (pvrEdits b inp info p).gammaMode inp := by
  unfold pvrEdits editFired
  simp only []
  cases info.IsRGBMOrRGBD <;> cases showExposure info <;> cases info.IsLuminanceFormat <;>
    simp only [if_true, if_false, Bool.false_eq_true, CheckboxFlags_snd, gammaCorrCombo_snd,
      gammaField_snd, exposureBlock_snd, floatField_snd, Bool.false_and, Bool.true_and,
      Bool.or_false, Bool.false_or] <;>
    cases inp.maxRange.isSome <;> cases inp.gammaCorr.isSome <;> cases inp.gamma.isSome <;>
    cases inp.exposure.isSome <;> cases inp.exposureEnabled <;> cases inp.spreadLuminance <;>
    simp

/-- The KTX editors mark the reload exactly when one of them fired. -/
theorem ktxEdits_reload (b : LoadFlagBits) (inp : FormatInput) (info : ImgInfo)
    (p : LoadParamsKTX) :
    (ktxEdits b inp info p).reloadChanges =
      editFired info.IsETCFormat (showExposureKTX info) false info.IsLuminanceFormat
        (ktxEdits b inp info p).gammaMode inp := by
  unfold ktxEdits editFired
  simp only []
  cases info.IsETCFormat <;> cases showExposureKTX info <;> cases info.IsLuminanceFormat <;>
    simp only [if_true, if_false, Bool.false_eq_true, CheckboxFlags_snd, gammaCorrCombo_snd,
      gammaField_snd, exposureBlock_snd, Bool.false_and, Bool.true_and, Bool.or_false,
      Bool.false_or] <;>
    cases inp.swizzle <;> cases inp.gammaCorr.isSome <;> cases inp.gamma.isSome <;>
    cases inp.exposure.isSome <;> cases inp.exposureEnabled <;> cases inp.spreadLuminance <;>
    simp

/-- The calls of the tail of a case, whether or not it reloads. -/
theorem multiSurfaceTail_calls_all (m : ImageMethods) (txt : String) (inp : FormatInput)
    (N : Int) (alt rc : Bool) (s : PanelState) :
    (multiSurfaceTail m txt inp N alt true rc s).state.calls =
      s.calls ++ (if inp.reset = true then [Call.ResetLoadParams] else []) ++
        (if (multiSurfaceTail m txt inp N alt true rc s).reloadChanges = true
          then (if alt = true
            then [Call.Unload, Call.Load, Call.EnableAltPicture true, Call.Bind]
            else [Call.Unload, Call.Load])
          else []) := by
  cases hr : (multiSurfaceTail m txt inp N alt true rc s).reloadChanges with
  | true =>
    rw [multiSurfaceTail_calls m txt inp N alt rc s hr]
    simp only [if_true]
  | false =>
    obtain ⟨hs, hreset, _⟩ := multiSurfaceTail_noReload m txt inp N alt rc s hr
    rw [hs, (scrubberToggle_image _ s).2, hreset]
    simp

/-- C21. In the DDS, PVR and KTX/KTX2 cases, for every completed pass: the calls the case
adds are those of `DoMultiSurface` (`EnableAltPicture` and `Bind` only), then
`ResetLoadParams` when Reset is pressed, then `Unload`, `Load` when the case marked the
reload and nothing otherwise, then `EnableAltPicture(true)`, `Bind` when moreover the
alternate picture was enabled as read after `DoMultiSurface`.  So `Unload` and `Load` are
called, once each and in that order, if and only if the reload was marked, and
`EnableAltPicture(true)`, `Bind` follow `Load` if and only if moreover the flag was set.  The
reload is marked if and only if Reset is pressed or one of the editors shown in the pass
fired (a flag checkbox, the combo, a gamma, exposure or max-range edit).  These cases end
the pass, so for the open window on a loaded image the calls of the case are those of
`ShowPropertiesWindow`. -/
theorem C21_multi_surface_reload_calls (m : ImageMethods) (t : LoadFlagTable)
    (inp : PropertiesInput) (s : PanelState) (r : SectionResult)
    (hft : s.CurrImage.Filetype = tFileType.DDS ∨ s.CurrImage.Filetype = tFileType.PVR ∨
      s.CurrImage.Filetype = tFileType.KTX ∨ s.CurrImage.Filetype = tFileType.KTX2)
    (h : fileTypeSection m t inp.format s = some r) :
    (∃ q pre, DoMultiSurface inp.format.multi s = some q ∧ (∀ c ∈ pre, c.IsAltCall) ∧
      r.state.calls =
        s.calls ++ pre ++ (if inp.format.reset = true then [Call.ResetLoadParams] else []) ++
          (if r.reloadChanges = true
            then (if q.1.CurrImage.AltPictureEnabled = true
              then [Call.Unload, Call.Load, Call.EnableAltPicture true, Call.Bind]
              else [Call.Unload, Call.Load])
            else []) ∧
      (r.state.calls.drop s.calls.length).count Call.Unload =
        (if r.reloadChanges = true then 1 else 0) ∧
      (r.state.calls.drop s.calls.length).count Call.Load =
        (if r.reloadChanges = true then 1 else 0)) ∧
    (s.CurrImage.Filetype = tFileType.DDS →
      r.reloadChanges = (inp.format.reset ||
        editFired s.CurrImage.Info.IsETCFormat (showExposure s.CurrImage.Info) false
          s.CurrImage.Info.IsLuminanceFormat
          (ddsEdits t.DDS inp.format s.CurrImage.Info s.CurrImage.LoadParams_DDS).gammaMode
          inp.format)) ∧
    (s.CurrImage.Filetype = tFileType.PVR →
      r.reloadChanges = (inp.format.reset ||
        editFired false (showExposure s.CurrImage.Info) s.CurrImage.Info.IsRGBMOrRGBD
          s.CurrImage.Info.IsLuminanceFormat
          (pvrEdits t.PVR inp.format s.CurrImage.Info s.CurrImage.LoadParams_PVR).gammaMode
          inp.format)) ∧
    (s.CurrImage.Filetype = tFileType.KTX ∨ s.CurrImage.Filetype = tFileType.KTX2 →
      r.reloadChanges = (inp.format.reset ||
        editFired s.CurrImage.Info.IsETCFormat (showExposureKTX s.CurrImage.Info) false
          s.CurrImage.Info.IsLuminanceFormat
          (ktxEdits t.KTX inp.format s.CurrImage.Info s.CurrImage.LoadParams_KTX).gammaMode
          inp.format)) ∧
    (inp.beginReturned = true → s.CurrImage.IsLoaded = true →
      ShowPropertiesWindow m t inp true s =
        some { state := r.state, reloadChanges := r.reloadChanges }) := by
  have hret := multiSurfaceFormat_returned m t inp.format s r hft h
  have mark : ∀ rc : Bool, (if inp.format.reset = true then true else rc) =
      (inp.format.reset || rc) := by
    intro rc
    cases inp.format.reset <;> rfl
  refine ⟨?_, fun hf => ?_, fun hf => ?_, fun hf => ?_, fun hbegin hloaded => ?_⟩
  · obtain ⟨q, txt, rc, img, hq, hs⟩ := multiSurfaceFormat_some m t inp.format s r hft h
    obtain ⟨e, n, g1, g2, g3, pre, hf, hpre⟩ := DoMultiSurface_form inp.format.multi s q hq
    have hc : ({ q.1 with CurrImage := img } : PanelState).calls = s.calls ++ pre := by
      show q.1.calls = s.calls ++ pre
      rw [hf]; rfl
    have hcalls : r.state.calls =
        s.calls ++ pre ++ (if inp.format.reset = true then [Call.ResetLoadParams] else []) ++
          (if r.reloadChanges = true
            then (if q.1.CurrImage.AltPictureEnabled = true
              then [Call.Unload, Call.Load, Call.EnableAltPicture true, Call.Bind]
              else [Call.Unload, Call.Load])
            else []) := by
      rw [hs, multiSurfaceTail_calls_all, hc]
    have hpreU : pre.count Call.Unload = 0 := by
      apply List.count_eq_zero_of_not_mem
      intro hm
      rcases hpre _ hm with h1 | ⟨b, h1⟩ <;> exact absurd h1 (by simp)
    have hpreL : pre.count Call.Load = 0 := by
      apply List.count_eq_zero_of_not_mem
      intro hm
      rcases hpre _ hm with h1 | ⟨b, h1⟩ <;> exact absurd h1 (by simp)
    refine ⟨q, pre, hq, hpre, hcalls, ?_, ?_⟩
    · rw [hcalls]
      simp only [List.append_assoc, List.drop_left, List.count_append, hpreU]
      cases inp.format.reset <;> cases r.reloadChanges <;>
        cases q.1.CurrImage.AltPictureEnabled <;> decide
    · rw [hcalls]
      simp only [List.append_assoc, List.drop_left, List.count_append, hpreL]
      cases inp.format.reset <;> cases r.reloadChanges <;>
        cases q.1.CurrImage.AltPictureEnabled <;> decide
  · unfold fileTypeSection at h
    simp only [hf] at h
    obtain ⟨q, _, hs⟩ := ddsBranch_some m _ inp.format s r h
    rw [hs, multiSurfaceTail_reload, mark, ddsEdits_reload]
  · unfold fileTypeSection at h
    simp only [hf] at h
    obtain ⟨q, _, hs⟩ := pvrBranch_some m _ inp.format s r h
    rw [hs, multiSurfaceTail_reload, mark, pvrEdits_reload]
  · have hk : ktxBranch m t.KTX inp.format s = some r := by
      unfold fileTypeSection at h
      rcases hf with hf | hf <;> simp only [hf] at h <;> exact h
    obtain ⟨q, _, hs⟩ := ktxBranch_some m _ inp.format s r hk
    rw [hs, multiSurfaceTail_reload, mark, ktxEdits_reload]
  · unfold ShowPropertiesWindow
    simp only [hbegin, hloaded, Bool.not_true, Bool.false_eq_true, if_false, h,
      Option.map_some', hret, if_true]

/-- Witness of C21: a DDS image with the alternate picture enabled and the sRGB mode
selected in the combo. -/
theorem C21_multi_surface_reload_calls_witness :
    ∃ r, fileTypeSection exampleMethods exampleFlagTable (FormatInput.gammaCorrOnly 2)
        (exampleAltEnabled tFileType.DDS 1 0) = some r ∧
      r.reloadChanges = true ∧
      r.state.calls = [Call.Unload, Call.Load, Call.EnableAltPicture true, Call.Bind] :=
  ⟨_, rfl,
    (C21_multi_surface_reload_calls exampleMethods exampleFlagTable
      { PropertiesInput.none with format := FormatInput.gammaCorrOnly 2 }
      (exampleAltEnabled tFileType.DDS 1 0) _ (Or.inl rfl) rfl).2.1 rfl, rfl⟩

/-! ## Theorem on a pass without interaction -/

theorem floatField_idle {v lo hi : Rat} (r : Bool) (h1 : lo ≤ v) (h2 : v ≤ hi) :
    floatField Option.none v lo hi r = (v, r) := by
  show (tiClamp v lo hi, r) = (v, r)
  rw [tiClamp_of_mem h1 h2]

theorem gammaField_idle (b : LoadFlagBits) (F : Nat) (G : Rat) (r : Bool)
    (h : GammaClampInRange b F G) :
    gammaField (readGammaMode b.toGammaFlagBits F) Option.none G r = (G, r) := by
  unfold gammaField
  split_ifs with g
  · exact floatField_idle r (h g).1 (h g).2
  · rfl

theorem exposureBlock_idle (t F : Nat) (E : Rat) (r : Bool) (h1 : 0.0 ≤ E) (h2 : E ≤ 4.0) :
    exposureBlock t Option.none false F E r = (F, E, r) := by
  unfold exposureBlock
  simp only [floatField_idle r h1 h2]
  rfl

theorem ite_exposureBlock_idle (shown : Bool) (t F : Nat) (E : Rat) (r : Bool)
    (h : shown = true → 0.0 ≤ E ∧ E ≤ 4.0) :
    (if shown = true then exposureBlock t Option.none false F E r else (F, E, r)) =
      (F, E, r) := by
  cases shown
  · rfl
  · exact exposureBlock_idle t F E r (h rfl).1 (h rfl).2

theorem ddsEdits_idle (b : LoadFlagBits) (info : ImgInfo) (p : LoadParamsDDS)
    (hg : GammaClampInRange b p.Flags p.Gamma)
    (he : showExposure info = true → 0.0 ≤ p.Exposure ∧ p.Exposure ≤ 4.0) :
    (ddsEdits b FormatInput.none info p).params = p ∧
    (ddsEdits b FormatInput.none info p).reloadChanges = false := by
  unfold ddsEdits
  simp only [FormatInput.none, CheckboxFlags, gammaCorrCombo, Bool.false_eq_true, if_false,
    ite_self, gammaField_idle b p.Flags p.Gamma false hg, ite_exposureBlock_idle _ _ _ _ _ he,
    and_self]

theorem pvrEdits_idle (b : LoadFlagBits) (info : ImgInfo) (p : LoadParamsPVR)
    (hg : GammaClampInRange b p.Flags p.Gamma)
    (he : showExposure info = true → 0.0 ≤ p.Exposure ∧ p.Exposure ≤ 4.0)
    (hr : info.IsRGBMOrRGBD = true → 0.01 ≤ p.MaxRange ∧ p.MaxRange ≤ 128.0) :
    (pvrEdits b FormatInput.none info p).params = p ∧
    (pvrEdits b FormatInput.none info p).reloadChanges = false := by
  have hmr : (if info.IsRGBMOrRGBD = true then floatField Option.none p.MaxRange 0.01 128.0 false
      else (p.MaxRange, false)) = (p.MaxRange, false) := by
    split_ifs with g
    · exact floatField_idle false (hr g).1 (hr g).2
    · rfl
  unfold pvrEdits
  simp only [FormatInput.none, CheckboxFlags, gammaCorrCombo, Bool.false_eq_true, if_false,
    ite_self, gammaField_idle b p.Flags p.Gamma false hg, ite_exposureBlock_idle _ _ _ _ _ he,
    hmr, and_self]

theorem ktxEdits_idle (b : LoadFlagBits) (info : ImgInfo) (p : LoadParamsKTX)
    (hg : GammaClampInRange b p.Flags p.Gamma)
    (he : showExposureKTX info = true → 0.0 ≤ p.Exposure ∧ p.Exposure ≤ 4.0) :
    (ktxEdits b FormatInput.none info p).params = p ∧
    (ktxEdits b FormatInput.none info p).reloadChanges = false := by
  unfold ktxEdits
  simp only [FormatInput.none, CheckboxFlags, gammaCorrCombo, Bool.false_eq_true, if_false,
    ite_self, gammaField_idle b p.Flags p.Gamma false hg, ite_exposureBlock_idle _ _ _ _ _ he,
    and_self]

theorem astcEdits_idle (b : LoadFlagBits) (p : LoadParamsASTC)
    (hg : GammaClampInRange b p.Flags p.Gamma) (h1 : 0.0 ≤ p.Exposure) (h2 : p.Exposure ≤ 4.0) :
    (astcEdits b FormatInput.none p).params = p ∧
    (astcEdits b FormatInput.none p).reloadChanges = false := by
  unfold astcEdits
  simp only [FormatInput.none, CheckboxFlags, gammaCorrCombo, Bool.false_eq_true, if_false,
    ite_self, gammaField_idle b p.Flags p.Gamma false hg, exposureBlock_idle _ _ _ _ h1 h2,
    and_self]

theorem pkmEdits_idle (b : LoadFlagBits) (info : ImgInfo) (p : LoadParamsPKM)
    (hg : GammaClampInRange b p.Flags p.Gamma) :
    (pkmEdits b FormatInput.none info p).params = p ∧
    (pkmEdits b FormatInput.none info p).reloadChanges = false := by
  unfold pkmEdits
  simp only [FormatInput.none, CheckboxFlags, gammaCorrCombo, Bool.false_eq_true, if_false,
    ite_self, gammaField_idle b p.Flags p.Gamma false hg, and_self]

theorem multiSurfaceTail_idle (m : ImageMethods) (txt : String) (N : Int) (alt : Bool)
    (s : PanelState) :
    multiSurfaceTail m txt FormatInput.none N alt true false s =
      { state := s, reloadChanges := false, returned := true,
        fileTypeSectionDisplayed := false } := by
  unfold multiSurfaceTail reloadWithAlt
  simp only [FormatInput.none, ite_self, Bool.and_false, Bool.false_eq_true, if_false,
    Bool.not_true]

theorem playbackRow_idle (m : ImageMethods) (n : Int) (s : PanelState) :
    playbackRow m PlaybackInput.none n s = s := by
  unfold playbackRow
  simp only [PlaybackInput.none, loopButton, skipBeginButton, prevButton, playRevButton,
    playFwdButton, nextButton, skipEndButton, Bool.false_and, Bool.false_eq_true, if_false]

theorem periodSection_idle (m : ImageMethods) (s : PanelState)
    (h : s.CurrImage.FrameDurationPreviewEnabled = true →
      0.0 ≤ s.CurrImage.FrameDurationPreview ∧ s.CurrImage.FrameDurationPreview ≤ 60.0) :
    periodSection m FramesInput.none s = s := by
  unfold periodSection
  split_ifs with g
  · unfold periodPreview
    simp only [FramesInput.none, Bool.false_eq_true, if_false]
    unfold PanelState.setFrameDurationPreview
    rw [tiClamp_of_mem (h g).1 (h g).2]
  · unfold periodPerFrame
    simp only [FramesInput.none, Bool.false_eq_true, if_false]

/-- The frames section without interaction changes at most the texts shown. -/
theorem framesSection_idle (m : ImageMethods) (d : Bool) (s : PanelState)
    (h : PeriodClampInRange s.CurrImage) :
    ∃ txts, framesSection m FramesInput.none d s = { s with texts := txts } := by
  have hs0 : ∀ c : Bool, ∃ txts,
      (if c = true then s.Text "No Editable Image Properties Available" else s) =
        { s with texts := txts } := by
    intro c
    cases c
    · exact ⟨s.texts, rfl⟩
    · exact ⟨_, rfl⟩
  unfold framesSection
  simp only []
  obtain ⟨txts, ht⟩ := hs0 (decide (s.CurrImage.NumFrames ≤ 1) && !d)
  rw [ht]
  by_cases hN : 1 < s.CurrImage.NumFrames
  · rw [if_pos (by simp only [decide_eq_true_eq, gt_iff_lt]; exact hN)]
    have e1 : frameNumEdit FramesInput.none.frame ({ s with texts := txts } : PanelState) =
        { s with texts := txts } := rfl
    have e2 : periodSection m FramesInput.none ({ s with texts := txts } : PanelState) =
        { s with texts := txts } := periodSection_idle m _ (fun g => h hN g)
    rw [e1, e2]
    simp only [FramesInput.none, Bool.false_eq_true, if_false]
    exact ⟨txts, playbackRow_idle m _ _⟩
  · rw [if_neg (by simp only [decide_eq_true_eq, gt_iff_lt]; exact hN)]
    exact ⟨txts, rfl⟩

/-- The file-type section without interaction, on an image whose executed clamps are in
range: no reload is marked and at most the texts shown change. -/
theorem fileTypeSection_idle (m : ImageMethods) (t : LoadFlagTable) (s : PanelState)
    (hclamps : ExecutedClampsInRange t s.CurrImage)
    (h6 : s.CurrImage.AltCubemapPictureAvail = true → 6 ≤ s.CurrImage.NumFrames)
    (hi : s.CurrImage.NumFrames ≤ INT_MAX) :
    ∃ r txts, fileTypeSection m t FormatInput.none s = some r ∧ r.reloadChanges = false ∧
      r.state = { s with texts := txts } ∧
      (r.returned = false → PeriodClampInRange s.CurrImage) := by
  have hsome := DoMultiSurface_isSome MultiSurfaceInput.none s h6 hi
  cases hq : DoMultiSurface MultiSurfaceInput.none s with
  | none => rw [hq] at hsome; exact absurd hsome (by decide)
  | some q =>
    have hqs : q.1 = s := DoMultiSurface_none s q hq
    have hm : FormatInput.none.multi = MultiSurfaceInput.none := rfl
    unfold fileTypeSection
    unfold ExecutedClampsInRange at hclamps
    cases hf : s.CurrImage.Filetype <;> simp only [hf] at hclamps ⊢
    · obtain ⟨g, e⟩ := hclamps
      obtain ⟨x1, x2⟩ := ddsEdits_idle t.DDS s.CurrImage.Info s.CurrImage.LoadParams_DDS g e
      rw [ddsBranch_eq, hm, hq, Option.map_some', hqs, x1, x2, multiSurfaceTail_idle]
      exact ⟨_, s.texts, rfl, rfl, rfl, fun h => absurd h (by simp)⟩
    · obtain ⟨g, e, mr⟩ := hclamps
      obtain ⟨x1, x2⟩ := pvrEdits_idle t.PVR s.CurrImage.Info s.CurrImage.LoadParams_PVR g e mr
      rw [pvrBranch_eq, hm, hq, Option.map_some', hqs, x1, x2, multiSurfaceTail_idle]
      exact ⟨_, s.texts, rfl, rfl, rfl, fun h => absurd h (by simp)⟩
    · obtain ⟨g, e⟩ := hclamps
      obtain ⟨x1, x2⟩ := ktxEdits_idle t.KTX s.CurrImage.Info s.CurrImage.LoadParams_KTX g e
      rw [ktxBranch_eq, hm, hq, Option.map_some', hqs, x1, x2, multiSurfaceTail_idle]
      exact ⟨_, s.texts, rfl, rfl, rfl, fun h => absurd h (by simp)⟩
    · obtain ⟨g, e⟩ := hclamps
      obtain ⟨x1, x2⟩ := ktxEdits_idle t.KTX s.CurrImage.Info s.CurrImage.LoadParams_KTX g e
      rw [ktxBranch_eq, hm, hq, Option.map_some', hqs, x1, x2, multiSurfaceTail_idle]
      exact ⟨_, s.texts, rfl, rfl, rfl, fun h => absurd h (by simp)⟩
    · obtain ⟨g, e1, e2⟩ := hclamps
      obtain ⟨x1, x2⟩ := astcEdits_idle t.ASTC s.CurrImage.LoadParams_ASTC g e1 e2
      refine ⟨_, s.texts, rfl, ?_, ?_, fun h => absurd h (by simp [astcBranch])⟩
      · unfold astcBranch
        simp only [FormatInput.none, Bool.false_eq_true, if_false]
        exact x2
      · unfold astcBranch
        simp only []
        have hr : FormatInput.none.reset = false := rfl
        rw [hr]
        simp only [Bool.false_eq_true, if_false]
        rw [x1, x2]
        rfl
    · have g := hclamps
      obtain ⟨x1, x2⟩ := pkmEdits_idle t.PKM s.CurrImage.Info s.CurrImage.LoadParams_PKM g
      refine ⟨_, s.texts, rfl, ?_, ?_, fun h => absurd h (by simp [pkmBranch])⟩
      · unfold pkmBranch
        simp only [FormatInput.none, Bool.false_eq_true, if_false]
        exact x2
      · unfold pkmBranch
        simp only []
        have hr : FormatInput.none.reset = false := rfl
        rw [hr]
        simp only [Bool.false_eq_true, if_false]
        rw [x1, x2]
        rfl
    · obtain ⟨⟨g1, g2, e1, e2⟩, hp⟩ := hclamps
      have hr : (hdrBranch m FormatInput.none s).reloadChanges = false := rfl
      exact ⟨_, _, rfl, hr, hdrBranch_noReload m FormatInput.none s hr g1 g2 e1 e2,
        fun _ => hp⟩
    · obtain ⟨⟨g1, g2, e1, e2, d1, d2, l1, l2, k1, k2⟩, hp⟩ := hclamps
      have hr : (exrBranch m FormatInput.none s).reloadChanges = false := rfl
      exact ⟨_, _, rfl, hr,
        exrBranch_noReload m FormatInput.none s hr g1 g2 e1 e2 d1 d2 l1 l2 k1 k2, fun _ => hp⟩
    · have hr : (tgaBranch m t.TGA_AlphaOpacity FormatInput.none s).reloadChanges = false := by
        unfold tgaBranch
        by_cases hfmt : s.CurrImage.Info.IsRGBA8OrG3B5A1R5G2 = true
        · rw [if_pos hfmt]
          rfl
        · rw [if_neg hfmt]
      have hst := tgaBranch_noReload m t.TGA_AlphaOpacity FormatInput.none s hr
      refine ⟨_, (if s.CurrImage.Info.IsRGBA8OrG3B5A1R5G2 = true
        then s.texts ++ ["Truevision TGA"] else s.texts), rfl, hr, ?_, fun _ => hclamps⟩
      rw [hst]
      split_ifs <;> rfl
    · refine ⟨_, s.texts, rfl, ?_, ?_, fun _ => hclamps⟩
      · unfold webpBranch
        split_ifs <;> rfl
      · unfold webpBranch
        simp only [FormatInput.none, Bool.false_eq_true, if_false]
        split_ifs <;> rfl
    · exact ⟨_, s.texts, rfl, rfl, rfl, fun _ => hclamps⟩

/-- C29. A pass of `ShowPropertiesWindow` without user interaction completes, marks no reload,
makes no call at all (no `Load`, `Unload`, `EnableAltPicture`, `Bind`, `SetFrameDuration`,
`Play`, `Stop` or `ResetLoadParams`) and leaves the image (`FrameNum`, every load-parameter
record, the play flags and `FrameDurationPreview` included), the crop flag, the three global
toggles and the scrubber flag as they were; only the texts shown may change.  This holds
with or without a current image, loaded or not, window open or not, whenever every numeric
field whose clamp the pass executes is inside its declared range (a condition on the passes
that reach the file-type section), for C++ `int` frame counts and a cubemap picture that
comes with at least 6 frames. -/
theorem C29_idle_pass_identity (m : ImageMethods) (t : LoadFlagTable) (inp : PropertiesInput)
    (hasCurrImage : Bool) (s : PanelState)
    (hformat : inp.format = FormatInput.none) (hframes : inp.frames = FramesInput.none)
    (hclamps : inp.beginReturned = true → hasCurrImage = true → s.CurrImage.IsLoaded = true →
      ExecutedClampsInRange t s.CurrImage)
    (h6 : s.CurrImage.AltCubemapPictureAvail = true → 6 ≤ s.CurrImage.NumFrames)
    (hi : s.CurrImage.NumFrames ≤ INT_MAX) :
    ∃ r, ShowPropertiesWindow m t inp hasCurrImage s = some r ∧ r.reloadChanges = false ∧
      r.state.CurrImage = s.CurrImage ∧ r.state.calls = s.calls ∧
      r.state.CropMode = s.CropMode ∧
      r.state.gShowAllMipsUnified = s.gShowAllMipsUnified ∧
      r.state.gShowAllArrayLayers = s.gShowAllArrayLayers ∧
      r.state.gShowLayerMipMatrix = s.gShowLayerMipMatrix ∧
      r.state.ShowFrameScrubber = s.ShowFrameScrubber := by
  have key : ∃ r txts, ShowPropertiesWindow m t inp hasCurrImage s = some r ∧
      r.reloadChanges = false ∧ r.state = { s with texts := txts } := by
    unfold ShowPropertiesWindow
    cases hb : inp.beginReturned with
    | false => exact ⟨_, s.texts, rfl, rfl, rfl⟩
    | true =>
      cases hc : hasCurrImage with
      | false => exact ⟨_, _, rfl, rfl, rfl⟩
      | true =>
        cases hl : s.CurrImage.IsLoaded with
        | false => exact ⟨_, _, rfl, rfl, rfl⟩
        | true =>
          obtain ⟨q, txts, hq, hr, hs, hper⟩ :=
            fileTypeSection_idle m t s (hclamps hb hc hl) h6 hi
          simp only [Bool.not_true, Bool.false_eq_true, if_false, hformat, hframes, hq,
            Option.map_some']
          cases hret : q.returned with
          | true =>
            simp only [if_true]
            exact ⟨_, txts, rfl, hr, hs⟩
          | false =>
            simp only [Bool.false_eq_true, if_false]
            have hp : PeriodClampInRange q.state.CurrImage := by
              rw [hs]
              exact hper hret
            obtain ⟨txts2, h2⟩ := framesSection_idle m q.fileTypeSectionDisplayed q.state hp
            refine ⟨_, txts2, rfl, hr, ?_⟩
            show framesSection m FramesInput.none q.fileTypeSectionDisplayed q.state = _
            rw [h2, hs]
  obtain ⟨r, txts, h1, h2, h3⟩ := key
  refine ⟨r, h1, h2, ?_⟩
  rw [h3]
  exact ⟨rfl, rfl, rfl, rfl, rfl, rfl, rfl⟩

/-- Witness of C29: an idle pass on a Radiance HDR image with gamma 2 and exposure 5, both
inside their ranges. -/
theorem C29_idle_pass_identity_witness :
    ∃ r, ShowPropertiesWindow exampleMethods exampleFlagTable PropertiesInput.none true
        (exampleHDR 5 false) = some r ∧ r.reloadChanges = false ∧
      r.state.CurrImage = (exampleHDR 5 false).CurrImage ∧
      r.state.calls = (exampleHDR 5 false).calls ∧
      r.state.CropMode = (exampleHDR 5 false).CropMode ∧
      r.state.gShowAllMipsUnified = (exampleHDR 5 false).gShowAllMipsUnified ∧
      r.state.gShowAllArrayLayers = (exampleHDR 5 false).gShowAllArrayLayers ∧
      r.state.gShowLayerMipMatrix = (exampleHDR 5 false).gShowLayerMipMatrix ∧
      r.state.ShowFrameScrubber = (exampleHDR 5 false).ShowFrameScrubber :=
  C29_idle_pass_identity exampleMethods exampleFlagTable PropertiesInput.none true
    (exampleHDR 5 false) rfl rfl
    (fun _ _ _ => by
      simp [ExecutedClampsInRange, PeriodClampInRange, exampleHDR, exampleOfType,
        exampleFrames, exampleCubemap]
      norm_num)
    (fun h => absurd h (by decide)) (by decide)

/-! ## Theorem on the profile names -/

/-- C30. The tables `ProfileNames` and `ProfileNamesLong` have four entries each, the short
names are Main, Basic, Kiosk and Alt in this order, and at every index the long name is the
short name at that index followed by " Profile". -/
theorem C30_profile_names :
    ProfileNames = ["Main", "Basic", "Kiosk", "Alt"] ∧
    ProfileNames.length = 4 ∧ ProfileNamesLong.length = 4 ∧
    ProfileNamesLong = ProfileNames.map (fun name => name ++ " Profile") ∧
    ∀ i : Fin 4, ProfileNamesLong.get? i.val =
      (ProfileNames.get? i.val).map (fun name => name ++ " Profile") := by
  refine ⟨rfl, rfl, rfl, by decide, by decide⟩

end Viewer
